import Mathlib

/-!
# The albinos configuration service

A shallow embedding of `service/db.hpp` (the store adapter `config_db`) and of
`service/service.hpp` (the request handlers and the data-event listener of
`raven::service`), followed by theorems about them.

Conventions of the embedding:

* a JSON value of the C++ code (`nlohmann::json`) is a value of `json`; a JSON object is the
  list of its members in key order (the library keeps an object in a `std::map`);
* the sqlite table `config` is the list of its rows in rowid order; the select on a key,
  which has no `order by`, delivers the rows found through the index on `config_key` before
  those found through the index on `readonly_config_key`;
* member functions of `config_db` and of `service` become functions that take the object and
  return the new object next to their result;
* a C++ exception that leaves a handler is returned in the field `thrown` of the outcome.
-/

namespace raven

/-! ## JSON values -/

/-- JSON values as held by `nlohmann::json` (numbers are integers here). -/
inductive json where
  | null
  | boolean (b : Bool)
  | number (n : Int)
  | string (s : String)
  | array (elems : List json)
  | object (fields : List (String × json))

mutual
/-- Decision procedure for equality of JSON values. -/
def json.decEq : (a b : json) → Decidable (a = b)
  | .null, .null => isTrue rfl
  | .boolean a, .boolean b =>
    if h : a = b then isTrue (by rw [h]) else isFalse (by intro e; cases e; exact h rfl)
  | .number a, .number b =>
    if h : a = b then isTrue (by rw [h]) else isFalse (by intro e; cases e; exact h rfl)
  | .string a, .string b =>
    if h : a = b then isTrue (by rw [h]) else isFalse (by intro e; cases e; exact h rfl)
  | .array a, .array b =>
    match json.decEqList a b with
    | isTrue h => isTrue (by rw [h])
    | isFalse h => isFalse (by intro e; cases e; exact h rfl)
  | .object a, .object b =>
    match json.decEqFields a b with
    | isTrue h => isTrue (by rw [h])
    | isFalse h => isFalse (by intro e; cases e; exact h rfl)
  | .null, .boolean _ | .null, .number _ | .null, .string _ | .null, .array _
  | .null, .object _ | .boolean _, .null | .boolean _, .number _ | .boolean _, .string _
  | .boolean _, .array _ | .boolean _, .object _ | .number _, .null | .number _, .boolean _
  | .number _, .string _ | .number _, .array _ | .number _, .object _ | .string _, .null
  | .string _, .boolean _ | .string _, .number _ | .string _, .array _ | .string _, .object _
  | .array _, .null | .array _, .boolean _ | .array _, .number _ | .array _, .string _
  | .array _, .object _ | .object _, .null | .object _, .boolean _ | .object _, .number _
  | .object _, .string _ | .object _, .array _ =>
    isFalse (by intro e; cases e)
/-- Decision procedure for equality of lists of JSON values. -/
def json.decEqList : (a b : List json) → Decidable (a = b)
  | [], [] => isTrue rfl
  | [], _ :: _ => isFalse (by intro e; cases e)
  | _ :: _, [] => isFalse (by intro e; cases e)
  | x :: xs, y :: ys =>
    match json.decEq x y, json.decEqList xs ys with
    | isTrue h₁, isTrue h₂ => isTrue (by rw [h₁, h₂])
    | isFalse h₁, _ => isFalse (by intro e; cases e; exact h₁ rfl)
    | _, isFalse h₂ => isFalse (by intro e; cases e; exact h₂ rfl)
/-- Decision procedure for equality of member lists of JSON objects. -/
def json.decEqFields : (a b : List (String × json)) → Decidable (a = b)
  | [], [] => isTrue rfl
  | [], _ :: _ => isFalse (by intro e; cases e)
  | _ :: _, [] => isFalse (by intro e; cases e)
  | (k, x) :: xs, (l, y) :: ys =>
    if hk : k = l then
      match json.decEq x y, json.decEqFields xs ys with
      | isTrue h₁, isTrue h₂ => isTrue (by rw [hk, h₁, h₂])
      | isFalse h₁, _ => isFalse (by intro e; cases e; exact h₁ rfl)
      | _, isFalse h₂ => isFalse (by intro e; cases e; exact h₂ rfl)
    else isFalse (by intro e; cases e; exact hk rfl)
end

instance : DecidableEq json := json.decEq

/-- The C++ exceptions that the embedded code can raise.  `nlohmann::json::out_of_range`,
`type_error` and `parse_error` derive from `nlohmann::json::exception`, which derives from
`std::exception`; none of them derives from `std::out_of_range`, which is what
`std::unordered_map::at` throws. -/
inductive cpp_exception where
  | std_out_of_range
  | json_out_of_range
  | json_type_error
  | json_parse_error
  deriving DecidableEq, Repr

/-- The order of `std::string` keys in a `std::map`: lexicographic on the code units (the
order of the UTF-8 bytes is the order of the code points). -/
def key_lt (a b : String) : Bool :=
  decide (a.data.map Char.toNat < b.data.map Char.toNat)

/-- Member lookup in a JSON object, as `find`: the value stored under `key`, if any. -/
def object_find : List (String × json) → String → Option json
  | [], _ => none
  | (k, v) :: rest, key => if k = key then some v else object_find rest key

/-- The assignment `object[key] = value` on a JSON object: the member is overwritten when the
key is present and is otherwise inserted at its place in key order. -/
def object_set : List (String × json) → String → json → List (String × json)
  | [], key, value => [(key, value)]
  | (k, v) :: rest, key, value =>
    if k = key then (k, value) :: rest
    else if key_lt key k then (key, value) :: (k, v) :: rest
    else (k, v) :: object_set rest key value

/-- The method `json::at(key)`: a non-object raises `type_error`, a missing key raises
`json::out_of_range`. -/
def json.at : json → String → Except cpp_exception json
  | .object fields, key =>
    match object_find fields key with
    | some v => .ok v
    | none => .error .json_out_of_range
  | _, _ => .error .json_type_error

/-- The conversion `get<std::string>()`, also the implicit conversion of a JSON value to a
`std::string`: anything but a JSON string raises `type_error`. -/
def json.get_string : json → Except cpp_exception String
  | .string s => .ok s
  | _ => .error .json_type_error

/-- The conversion `get<std::size_t>()`: a number is cast to 64 bits unsigned, anything else
raises `type_error`. -/
def json.get_size_t : json → Except cpp_exception Nat
  | .number n => .ok (n % (2 ^ 64 : Int)).toNat
  | _ => .error .json_type_error

/-! ## The store adapter, `db.hpp` -/

/-- The document kept in column `config_text`.  The table is written by `config_create`,
`update_config` and `config_include` only, and each of them writes a JSON object of this
shape: `CONFIG_NAME` a string, `SETTINGS` an object, `INCLUDES` an array, and `OTHER_CONFIG`
absent (`none`) until `config_include` stores an array of ids there. -/
structure document where
  config_name : String
  settings : List (String × json)
  includes : List Nat
  other_config : Option (List Nat)
  deriving DecidableEq

/-- One row of table `config`. -/
structure row where
  config_text : document
  id : Nat
  config_key : String
  readonly_config_key : String
  deriving DecidableEq

/-- The enumeration `db_state`. -/
inductive db_state where
  | good
  | unknow_config_key
  | unknow_config_id
  | sql_error
  | fatal_error
  deriving DecidableEq, Repr

/-- The enumeration `request_state` of `protocol.hpp`, with the enumerators that the sources
use. -/
inductive request_state where
  | success
  | unknown_request
  | unknown_id
  | unknown_key
  | unknown_setting
  | db_error
  | internal_error
  deriving DecidableEq, Repr

/-- The struct `config_create_result`. -/
structure config_create_result where
  config_key : String
  readonly_config_key : String
  config_id : Nat
  deriving DecidableEq

/-- The struct `config_include_answer_db`. -/
structure config_include_answer_db where
  state : request_state
  nb_configs : Nat
  deriving DecidableEq

/-- The class `config_db`: the table (`database_`, rows in rowid order, together with the
largest rowid that AUTOINCREMENT has handed out, `sequence`), and the members `nb_tries_`
and `state`. -/
structure config_db where
  database_ : List row
  sequence : Nat
  nb_tries_ : Nat
  state : db_state
  deriving DecidableEq

/-- The member `maximum_retries_`. -/
def maximum_retries_ : Nat := 4

/-- The state of a `config_db` opened on a new file. -/
def config_db.init : config_db :=
  { database_ := [], sequence := 0, nb_tries_ := 0, state := .good }

/-- The member `good()`. -/
def config_db.good (db : config_db) : Bool := decide (db.state = .good)

/-- The member `fail()`. -/
def config_db.fail (db : config_db) : Bool := !db.good

/-- The member `get_state()`. -/
def config_db.get_state (db : config_db) : db_state := db.state

/-- The rowid that AUTOINCREMENT gives to the next inserted row: one more than the largest
rowid ever used. -/
def config_db.next_rowid (db : config_db) : Nat :=
  (db.database_.map row.id).foldr max db.sequence + 1

/-- The outcome of `insert into config (config_text, config_key, readonly_config_key)`: the
unique indexes on `config_key` and on `readonly_config_key` reject the row (`none`, the
exception `constraint_unique`, the table is unchanged) when another row has the same value in
that column; otherwise the row is appended and its rowid is returned. -/
def config_db.insert (db : config_db) (text : document) (key ro_key : String) :
    Option (config_db × Nat) :=
  if db.database_.any (fun r => decide (r.config_key = key))
      || db.database_.any (fun r => decide (r.readonly_config_key = ro_key)) then none
  else
    let rowid := db.next_rowid
    some ({ db with
            database_ := db.database_ ++
              [{ config_text := text, id := rowid, config_key := key,
                 readonly_config_key := ro_key }],
            sequence := rowid }, rowid)

/-- The rows selected by `where id = ?`. -/
def config_db.rows_of_id (db : config_db) (id : Nat) : List row :=
  db.database_.filter (fun r => decide (r.id = id))

/-- The rows selected by `where config_key = ? or readonly_config_key = ?`, both parameters
bound to `key`, in the order in which SQLite delivers them.  The statement has no `order by`,
and SQLite evaluates the `or` over the two unique indexes of the table: first the rows that
the index on `config_key` finds, then the rows that the index on `readonly_config_key` finds
and that were not delivered already. -/
def config_db.rows_of_key (db : config_db) (key : String) : List row :=
  db.database_.filter (fun r => decide (r.config_key = key)) ++
    db.database_.filter
      (fun r => !decide (r.config_key = key) && decide (r.readonly_config_key = key))

/-- The document that `config_create` inserts for `name`. -/
def new_document (name : String) : document :=
  { config_name := name, settings := [], includes := [], other_config := none }

/-- The retry loop of `config_create`, entered with `nb_tries_ = nb` and `fuel` iterations
left before `nb_tries_` reaches `maximum_retries_`.  `random_string` gives the successive
outcomes of `random_string()` (two per attempt) and `hash` is `std::hash<std::string>`.
An attempt that violates a unique constraint sets `sql_error` and the loop goes on; an
attempt that inserts reads the keys of the row with `last_insert_rowid()`, sets `good` and
leaves the loop. -/
def config_db.config_create_loop (name : String) (random_string : Nat → String)
    (hash : String → Nat) : Nat → Nat → config_db → config_create_result × config_db
  | 0, nb, db =>
    ({ config_key := "", readonly_config_key := "", config_id := 0 }, { db with nb_tries_ := nb })
  | fuel + 1, nb, db =>
    match db.insert (new_document name)
        (random_string (2 * nb) ++ toString (hash name))
        (random_string (2 * nb + 1) ++ toString (hash name)) with
    | some (db', rowid) =>
      match (db'.rows_of_id rowid).getLast? with
      | some r =>
        ({ config_key := r.config_key, readonly_config_key := r.readonly_config_key,
           config_id := rowid },
         { db' with nb_tries_ := nb, state := .good })
      | none =>
        ({ config_key := "", readonly_config_key := "", config_id := rowid },
         { db' with nb_tries_ := nb, state := .good })
    | none =>
      config_db.config_create_loop name random_string hash fuel (nb + 1)
        { db with state := .sql_error }

/-- The member `config_create(name)`. -/
def config_db.config_create (db : config_db) (name : String) (random_string : Nat → String)
    (hash : String → Nat) : config_create_result × config_db :=
  config_db.config_create_loop name random_string hash maximum_retries_ 0 db

/-- The member `get_config_name(config_id)`.  An empty table raises `errors::empty`
(`sql_error`), no row with this id raises `misuse` (`unknow_config_id`); otherwise the
functor runs on every selected row and the name of the last one is returned.  The state is
not assigned on the path without exception. -/
def config_db.get_config_name (db : config_db) (config_id : Nat) : String × config_db :=
  if db.database_.length = 0 then ("", { db with state := .sql_error })
  else
    match (db.rows_of_id config_id).getLast? with
    | none => ("", { db with state := .unknow_config_id })
    | some r => (r.config_text.config_name, db)

/-- The member `get_config_id(config_key)`.  An empty table raises `errors::empty`
(`sql_error`), no row with this key raises `misuse` (`unknow_config_key`); otherwise the
functor runs on every row that the select delivers, and the id of the last one is returned:
when a row has the key as its `readonly_config_key` and another row has it as its
`config_key`, it is the id of the former.  The state is not assigned on the path without
exception. -/
def config_db.get_config_id (db : config_db) (config_key : String) : Nat × config_db :=
  if db.database_.length = 0 then (0, { db with state := .sql_error })
  else
    match (db.rows_of_key config_key).getLast? with
    | none => (0, { db with state := .unknow_config_key })
    | some r => (r.id, db)

/-- The JSON value `data` of `get_config` before the functor has assigned it (the null value);
it is what `get_config` returns when it fails, and the callers test `fail()` before they use
the result. -/
def null_document : document :=
  { config_name := "", settings := [], includes := [], other_config := none }

/-- The member `get_config(id)`.  No row with this id raises `misuse` (`unknow_config_id`);
otherwise the functor parses the text of the selected row and the state becomes `good`. -/
def config_db.get_config (db : config_db) (id : Nat) : document × config_db :=
  match (db.rows_of_id id).getLast? with
  | none => (null_document, { db with state := .unknow_config_id })
  | some r => (r.config_text, { db with state := .good })

/-- The statement `UPDATE config set config_text = ? where id = ?`. -/
def config_db.write_text (db : config_db) (text : document) (id : Nat) : config_db :=
  { db with
    database_ :=
      db.database_.map (fun r => if r.id = id then { r with config_text := text } else r) }

/-- The member `update_config(updated_data, id)`. -/
def config_db.update_config (db : config_db) (updated_data : document) (id : Nat) : config_db :=
  if (db.rows_of_id id).length = 0 then { db with state := .unknow_config_id }
  else { (db.write_text updated_data id) with state := .good }

/-- The algorithm `std::unique`: of each run of equal neighbours the first is kept. -/
def std_unique : List Nat → List Nat
  | [] => []
  | [a] => [a]
  | a :: b :: rest => if a = b then std_unique (b :: rest) else a :: std_unique (b :: rest)

/-- The functor of `config_include`, applied to the document of the destination: `src_id` is
pushed on `OTHER_CONFIG` (created as an array when absent), the array is sorted, and the
repeated neighbours are erased. -/
def include_into (text : document) (src_id : Nat) : document :=
  { text with
    other_config :=
      some (std_unique (((text.other_config.getD []) ++ [src_id]).insertionSort (· ≤ ·))) }

/-- The member `config_include(config_include_data)` with `id = dst_id`.  A missing
destination or source row raises `misuse` and the answer is `unknown_id`; otherwise the
functor runs on the selected row (`id` is the primary key), rewrites its document and sets
`nb_configs` to the size of the array.  The member `state` is not touched. -/
def config_db.config_include (db : config_db) (dst_id src_id : Nat) :
    config_include_answer_db × config_db :=
  if (db.rows_of_id dst_id).length = 0 then ({ state := .unknown_id, nb_configs := 0 }, db)
  else if (db.rows_of_id src_id).length = 0 then ({ state := .unknown_id, nb_configs := 0 }, db)
  else
    match (db.rows_of_id dst_id).getLast? with
    | none => ({ state := .success, nb_configs := 0 }, db)
    | some r =>
      ({ state := .success,
         nb_configs := ((include_into r.config_text src_id).other_config.getD []).length },
       db.write_text (include_into r.config_text src_id) dst_id)

/-! ## The session of a client, `client.hpp` -/

/-- Modelled from the spec: the class `client` of `client.hpp`, which is not part of the
sources; this is the session record of the specification: the connection handle, the mapping
from temp-id to config_id of the loaded configurations (the inverse mapping is read off the
same list), the last temp-id handed out, and the set of subscriptions
`(config_id, setting_name)`. -/
structure client where
  socket_ : Nat
  last_id_ : Nat
  config_ids_ : List (Nat × Nat)
  subscriptions_ : List (Nat × String)
  deriving DecidableEq

/-- Modelled from the spec: the session that is constructed on accept, with nothing loaded. -/
def client.init (socket : Nat) : client :=
  { socket_ := socket, last_id_ := 0, config_ids_ := [], subscriptions_ := [] }

/-- Modelled from the spec: `get_socket`, the connection handle of the session. -/
def client.get_socket (c : client) : Nat := c.socket_

/-- Modelled from the spec: HasLoaded(temp_id). -/
def client.has_loaded (c : client) (temp_id : Nat) : Bool :=
  c.config_ids_.any (fun p => decide (p.1 = temp_id))

/-- Modelled from the spec: GetDbId(temp_id), whose pre-condition is HasLoaded(temp_id). -/
def client.get_db_id_from (c : client) (temp_id : Nat) : Nat :=
  match c.config_ids_.find? (fun p => decide (p.1 = temp_id)) with
  | some p => p.2
  | none => 0

/-- Modelled from the spec: GetTempId(config_id), a temp-id of the session for that persistent
id (the oldest one when the configuration is loaded several times). -/
def client.get_id_from_db (c : client) (db_id : Nat) : Nat :=
  match c.config_ids_.find? (fun p => decide (p.2 = db_id)) with
  | some p => p.1
  | none => 0

/-- Modelled from the spec: InsertDbId(config_id), which allocates the next temp-id of the
session (they start at 1), records the mapping and returns the temp-id. -/
def client.insert_db_id (c : client) (db_id : Nat) : Nat × client :=
  (c.last_id_ + 1,
   { c with last_id_ := c.last_id_ + 1, config_ids_ := c.config_ids_ ++ [(c.last_id_ + 1, db_id)] })

/-- Modelled from the spec: RemoveTempId(temp_id), which drops the mapping and all the
subscriptions of the session on the associated config_id, and is silent on an unknown
temp-id. -/
def client.remove_temp_id (c : client) (temp_id : Nat) : client :=
  if c.has_loaded temp_id then
    { c with
      config_ids_ := c.config_ids_.filter (fun p => !decide (p.1 = temp_id)),
      subscriptions_ :=
        c.subscriptions_.filter (fun p => !decide (p.1 = c.get_db_id_from temp_id)) }
  else c

/-- Modelled from the spec: IsSubscribed(config_id, setting_name). -/
def client.is_subscribed (c : client) (db_id : Nat) (setting_name : String) : Bool :=
  c.subscriptions_.any (fun p => decide (p = (db_id, setting_name)))

/-- Modelled from the spec: Subscribe(temp_id, setting_name), which records
`(GetDbId(temp_id), setting_name)` and is idempotent; outside the pre-condition of GetDbId
nothing is recorded. -/
def client.subscribe (c : client) (temp_id : Nat) (setting_name : String) : client :=
  if c.has_loaded temp_id && !c.is_subscribed (c.get_db_id_from temp_id) setting_name then
    { c with subscriptions_ := c.subscriptions_ ++ [(c.get_db_id_from temp_id, setting_name)] }
  else c

/-- Modelled from the spec: Unsubscribe(temp_id, setting_name), which removes
`(GetDbId(temp_id), setting_name)` and is idempotent. -/
def client.unsubscribe (c : client) (temp_id : Nat) (setting_name : String) : client :=
  { c with
    subscriptions_ :=
      c.subscriptions_.filter (fun p => !decide (p = (c.get_db_id_from temp_id, setting_name))) }

/-! ## Requests and answers, `protocol.hpp`

The header `protocol.hpp` is not part of the sources.  The structs below have the members
that `service.hpp` and `db.hpp` read and write, with the types of their uses there; the strong
types `config_key_st` and `config_id_st` of `service_strong_types.hpp` are a string and a
natural number. -/

/-- The enumeration `subscribe_event_type`. -/
inductive subscribe_event_type where
  | update_setting
  | delete_setting
  deriving DecidableEq, Repr

/-- The table `convert_request_state`, with the strings that the tests of `service.hpp`
expect. -/
def convert_request_state : request_state → String
  | .success => "SUCCESS"
  | .unknown_request => "UNKNOWN_REQUEST"
  | .unknown_id => "UNKNOWN_ID"
  | .unknown_key => "UNKNOWN_KEY"
  | .unknown_setting => "UNKNOWN_SETTING"
  | .db_error => "DB_ERROR"
  | .internal_error => "INTERNAL_ERROR"

/-- The frames that the service writes: `state` is the object built by
`send_answer(sock, state)`, which has the member `REQUEST_STATE` only, the others are the
answer structs that the handlers fill, with their members in the order of the source. -/
inductive answer where
  | state (request_state : String)
  | config_create_answer (config_key readonly_config_key request_state : String)
  | config_load_answer (config_name : String) (config_id : Nat) (request_state : String)
  | setting_get_answer (setting_value request_state : String)
  | config_get_settings_names_answer (settings_names : json) (request_state : String)
  | config_get_settings_answer (settings : json) (request_state : String)
  | subscribe_event (id : Nat) (setting_name : String) (type : subscribe_event_type)
  deriving DecidableEq

/-- The request struct `config_create`. -/
structure config_create where
  config_name : String
  deriving DecidableEq

/-- The request struct `config_load`. -/
structure config_load where
  config_key : Option String
  config_read_only_key : Option String
  deriving DecidableEq

/-- The request struct `config_unload`. -/
structure config_unload where
  id : Nat
  deriving DecidableEq

/-- The request struct `config_include`. -/
structure config_include where
  id : Nat
  src_id : Nat
  deriving DecidableEq

/-- The request struct `setting_update`; `settings_to_update` holds the members of the JSON
object `SETTINGS_TO_UPDATE`, which is what `items()` enumerates. -/
structure setting_update where
  id : Nat
  settings_to_update : List (String × json)
  deriving DecidableEq

/-- The request struct `setting_remove`. -/
structure setting_remove where
  id : Nat
  setting_name : String
  deriving DecidableEq

/-- The request struct `setting_get`. -/
structure setting_get where
  id : Nat
  setting_name : String
  deriving DecidableEq

/-- The request struct `config_get_settings`. -/
structure config_get_settings where
  id : Nat
  deriving DecidableEq

/-- The request struct `config_get_settings_names`. -/
structure config_get_settings_names where
  id : Nat
  deriving DecidableEq

/-- The request struct `alias_set`. -/
structure alias_set where
  id : Nat
  setting_name : String
  alias_name : String
  deriving DecidableEq

/-- The request struct `alias_unset`. -/
structure alias_unset where
  id : Nat
  alias_name : String
  deriving DecidableEq

/-- The request struct `setting_subscribe`. -/
structure setting_subscribe where
  id : Nat
  setting_name : Option String
  alias_name : Option String
  deriving DecidableEq

/-! ## The service, `service.hpp` -/

/-- The class `service`: the registry `config_clients_registry_` (an unordered map from the
descriptor of a connection to its session; the list gives the order in which the map is
traversed) and the store adapter `db_`. -/
structure service where
  config_clients_registry_ : List (Nat × client)
  db_ : config_db
  deriving DecidableEq

/-- What running a handler gives: the service afterwards, the frames written, in order, each
with the descriptor of the socket it is written to, and the exception that left the handler,
if any. -/
structure outcome where
  svc : service
  out : List (Nat × answer)
  thrown : Option cpp_exception
  deriving DecidableEq

/-- The lookup `config_clients_registry_.find(fileno)`. -/
def registry_find : List (Nat × client) → Nat → Option client
  | [], _ => none
  | (fd, c) :: rest, fileno => if fd = fileno then some c else registry_find rest fileno

/-- The effect on the registry of a member call made through the reference
`config_clients_registry_.at(fileno)`: the session stored under `fileno` becomes `c`. -/
def registry_assign (registry : List (Nat × client)) (fileno : Nat) (c : client) :
    List (Nat × client) :=
  registry.map (fun e => if e.1 = fileno then (e.1, c) else e)

/-- The call `config_clients_registry_.emplace(fileno, client(socket))` of the listen-event
listener: nothing is inserted when the key is already present. -/
def service.accept (s : service) (fileno : Nat) : service :=
  match registry_find s.config_clients_registry_ fileno with
  | some _ => s
  | none =>
    { s with config_clients_registry_ := s.config_clients_registry_ ++ [(fileno, client.init fileno)] }

/-- The end-event listener: `config_clients_registry_.erase(sock.fileno())`. -/
def service.end_event (s : service) (fileno : Nat) : service :=
  { s with
    config_clients_registry_ := s.config_clients_registry_.filter (fun e => !decide (e.1 = fileno)) }

/-- The service right after construction on a new database file. -/
def service.init : service :=
  { config_clients_registry_ := [], db_ := config_db.init }

/-- The helper `send_answer(sock, state)`. -/
def send_state (sock : Nat) (state : request_state) : Nat × answer :=
  (sock, .state (convert_request_state state))

/-- An outcome that writes one frame and raises nothing. -/
def reply (s : service) (frame : Nat × answer) : outcome :=
  { svc := s, out := [frame], thrown := none }

/-- The handler `create_config`; `random_string` and `hash` are passed on to
`config_db::config_create`. -/
def service.create_config (s : service) (cfg : config_create) (sock : Nat)
    (random_string : Nat → String) (hash : String → Nat) : outcome :=
  let r := s.db_.config_create cfg.config_name random_string hash
  if r.2.good then
    reply { s with db_ := r.2 }
      (sock, .config_create_answer r.1.config_key r.1.readonly_config_key
        (convert_request_state .success))
  else
    reply { s with db_ := r.2 }
      (sock, .config_create_answer "" "" (convert_request_state .db_error))

/-- The part of `load_config` that follows the choice of the key. -/
def service.load_config_key (s : service) (key : String) (sock : Nat) : outcome :=
  let r := s.db_.get_config_id key
  if r.2.fail then
    match r.2.get_state with
    | .unknow_config_key => reply { s with db_ := r.2 } (send_state sock .unknown_key)
    | _ => reply { s with db_ := r.2 } (send_state sock .db_error)
  else
    let n := r.2.get_config_name r.1
    if n.2.fail then reply { s with db_ := n.2 } (send_state sock .db_error)
    else
      match registry_find s.config_clients_registry_ sock with
      | none => { svc := { s with db_ := n.2 }, out := [], thrown := some .std_out_of_range }
      | some c =>
        reply
          { config_clients_registry_ :=
              registry_assign s.config_clients_registry_ sock (c.insert_db_id r.1).2,
            db_ := n.2 }
          (sock, .config_load_answer n.1 (c.insert_db_id r.1).1 (convert_request_state .success))

/-- The handler `load_config`. -/
def service.load_config (s : service) (cfg : config_load) (sock : Nat) : outcome :=
  match cfg.config_key, cfg.config_read_only_key with
  | some key, _ => s.load_config_key key sock
  | none, some key => s.load_config_key key sock
  | none, none => reply s (send_state sock .unknown_request)

/-- The handler `unload_config`. -/
def service.unload_config (s : service) (cfg : config_unload) (sock : Nat) : outcome :=
  match registry_find s.config_clients_registry_ sock with
  | none => { svc := s, out := [], thrown := some .std_out_of_range }
  | some c =>
    reply
      { s with
        config_clients_registry_ :=
          registry_assign s.config_clients_registry_ sock (c.remove_temp_id cfg.id) }
      (send_state sock .success)

/-- The handler `include_config`: the id is pushed on a local copy of the document, which is
not written back. -/
def service.include_config (s : service) (cfg : config_include) (sock : Nat) : outcome :=
  match registry_find s.config_clients_registry_ sock with
  | none => { svc := s, out := [], thrown := some .std_out_of_range }
  | some c =>
    if !c.has_loaded cfg.id || !c.has_loaded cfg.src_id then reply s (send_state sock .unknown_id)
    else
      let r := s.db_.get_config (c.get_db_id_from cfg.id)
      if r.2.fail then reply { s with db_ := r.2 } (send_state sock .db_error)
      else reply { s with db_ := r.2 } (send_state sock .success)

/-- The loop of `update_setting` that assigns every member of `SETTINGS_TO_UPDATE` to
`config_json_data["SETTINGS"]`. -/
def apply_settings (config_json_data : document) (settings_to_update : List (String × json)) :
    document :=
  settings_to_update.foldl
    (fun data kv => { data with settings := object_set data.settings kv.1 kv.2 })
    config_json_data

/-- The fan-out loops of `update_setting`: for every session of the registry and every member
of `SETTINGS_TO_UPDATE`, an event is written to the socket of the session when it is
subscribed. -/
def update_events (registry : List (Nat × client)) (db_id : Nat)
    (settings_to_update : List (String × json)) : List (Nat × answer) :=
  registry.flatMap (fun e =>
    settings_to_update.flatMap (fun kv =>
      if e.2.is_subscribed db_id kv.1 then
        [(e.2.get_socket, .subscribe_event (e.2.get_id_from_db db_id) kv.1 .update_setting)]
      else []))

/-- The fan-out loop of `remove_setting`. -/
def remove_events (registry : List (Nat × client)) (db_id : Nat) (setting_name : String) :
    List (Nat × answer) :=
  registry.flatMap (fun e =>
    if e.2.is_subscribed db_id setting_name then
      [(e.2.get_socket, .subscribe_event (e.2.get_id_from_db db_id) setting_name .delete_setting)]
    else [])

/-- The handler `update_setting`. -/
def service.update_setting (s : service) (cfg : setting_update) (sock : Nat) : outcome :=
  match registry_find s.config_clients_registry_ sock with
  | none => { svc := s, out := [], thrown := some .std_out_of_range }
  | some c =>
    if !c.has_loaded cfg.id then reply s (send_state sock .unknown_id)
    else
      let db_id := c.get_db_id_from cfg.id
      let r := s.db_.get_config db_id
      if r.2.fail then reply { s with db_ := r.2 } (send_state sock .db_error)
      else
        let u := r.2.update_config (apply_settings r.1 cfg.settings_to_update) db_id
        if u.fail then reply { s with db_ := u } (send_state sock .db_error)
        else
          { svc := { s with db_ := u },
            out := send_state sock .success ::
              update_events s.config_clients_registry_ db_id cfg.settings_to_update,
            thrown := none }

/-- The handler `remove_setting`: the answer is sent first, and nothing is written to the
store. -/
def service.remove_setting (s : service) (cfg : setting_remove) (sock : Nat) : outcome :=
  match registry_find s.config_clients_registry_ sock with
  | none => { svc := s, out := [send_state sock .success], thrown := some .std_out_of_range }
  | some c =>
    if !c.has_loaded cfg.id then reply s (send_state sock .success)
    else
      { svc := s,
        out := send_state sock .success ::
          remove_events s.config_clients_registry_ (c.get_db_id_from cfg.id) cfg.setting_name,
        thrown := none }

/-- The handler `get_setting`.  The member `setting_value` of `setting_get_answer` is a
`std::string` (`db.hpp` calls `c_str()` on it), so that the assignment converts the JSON
value and raises `type_error` when it is not a string; the handler catches
`json::out_of_range` only. -/
def service.get_setting (s : service) (cfg : setting_get) (sock : Nat) : outcome :=
  match registry_find s.config_clients_registry_ sock with
  | none => { svc := s, out := [], thrown := some .std_out_of_range }
  | some c =>
    if !c.has_loaded cfg.id then reply s (send_state sock .unknown_id)
    else
      let r := s.db_.get_config (c.get_db_id_from cfg.id)
      if r.2.fail then reply { s with db_ := r.2 } (send_state sock .db_error)
      else
        match object_find r.1.settings cfg.setting_name with
        | none => reply { s with db_ := r.2 } (send_state sock .unknown_setting)
        | some value =>
          match value.get_string with
          | .error e => { svc := { s with db_ := r.2 }, out := [], thrown := some e }
          | .ok setting_value =>
            reply { s with db_ := r.2 }
              (sock, .setting_get_answer setting_value (convert_request_state .success))

/-- The JSON value `settings_name` of `get_settings_names`: it starts as null and becomes an
array with the first `push_back`. -/
def settings_names_of (settings : List (String × json)) : json :=
  match settings with
  | [] => .null
  | _ :: _ => .array (settings.map (fun kv => .string kv.1))

/-- The handler `get_settings_names`. -/
def service.get_settings_names (s : service) (cfg : config_get_settings_names) (sock : Nat) :
    outcome :=
  match registry_find s.config_clients_registry_ sock with
  | none => { svc := s, out := [], thrown := some .std_out_of_range }
  | some c =>
    if !c.has_loaded cfg.id then reply s (send_state sock .unknown_id)
    else
      let r := s.db_.get_config (c.get_db_id_from cfg.id)
      if r.2.fail then reply { s with db_ := r.2 } (send_state sock .db_error)
      else
        reply { s with db_ := r.2 }
          (sock, .config_get_settings_names_answer (settings_names_of r.1.settings)
            (convert_request_state .success))

/-- The handler `get_all_settings`. -/
def service.get_all_settings (s : service) (cfg : config_get_settings) (sock : Nat) : outcome :=
  match registry_find s.config_clients_registry_ sock with
  | none => { svc := s, out := [], thrown := some .std_out_of_range }
  | some c =>
    if !c.has_loaded cfg.id then reply s (send_state sock .unknown_id)
    else
      let r := s.db_.get_config (c.get_db_id_from cfg.id)
      if r.2.fail then reply { s with db_ := r.2 } (send_state sock .db_error)
      else
        reply { s with db_ := r.2 }
          (sock, .config_get_settings_answer (.object r.1.settings)
            (convert_request_state .success))

/-- The handler `set_alias`. -/
def service.set_alias (s : service) (_cfg : alias_set) (sock : Nat) : outcome :=
  reply s (send_state sock .success)

/-- The handler `unset_alias`. -/
def service.unset_alias (s : service) (_cfg : alias_unset) (sock : Nat) : outcome :=
  reply s (send_state sock .success)

/-- The handler `subscribe_setting`. -/
def service.subscribe_setting (s : service) (cfg : setting_subscribe) (sock : Nat) : outcome :=
  match registry_find s.config_clients_registry_ sock with
  | none => { svc := s, out := [], thrown := some .std_out_of_range }
  | some c =>
    if !c.has_loaded cfg.id then reply s (send_state sock .unknown_id)
    else
      match cfg.setting_name with
      | some setting_name =>
        reply
          { s with
            config_clients_registry_ :=
              registry_assign s.config_clients_registry_ sock (c.subscribe cfg.id setting_name) }
          (send_state sock .success)
      | none => reply s (send_state sock .internal_error)

/-- The handler `unsubscribe_setting`. -/
def service.unsubscribe_setting (s : service) (cfg : setting_subscribe) (sock : Nat) : outcome :=
  match registry_find s.config_clients_registry_ sock with
  | none => { svc := s, out := [], thrown := some .std_out_of_range }
  | some c =>
    if !c.has_loaded cfg.id then reply s (send_state sock .unknown_id)
    else
      match cfg.setting_name with
      | some setting_name =>
        reply
          { s with
            config_clients_registry_ :=
              registry_assign s.config_clients_registry_ sock (c.unsubscribe cfg.id setting_name) }
          (send_state sock .success)
      | none => reply s (send_state sock .internal_error)

/-! ## The data-event listener -/

/-- Modelled from the spec: `to_json` of `protocol.hpp` for the answer structs, which gives a
JSON object with the members of the wire protocol, in key order.  The object of `state` is
the one that `send_answer(sock, state)` builds, with the member `REQUEST_STATE` only. -/
def answer.to_json : answer → json
  | .state st => .object [("REQUEST_STATE", .string st)]
  | .config_create_answer k ro st =>
    .object [("CONFIG_KEY", .string k), ("READONLY_CONFIG_KEY", .string ro),
             ("REQUEST_STATE", .string st)]
  | .config_load_answer name id st =>
    .object [("CONFIG_ID", .number id), ("CONFIG_NAME", .string name),
             ("REQUEST_STATE", .string st)]
  | .setting_get_answer v st =>
    .object [("REQUEST_STATE", .string st), ("SETTING_VALUE", .string v)]
  | .config_get_settings_names_answer names st =>
    .object [("REQUEST_STATE", .string st), ("SETTINGS_NAMES", names)]
  | .config_get_settings_answer settings st =>
    .object [("REQUEST_STATE", .string st), ("SETTINGS", settings)]
  | .subscribe_event id name .update_setting =>
    .object [("CONFIG_ID", .number id), ("SETTING_NAME", .string name),
             ("SUBSCRIPTION_EVENT_TYPE", .string "UPDATE")]
  | .subscribe_event id name .delete_setting =>
    .object [("CONFIG_ID", .number id), ("SETTING_NAME", .string name),
             ("SUBSCRIPTION_EVENT_TYPE", .string "DELETE")]

/-- Whether a frame is a subscription event. -/
def answer.is_event : answer → Bool
  | .subscribe_event _ _ _ => true
  | _ => false

/-- Modelled from the spec: a member of the request that may be absent (`CONFIG_KEY`,
`READONLY_CONFIG_KEY`, `SETTING_NAME`, `ALIAS_NAME` of the requests that take either of
two), read as a string when present. -/
def json.optional_string (j : json) (key : String) : Except cpp_exception (Option String) :=
  match j with
  | .object fields =>
    match object_find fields key with
    | none => .ok none
    | some v => v.get_string.map some
  | _ => .ok none

/-- Modelled from the spec: the member `SETTINGS_TO_UPDATE`, a JSON object. -/
def json.get_object : json → Except cpp_exception (List (String × json))
  | .object fields => .ok fields
  | _ => .error .json_type_error

/-- Modelled from the spec: `from_json` of `protocol.hpp` for `config_create`, which reads
the input `CONFIG_NAME` of the wire protocol. -/
def config_create.from_json (j : json) : Except cpp_exception config_create := do
  let name ← (← j.at "CONFIG_NAME").get_string
  pure { config_name := name }

/-- Modelled from the spec: `from_json` for `config_load`, which reads `CONFIG_KEY` or
`READONLY_CONFIG_KEY`. -/
def config_load.from_json (j : json) : Except cpp_exception config_load := do
  let key ← j.optional_string "CONFIG_KEY"
  let ro ← j.optional_string "READONLY_CONFIG_KEY"
  pure { config_key := key, config_read_only_key := ro }

/-- Modelled from the spec: `from_json` for `config_unload`, which reads `CONFIG_ID`. -/
def config_unload.from_json (j : json) : Except cpp_exception config_unload := do
  let id ← (← j.at "CONFIG_ID").get_size_t
  pure { id := id }

/-- Modelled from the spec: `from_json` for `config_include`, which reads `CONFIG_ID` and
`SRC`. -/
def config_include.from_json (j : json) : Except cpp_exception config_include := do
  let id ← (← j.at "CONFIG_ID").get_size_t
  let src ← (← j.at "SRC").get_size_t
  pure { id := id, src_id := src }

/-- Modelled from the spec: `from_json` for `setting_update`, which reads `CONFIG_ID` and
`SETTINGS_TO_UPDATE`. -/
def setting_update.from_json (j : json) : Except cpp_exception setting_update := do
  let id ← (← j.at "CONFIG_ID").get_size_t
  let settings ← (← j.at "SETTINGS_TO_UPDATE").get_object
  pure { id := id, settings_to_update := settings }

/-- Modelled from the spec: `from_json` for `setting_remove`, which reads `CONFIG_ID` and
`SETTING_NAME`. -/
def setting_remove.from_json (j : json) : Except cpp_exception setting_remove := do
  let id ← (← j.at "CONFIG_ID").get_size_t
  let name ← (← j.at "SETTING_NAME").get_string
  pure { id := id, setting_name := name }

/-- Modelled from the spec: `from_json` for `setting_get`, which reads `CONFIG_ID` and
`SETTING_NAME`. -/
def setting_get.from_json (j : json) : Except cpp_exception setting_get := do
  let id ← (← j.at "CONFIG_ID").get_size_t
  let name ← (← j.at "SETTING_NAME").get_string
  pure { id := id, setting_name := name }

/-- Modelled from the spec: `from_json` for `config_get_settings`, which reads `CONFIG_ID`. -/
def config_get_settings.from_json (j : json) : Except cpp_exception config_get_settings := do
  let id ← (← j.at "CONFIG_ID").get_size_t
  pure { id := id }

/-- Modelled from the spec: `from_json` for `config_get_settings_names`, which reads
`CONFIG_ID`. -/
def config_get_settings_names.from_json (j : json) :
    Except cpp_exception config_get_settings_names := do
  let id ← (← j.at "CONFIG_ID").get_size_t
  pure { id := id }

/-- Modelled from the spec: `from_json` for `alias_set`, which reads `CONFIG_ID`,
`SETTING_NAME` and `ALIAS_NAME`. -/
def alias_set.from_json (j : json) : Except cpp_exception alias_set := do
  let id ← (← j.at "CONFIG_ID").get_size_t
  let name ← (← j.at "SETTING_NAME").get_string
  let al ← (← j.at "ALIAS_NAME").get_string
  pure { id := id, setting_name := name, alias_name := al }

/-- Modelled from the spec: `from_json` for `alias_unset`, which reads `CONFIG_ID` and
`ALIAS_NAME`. -/
def alias_unset.from_json (j : json) : Except cpp_exception alias_unset := do
  let id ← (← j.at "CONFIG_ID").get_size_t
  let al ← (← j.at "ALIAS_NAME").get_string
  pure { id := id, alias_name := al }

/-- Modelled from the spec: `from_json` for `setting_subscribe`, which reads `CONFIG_ID` and
`SETTING_NAME` or `ALIAS_NAME`. -/
def setting_subscribe.from_json (j : json) : Except cpp_exception setting_subscribe := do
  let id ← (← j.at "CONFIG_ID").get_size_t
  let name ← j.optional_string "SETTING_NAME"
  let al ← j.optional_string "ALIAS_NAME"
  pure { id := id, setting_name := name, alias_name := al }

/-- The helper `fill_request` followed by the rest of the handler: an exception of
`from_json` leaves the handler before anything is done. -/
def fill_request {α : Type} (s : service) (request : Except cpp_exception α)
    (handler : α → outcome) : outcome :=
  match request with
  | .error e => { svc := s, out := [], thrown := some e }
  | .ok cfg => handler cfg

/-- The table `order_registry`: the handler registered under a command name, applied to the
JSON document of the request and to the socket. -/
def service.order_registry (s : service) (random_string : Nat → String) (hash : String → Nat)
    (command_order : String) : Option (json → Nat → outcome) :=
  if command_order = "CONFIG_CREATE" then
    some (fun json_data sock => fill_request s (config_create.from_json json_data)
      (fun cfg => s.create_config cfg sock random_string hash))
  else if command_order = "CONFIG_LOAD" then
    some (fun json_data sock => fill_request s (config_load.from_json json_data)
      (fun cfg => s.load_config cfg sock))
  else if command_order = "CONFIG_UNLOAD" then
    some (fun json_data sock => fill_request s (config_unload.from_json json_data)
      (fun cfg => s.unload_config cfg sock))
  else if command_order = "CONFIG_INCLUDE" then
    some (fun json_data sock => fill_request s (config_include.from_json json_data)
      (fun cfg => s.include_config cfg sock))
  else if command_order = "SETTING_UPDATE" then
    some (fun json_data sock => fill_request s (setting_update.from_json json_data)
      (fun cfg => s.update_setting cfg sock))
  else if command_order = "SETTING_REMOVE" then
    some (fun json_data sock => fill_request s (setting_remove.from_json json_data)
      (fun cfg => s.remove_setting cfg sock))
  else if command_order = "SETTING_GET" then
    some (fun json_data sock => fill_request s (setting_get.from_json json_data)
      (fun cfg => s.get_setting cfg sock))
  else if command_order = "CONFIG_GET_SETTINGS" then
    some (fun json_data sock => fill_request s (config_get_settings.from_json json_data)
      (fun cfg => s.get_all_settings cfg sock))
  else if command_order = "CONFIG_GET_SETTINGS_NAMES" then
    some (fun json_data sock => fill_request s (config_get_settings_names.from_json json_data)
      (fun cfg => s.get_settings_names cfg sock))
  else if command_order = "ALIAS_SET" then
    some (fun json_data sock => fill_request s (alias_set.from_json json_data)
      (fun cfg => s.set_alias cfg sock))
  else if command_order = "ALIAS_UNSET" then
    some (fun json_data sock => fill_request s (alias_unset.from_json json_data)
      (fun cfg => s.unset_alias cfg sock))
  else if command_order = "SUBSCRIBE_SETTING" then
    some (fun json_data sock => fill_request s (setting_subscribe.from_json json_data)
      (fun cfg => s.subscribe_setting cfg sock))
  else if command_order = "UNSUBSCRIBE_SETTING" then
    some (fun json_data sock => fill_request s (setting_subscribe.from_json json_data)
      (fun cfg => s.unsubscribe_setting cfg sock))
  else none

/-- The thirteen command names, the keys of `order_registry`. -/
def command_names : List String :=
  ["CONFIG_CREATE", "CONFIG_LOAD", "CONFIG_UNLOAD", "CONFIG_INCLUDE", "SETTING_UPDATE",
   "SETTING_REMOVE", "SETTING_GET", "CONFIG_GET_SETTINGS", "CONFIG_GET_SETTINGS_NAMES",
   "ALIAS_SET", "ALIAS_UNSET", "SUBSCRIBE_SETTING", "UNSUBSCRIBE_SETTING"]

/-- The body of the `try` block of the data-event listener.  `data` is the result of
`json::parse` on the chunk (`none` when the chunk is not a JSON document and `parse` raises
`parse_error`); `at` and `get` read the command name, and `order_registry.at` raises
`std::out_of_range` for a name that is not registered. -/
def service.try_data (s : service) (data : Option json) (sock : Nat)
    (random_string : Nat → String) (hash : String → Nat) : outcome :=
  match data with
  | none => { svc := s, out := [], thrown := some .json_parse_error }
  | some json_data =>
    match (json_data.at "REQUEST_NAME").bind json.get_string with
    | .error e => { svc := s, out := [], thrown := some e }
    | .ok command_order =>
      match s.order_registry random_string hash command_order with
      | none => { svc := s, out := [], thrown := some .std_out_of_range }
      | some handler => handler json_data sock

/-- The data-event listener: the `try` block, then the handler `catch (std::out_of_range)`,
which writes the state `UNKNOWN_REQUEST`, and the handler `catch (std::exception)`, which
writes `INTERNAL_ERROR`. -/
def service.on_data (s : service) (data : Option json) (sock : Nat)
    (random_string : Nat → String) (hash : String → Nat) : outcome :=
  let r := s.try_data data sock random_string hash
  match r.thrown with
  | none => r
  | some .std_out_of_range =>
    { svc := r.svc, out := r.out ++ [(sock, .state "UNKNOWN_REQUEST")], thrown := none }
  | some _ =>
    { svc := r.svc, out := r.out ++ [(sock, .state "INTERNAL_ERROR")], thrown := none }

/-! ## Runs of the service, and the notions used by the theorems -/

/-- The states that the service can be in: it starts with an empty registry on a database
file that holds any table, and then a connection is accepted, a connection ends, or a chunk
arrives on a socket. -/
inductive reachable : service → Prop where
  | start (table : List row) (sequence : Nat) :
    reachable
      { config_clients_registry_ := [],
        db_ := { database_ := table, sequence := sequence, nb_tries_ := 0, state := .good } }
  | accept {s : service} (fileno : Nat) : reachable s → reachable (s.accept fileno)
  | end_event {s : service} (fileno : Nat) : reachable s → reachable (s.end_event fileno)
  | data {s : service} (data : Option json) (sock : Nat) (random_string : Nat → String)
      (hash : String → Nat) :
    reachable s → reachable (s.on_data data sock random_string hash).svc

/-- Consistency of a session: the temp-ids of the table are distinct, they lie between 1 and
the last temp-id handed out, and every subscription is on a configuration that the session
has loaded. -/
def client.wf (c : client) : Prop :=
  (c.config_ids_.map Prod.fst).Nodup ∧
  (∀ p ∈ c.config_ids_, 1 ≤ p.1 ∧ p.1 ≤ c.last_id_) ∧
  (∀ q ∈ c.subscriptions_, ∃ p ∈ c.config_ids_, p.2 = q.1)

instance (c : client) : Decidable c.wf := by
  unfold client.wf
  infer_instance

/-- Consistency of the registry: a descriptor occurs once, the session stored under a
descriptor holds the socket with that descriptor, and every session is consistent. -/
def service.wf (s : service) : Prop :=
  (s.config_clients_registry_.map Prod.fst).Nodup ∧
  (∀ e ∈ s.config_clients_registry_, e.2.get_socket = e.1) ∧
  (∀ e ∈ s.config_clients_registry_, e.2.wf)

instance (s : service) : Decidable s.wf := by
  unfold service.wf
  infer_instance

/-- The keys that attempt number `nb` of `config_create` binds to the insert statement. -/
def attempt_keys (name : String) (random_string : Nat → String) (hash : String → Nat)
    (nb : Nat) : String × String :=
  (random_string (2 * nb) ++ toString (hash name),
   random_string (2 * nb + 1) ++ toString (hash name))

/-- Whether attempt number `nb` of `config_create` raises a unique-constraint violation on
the table of `db`. -/
def attempt_collides (db : config_db) (name : String) (random_string : Nat → String)
    (hash : String → Nat) (nb : Nat) : Bool :=
  (db.insert (new_document name) (attempt_keys name random_string hash nb).1
    (attempt_keys name random_string hash nb).2).isNone

/-- A sequence of calls `config_include` on one destination, one call per source id: the
answers, in order, and the store afterwards. -/
def include_all (dst_id : Nat) : List Nat → config_db → List config_include_answer_db × config_db
  | [], db => ([], db)
  | src_id :: rest, db =>
    let r := db.config_include dst_id src_id
    let t := include_all dst_id rest r.2
    (r.1 :: t.1, t.2)

/-- The subscription events among the frames `out` that are written to the socket `fileno`
and name the setting `setting_name`. -/
def events_to (out : List (Nat × answer)) (fileno : Nat) (setting_name : String) :
    List (Nat × answer) :=
  out.filter (fun w =>
    decide (w.1 = fileno) &&
      (match w.2 with
       | .subscribe_event _ n _ => decide (n = setting_name)
       | _ => false))

/-- The row that attempt number `nb` of `config_create` inserts when no unique constraint is
violated. -/
def attempt_row (db : config_db) (name : String) (random_string : Nat → String)
    (hash : String → Nat) (nb : Nat) : row :=
  { config_text := new_document name, id := db.next_rowid,
    config_key := (attempt_keys name random_string hash nb).1,
    readonly_config_key := (attempt_keys name random_string hash nb).2 }

/-! ## Fixtures, after the test cases of `service.hpp` -/

/-- A source of random strings for the examples: the n-th draw is the decimal numeral of n. -/
def fixture_random_string : Nat → String := fun n => toString n

/-- A hash function for the examples. -/
def fixture_hash : String → Nat := fun _ => 7

/-- The service of the test cases: one connection, with descriptor 5, and the configuration
`ma_config` created, with the keys `07` and `17` and the id 1. -/
def fixture_created : service :=
  ((service.init.accept 5).create_config { config_name := "ma_config" } 5
    fixture_random_string fixture_hash).svc

/-- The service of the test cases after the connection has loaded `ma_config` with its
`CONFIG_KEY`, as temp-id 1. -/
def fixture_loaded : service :=
  (fixture_created.load_config { config_key := some "07", config_read_only_key := none } 5).svc

/-- A store of the test cases of `db.hpp` with two configurations, whose ids are 1 and 2. -/
def fixture_two_configs : config_db :=
  ((config_db.init.config_create "ma_config_second" fixture_random_string
    fixture_hash).2.config_create "ma_config_third" (fun n => toString (n + 2)) fixture_hash).2

/-- The service of the test case `setting_subscribe request`: connection 5 has loaded
`ma_config` as temp-id 1 and subscribed to its setting `titi`. -/
def fixture_subscribed : service :=
  (fixture_loaded.subscribe_setting
    { id := 1, setting_name := some "titi", alias_name := none } 5).svc

/-- Two clients: next to connection 5 of `fixture_subscribed`, connection 6 has loaded
`ma_config` twice, as temp-ids 1 and 2. -/
def fixture_two_clients : service :=
  (((fixture_subscribed.accept 6).load_config
      { config_key := none, config_read_only_key := some "17" } 6).svc.load_config
    { config_key := some "07", config_read_only_key := none } 6).svc

/-- The session of connection 5 in `fixture_two_clients`. -/
def fixture_client_a : client :=
  { socket_ := 5, last_id_ := 1, config_ids_ := [(1, 1)], subscriptions_ := [(1, "titi")] }

/-- The session of connection 6 in `fixture_two_clients`. -/
def fixture_client_b : client :=
  { socket_ := 6, last_id_ := 2, config_ids_ := [(1, 1), (2, 1)], subscriptions_ := [] }

/-! ## Typed requests, events and runs -/

/-- The requests of the wire protocol after `fill_request`: one case per command name of
`order_registry`, with the request struct that the handler fills. -/
inductive request where
  | config_create (cfg : config_create)
  | config_load (cfg : config_load)
  | config_unload (cfg : config_unload)
  | config_include (cfg : config_include)
  | setting_update (cfg : setting_update)
  | setting_remove (cfg : setting_remove)
  | setting_get (cfg : setting_get)
  | config_get_settings (cfg : config_get_settings)
  | config_get_settings_names (cfg : config_get_settings_names)
  | alias_set (cfg : alias_set)
  | alias_unset (cfg : alias_unset)
  | subscribe_setting (cfg : setting_subscribe)
  | unsubscribe_setting (cfg : setting_subscribe)
  deriving DecidableEq

/-- The handler that `order_registry` holds for a request, applied to the filled request. -/
def service.handle (s : service) (r : request) (sock : Nat) (random_string : Nat → String)
    (hash : String → Nat) : outcome :=
  match r with
  | .config_create cfg => s.create_config cfg sock random_string hash
  | .config_load cfg => s.load_config cfg sock
  | .config_unload cfg => s.unload_config cfg sock
  | .config_include cfg => s.include_config cfg sock
  | .setting_update cfg => s.update_setting cfg sock
  | .setting_remove cfg => s.remove_setting cfg sock
  | .setting_get cfg => s.get_setting cfg sock
  | .config_get_settings cfg => s.get_all_settings cfg sock
  | .config_get_settings_names cfg => s.get_settings_names cfg sock
  | .alias_set cfg => s.set_alias cfg sock
  | .alias_unset cfg => s.unset_alias cfg sock
  | .subscribe_setting cfg => s.subscribe_setting cfg sock
  | .unsubscribe_setting cfg => s.unsubscribe_setting cfg sock

/-- The request that the handler registered under `command_order` fills from the JSON
document: `none` when no handler is registered under the name, an exception when `from_json`
raises one. -/
def parse_request (command_order : String) (json_data : json) :
    Option (Except cpp_exception request) :=
  if command_order = "CONFIG_CREATE" then
    some ((config_create.from_json json_data).map request.config_create)
  else if command_order = "CONFIG_LOAD" then
    some ((config_load.from_json json_data).map request.config_load)
  else if command_order = "CONFIG_UNLOAD" then
    some ((config_unload.from_json json_data).map request.config_unload)
  else if command_order = "CONFIG_INCLUDE" then
    some ((config_include.from_json json_data).map request.config_include)
  else if command_order = "SETTING_UPDATE" then
    some ((setting_update.from_json json_data).map request.setting_update)
  else if command_order = "SETTING_REMOVE" then
    some ((setting_remove.from_json json_data).map request.setting_remove)
  else if command_order = "SETTING_GET" then
    some ((setting_get.from_json json_data).map request.setting_get)
  else if command_order = "CONFIG_GET_SETTINGS" then
    some ((config_get_settings.from_json json_data).map request.config_get_settings)
  else if command_order = "CONFIG_GET_SETTINGS_NAMES" then
    some ((config_get_settings_names.from_json json_data).map request.config_get_settings_names)
  else if command_order = "ALIAS_SET" then
    some ((alias_set.from_json json_data).map request.alias_set)
  else if command_order = "ALIAS_UNSET" then
    some ((alias_unset.from_json json_data).map request.alias_unset)
  else if command_order = "SUBSCRIBE_SETTING" then
    some ((setting_subscribe.from_json json_data).map request.subscribe_setting)
  else if command_order = "UNSUBSCRIBE_SETTING" then
    some ((setting_subscribe.from_json json_data).map request.unsubscribe_setting)
  else none

/-- What the event loop delivers to the service: a connection is accepted, a connection
ends, or a chunk arrives on a socket (with the outcomes of the random source and the hash
function that a CONFIG_CREATE would use). -/
inductive event where
  | accept (fileno : Nat)
  | end_event (fileno : Nat)
  | data (data : Option json) (sock : Nat) (random_string : Nat → String)
      (hash : String → Nat)

/-- The listener that runs for an event. -/
def service.step (s : service) : event → outcome
  | .accept fileno => { svc := s.accept fileno, out := [], thrown := none }
  | .end_event fileno => { svc := s.end_event fileno, out := [], thrown := none }
  | .data data sock random_string hash => s.on_data data sock random_string hash

/-- A run of the service on a sequence of events: the service afterwards and the frames
written, in order. -/
def service.run (s : service) : List event → service × List (Nat × answer)
  | [] => (s, [])
  | ev :: rest => (((s.step ev).svc.run rest).1, (s.step ev).out ++ ((s.step ev).svc.run rest).2)

/-- Whether the SETTING_UPDATE `cfg` on `sock` is made on the configuration `config_id` and
replies SUCCESS. -/
def update_hits (s : service) (cfg : setting_update) (sock : Nat) (config_id : Nat) : Bool :=
  match registry_find s.config_clients_registry_ sock with
  | none => false
  | some c =>
    c.has_loaded cfg.id && decide (c.get_db_id_from cfg.id = config_id) &&
      decide (send_state sock .success ∈ (s.update_setting cfg sock).out)

/-- The members of `SETTINGS_TO_UPDATE` when the request is a SETTING_UPDATE made on the
configuration `config_id` that replies SUCCESS. -/
def request.update_on (s : service) (sock : Nat) (config_id : Nat) :
    request → Option (List (String × json))
  | .setting_update cfg =>
    if update_hits s cfg sock config_id then some cfg.settings_to_update else none
  | _ => none

/-- The members of `SETTINGS_TO_UPDATE` when the event is a chunk whose handler is filled with
a SETTING_UPDATE made on the configuration `config_id` that replies SUCCESS. -/
def event.update_on (s : service) (config_id : Nat) : event → Option (List (String × json))
  | .data (some json_data) sock _ _ =>
    match (json_data.at "REQUEST_NAME").bind json.get_string with
    | .ok command_order =>
      match parse_request command_order json_data with
      | some (.ok r) => r.update_on s sock config_id
      | _ => none
    | .error _ => none
  | _ => none

/-- The successful SETTING_UPDATE requests made on the configuration `config_id` during a
run, in order, each given by its members. -/
def updates_of (config_id : Nat) : service → List event → List (List (String × json))
  | _, [] => []
  | s, ev :: rest =>
    match ev.update_on s config_id with
    | some upd => upd :: updates_of config_id (s.step ev).svc rest
    | none => updates_of config_id (s.step ev).svc rest

/-- A JSON object as the library holds it: the keys of the members ascend strictly. -/
def object_sorted (o : List (String × json)) : Prop :=
  (o.map Prod.fst).Pairwise (fun a b => key_lt a b = true)

instance (o : List (String × json)) : Decidable (object_sorted o) := by
  unfold object_sorted
  infer_instance

/-- Every configuration that a session has loaded has a row in the table. -/
def service.loaded_stored (s : service) : Prop :=
  ∀ e ∈ s.config_clients_registry_, ∀ p ∈ e.2.config_ids_, s.db_.rows_of_id p.2 ≠ []

instance (s : service) : Decidable s.loaded_stored := by
  unfold service.loaded_stored
  infer_instance

/-- The service of the test cases after a second configuration, `ma_config_second` with the
keys `27` and `37` and the id 2, has been created and loaded by connection 5 as temp-id 2. -/
def fixture_two_loaded : service :=
  ((fixture_loaded.create_config { config_name := "ma_config_second" } 5
      (fun n => toString (n + 2)) fixture_hash).svc.load_config
    { config_key := some "27", config_read_only_key := none } 5).svc

/-- The frame CONFIG_CREATE of the test case `create_config request`. -/
def frame_create : json :=
  .object [("CONFIG_NAME", .string "ma_config"), ("REQUEST_NAME", .string "CONFIG_CREATE")]

/-- A frame CONFIG_LOAD with the member `CONFIG_KEY`. -/
def frame_load (key : String) : json :=
  .object [("CONFIG_KEY", .string key), ("REQUEST_NAME", .string "CONFIG_LOAD")]

/-- A frame CONFIG_LOAD with the member `READONLY_CONFIG_KEY`. -/
def frame_load_readonly (key : String) : json :=
  .object [("READONLY_CONFIG_KEY", .string key), ("REQUEST_NAME", .string "CONFIG_LOAD")]

/-- The service after three chunks on connection 5: a CONFIG_CREATE, which gives the keys `07`
and `17`, and a CONFIG_LOAD with a key that no row has, which replies UNKNOWN_KEY. -/
def fixture_stale : service :=
  (((service.init.accept 5).on_data (some frame_create) 5 fixture_random_string
      fixture_hash).svc.on_data
    (some (frame_load "lalakey")) 5 fixture_random_string fixture_hash).svc

/-- A frame SETTING_UPDATE on temp-id 1 with the members `settings`. -/
def frame_update (settings : List (String × json)) : json :=
  .object [("CONFIG_ID", .number 1), ("REQUEST_NAME", .string "SETTING_UPDATE"),
    ("SETTINGS_TO_UPDATE", .object settings)]

/-- A frame with the member `CONFIG_ID` 1 and the request name `name`. -/
def frame_on_config (name : String) : json :=
  .object [("CONFIG_ID", .number 1), ("REQUEST_NAME", .string name)]

/-- The frame SETTING_GET of the setting `name` on temp-id 1. -/
def frame_get (name : String) : json :=
  .object [("CONFIG_ID", .number 1), ("REQUEST_NAME", .string "SETTING_GET"),
    ("SETTING_NAME", .string name)]

/-- The event that delivers the chunk `j` on connection 5. -/
def chunk (j : json) : event :=
  .data (some j) 5 fixture_random_string fixture_hash

/-- The events of the test cases up to the load: connection 5 is accepted, creates
`ma_config` and loads it with its `CONFIG_KEY`, as temp-id 1. -/
def fixture_session : List event :=
  [.accept 5, chunk frame_create, chunk (frame_load "07")]

/-- The service of the test case `get_settings_names request`, reached by events: after
`fixture_session`, connection 5 updates the settings `lala` and `titi` of temp-id 1. -/
def fixture_updated : service :=
  (service.init.run
    (fixture_session ++
      [chunk (frame_update [("lala", .string "lala"), ("titi", .string "1")])])).1

/-- The service after `fixture_session` and an update of the setting `titi` of temp-id 1 to
the number 1. -/
def fixture_number_stored : service :=
  (service.init.run (fixture_session ++ [chunk (frame_update [("titi", .number 1)])])).1

/-- The events of connection 5 after the CONFIG_CREATE of `ma_config`: it loads the
configuration as temp-id 1, updates `lala` and `titi`, removes `lala` and updates `titi`
again. -/
def fixture_history : List event :=
  [chunk (frame_load "07"),
   chunk (frame_update [("lala", .string "lala"), ("titi", .string "1")]),
   chunk (.object [("CONFIG_ID", .number 1), ("REQUEST_NAME", .string "SETTING_REMOVE"),
     ("SETTING_NAME", .string "lala")]),
   chunk (frame_update [("titi", .string "2")])]

/-- The events of connection 5 after the CONFIG_CREATE of `ma_config`: it loads the
configuration as temp-id 1, inserts the setting `titi` and then the setting `lala`. -/
def fixture_two_inserts : List event :=
  [chunk (frame_load "07"), chunk (frame_update [("titi", .string "1")]),
   chunk (frame_update [("lala", .string "lala")])]

/-- A store with two configurations, whose ids are 1 and 2; the document of the first has an
`OTHER_CONFIG` that is neither sorted nor without repetition. -/
def fixture_unsorted_includes : config_db :=
  { database_ :=
      [{ config_text :=
           { config_name := "ma_config", settings := [], includes := [],
             other_config := some [3, 1, 3] },
         id := 1, config_key := "07", readonly_config_key := "17" },
       { config_text := new_document "ma_config_second", id := 2, config_key := "27",
         readonly_config_key := "37" }],
    sequence := 2, nb_tries_ := 0, state := .good }

/-- The store of the test case `unknow key` of `get config id`: `ma_config` is created, with
the keys `07` and `17`, and `get_config_id` has been called with a key that no row has. -/
def fixture_stale_db : config_db :=
  ((config_db.init.config_create "ma_config" fixture_random_string fixture_hash).2.get_config_id
    "lalakey").2

/-- The member `REQUEST_STATE` of a frame, when it has one: every answer has it, and a
subscription event has not. -/
def answer.state_of : answer → Option String
  | .state st => some st
  | .config_create_answer _ _ st => some st
  | .config_load_answer _ _ st => some st
  | .setting_get_answer _ st => some st
  | .config_get_settings_names_answer _ st => some st
  | .config_get_settings_answer _ st => some st
  | .subscribe_event _ _ _ => none

/-- An outcome leaves the stored rows and the registry of `s` as they are and writes no
subscription event. -/
def outcome.keeps (o : outcome) (s : service) : Prop :=
  o.svc.db_.database_ = s.db_.database_ ∧
  o.svc.config_clients_registry_ = s.config_clients_registry_ ∧
  ∀ w ∈ o.out, w.2.is_event = false

/-- An outcome raises nothing and every frame that it writes with a `REQUEST_STATE` has the
state SUCCESS. -/
def outcome.succeeds (o : outcome) : Prop :=
  o.thrown = none ∧ ∀ w ∈ o.out, ∀ st, w.2.state_of = some st → st = "SUCCESS"

/-- The temp-id that a frame carries as the answer to a CONFIG_LOAD, if it is one. -/
def answer.load_id : answer → Option Nat
  | .config_load_answer _ id _ => some id
  | _ => none

/-- The temp-ids that the answers to CONFIG_LOAD among the frames `out` carry to the socket
`sock`, in order. -/
def load_ids (sock : Nat) (out : List (Nat × answer)) : List Nat :=
  out.filterMap (fun w => if w.1 = sock then w.2.load_id else none)

/-- Whether the event is the end of the connection `fileno`. -/
def event.ends (fileno : Nat) : event → Bool
  | .end_event f => decide (f = fileno)
  | _ => false

/-- Whether the event is the acceptance of a connection with the descriptor `fileno`. -/
def event.accepts (fileno : Nat) : event → Bool
  | .accept f => decide (f = fileno)
  | _ => false

/-- Whether the event is a chunk that arrives on the socket `sock`. -/
def event.is_data_on (sock : Nat) : event → Bool
  | .data _ s _ _ => decide (s = sock)
  | _ => false

/-- A run of the service, event by event: each event with the frames written while its
listener runs. -/
def service.trace (s : service) : List event → List (event × List (Nat × answer))
  | [] => []
  | ev :: rest => (ev, (s.step ev).out) :: (s.step ev).svc.trace rest

/-- The event that delivers the chunk `j` on the connection `sock`. -/
def chunk_on (sock : Nat) (j : json) : event :=
  .data (some j) sock fixture_random_string fixture_hash

/-- The frame SUBSCRIBE_SETTING of the setting `name` on temp-id 1. -/
def frame_subscribe (name : String) : json :=
  .object [("CONFIG_ID", .number 1), ("REQUEST_NAME", .string "SUBSCRIBE_SETTING"),
    ("SETTING_NAME", .string name)]

/-- The events that lead to `fixture_two_clients`: connection 5 creates and loads `ma_config`
and subscribes to `titi`; connection 6 loads the configuration with either key. -/
def fixture_two_sessions : List event :=
  [.accept 5, chunk frame_create, chunk (frame_load "07"), chunk (frame_subscribe "titi"),
   .accept 6, chunk_on 6 (frame_load_readonly "17"), chunk_on 6 (frame_load "07")]

/-- The service after the events of `fixture_two_sessions`. -/
def fixture_two_sessions_end : service :=
  (service.init.run fixture_two_sessions).1

/-! ## Lemmas on JSON objects and on the table -/
theorem object_find_set_same (o : List (String × json)) (k : String) (v : json) :
    object_find (object_set o k v) k = some v := by
  induction o with
  | nil => simp [object_set, object_find]
  | cons hd tl ih =>
    obtain ⟨k0, v0⟩ := hd
    simp only [object_set]
    split
    · next h => simp [object_find, h]
    · next h =>
      split
      · simp [object_find]
      · simp [object_find, h, ih]

theorem object_find_set_other (o : List (String × json)) (k k' : String) (v : json)
    (hne : k ≠ k') : object_find (object_set o k v) k' = object_find o k' := by
  induction o with
  | nil => simp [object_set, object_find, hne]
  | cons hd tl ih =>
    obtain ⟨k0, v0⟩ := hd
    simp only [object_set]
    split
    · next h =>
      subst h
      simp [object_find, hne]
    · next h =>
      split
      · simp [object_find, hne]
      · simp [object_find, ih]

theorem apply_settings_settings (d : document) (upd : List (String × json)) :
    (apply_settings d upd).settings
      = upd.foldl (fun st kv => object_set st kv.1 kv.2) d.settings := by
  unfold apply_settings
  induction upd generalizing d with
  | nil => rfl
  | cons hd tl ih => simp only [List.foldl_cons]; rw [ih]

theorem foldl_set_find_not_mem (upd : List (String × json)) (st : List (String × json))
    (k : String) (hk : k ∉ upd.map Prod.fst) :
    object_find (upd.foldl (fun st kv => object_set st kv.1 kv.2) st) k = object_find st k := by
  induction upd generalizing st with
  | nil => rfl
  | cons hd tl ih =>
    simp only [List.map_cons, List.mem_cons, not_or] at hk
    simp only [List.foldl_cons]
    rw [ih _ hk.2, object_find_set_other _ _ _ _ (Ne.symm hk.1)]

theorem foldl_set_find_mem (upd : List (String × json)) (st : List (String × json))
    (k : String) (v : json) (hnd : (upd.map Prod.fst).Nodup) (hmem : (k, v) ∈ upd) :
    object_find (upd.foldl (fun st kv => object_set st kv.1 kv.2) st) k = some v := by
  induction upd generalizing st with
  | nil => cases hmem
  | cons hd tl ih =>
    simp only [List.map_cons, List.nodup_cons] at hnd
    simp only [List.foldl_cons]
    rcases List.mem_cons.1 hmem with h | h
    · subst h
      rw [foldl_set_find_not_mem _ _ _ hnd.1, object_find_set_same]
    · exact ih _ hnd.2 h


theorem rows_of_id_write_text (db : config_db) (text : document) (id id' : Nat) :
    (db.write_text text id).rows_of_id id'
      = (db.rows_of_id id').map (fun r => if r.id = id then { r with config_text := text } else r) := by
  unfold config_db.rows_of_id config_db.write_text
  simp only [List.filter_map]
  congr 1
  apply List.filter_congr
  intro r _
  simp only [Function.comp]
  split <;> rfl

theorem get_config_fail (db : config_db) (id : Nat) :
    (db.get_config id).2.fail = (db.rows_of_id id).isEmpty := by
  unfold config_db.get_config
  cases h : (db.rows_of_id id) with
  | nil => simp [config_db.fail, config_db.good]
  | cons a l =>
    have : (a :: l).getLast? = some ((a :: l).getLast (by simp)) := List.getLast?_eq_getLast _ _
    rw [this]
    simp [config_db.fail, config_db.good]

theorem get_config_rows (db : config_db) (id : Nat) :
    (db.get_config id).2.database_ = db.database_ := by
  unfold config_db.get_config
  split <;> rfl

theorem get_config_after_update (db : config_db) (text : document) (id : Nat)
    (h : (db.update_config text id).fail = false) :
    (db.update_config text id).get_config id
      = (text, { (db.update_config text id) with state := .good }) := by
  unfold config_db.update_config at h ⊢
  split at h
  · simp [config_db.fail, config_db.good] at h
  · next hlen =>
    rw [if_neg hlen]
    unfold config_db.get_config
    have hrows : ({ (db.write_text text id) with state := db_state.good } : config_db).rows_of_id id
        = (db.rows_of_id id).map (fun r => if r.id = id then { r with config_text := text } else r) := by
      rw [← rows_of_id_write_text]; rfl
    rw [hrows]
    cases hr : db.rows_of_id id with
    | nil => simp [hr] at hlen
    | cons a l =>
      have hne : (a :: l) ≠ [] := by simp
      have hlast : (a :: l).getLast hne ∈ db.rows_of_id id := by
        rw [hr]; exact List.getLast_mem hne
      have hid : ((a :: l).getLast hne).id = id := by
        unfold config_db.rows_of_id at hlast
        simpa using (List.mem_filter.1 hlast).2
      rw [List.getLast?_map, List.getLast?_eq_getLast _ hne]
      simp [hid]


theorem update_setting_success (s : service) (cfg : setting_update) (sock : Nat)
    (hok : send_state sock .success ∈ (s.update_setting cfg sock).out) :
    ∃ c u, registry_find s.config_clients_registry_ sock = some c ∧ c.has_loaded cfg.id = true ∧
      (s.db_.get_config (c.get_db_id_from cfg.id)).2.fail = false ∧
      u = (s.db_.get_config (c.get_db_id_from cfg.id)).2.update_config
        (apply_settings (s.db_.get_config (c.get_db_id_from cfg.id)).1 cfg.settings_to_update)
        (c.get_db_id_from cfg.id) ∧
      u.fail = false ∧
      s.update_setting cfg sock =
        { svc := { s with db_ := u },
          out := send_state sock .success ::
            update_events s.config_clients_registry_ (c.get_db_id_from cfg.id)
              cfg.settings_to_update,
          thrown := none } := by
  cases hc : registry_find s.config_clients_registry_ sock with
  | none => simp [service.update_setting, hc] at hok
  | some c =>
    have h1 : c.has_loaded cfg.id = true := by
      by_contra h
      simp [service.update_setting, hc, h, reply, send_state, convert_request_state] at hok
    have h2 : (s.db_.get_config (c.get_db_id_from cfg.id)).2.fail = false := by
      by_contra h
      simp [service.update_setting, hc, h1, h, reply, send_state, convert_request_state] at hok
    have h3 : ((s.db_.get_config (c.get_db_id_from cfg.id)).2.update_config
        (apply_settings (s.db_.get_config (c.get_db_id_from cfg.id)).1 cfg.settings_to_update)
        (c.get_db_id_from cfg.id)).fail = false := by
      by_contra h
      simp [service.update_setting, hc, h1, h2, h, reply, send_state, convert_request_state]
        at hok
    refine ⟨c, _, rfl, h1, h2, rfl, h3, ?_⟩
    simp [service.update_setting, hc, h1, h2, h3]

/-- C1 (amended): after a SETTING_UPDATE that replied SUCCESS and whose SETTINGS_TO_UPDATE (a
JSON object, so that its members have distinct keys) has the member k with the JSON string v,
the next SETTING_GET of k on the same temp-id replies SUCCESS with SETTING_VALUE v. -/
theorem update_then_get_string_value (s : service) (cfg : setting_update) (sock : Nat)
    (k v : String)
    (hkeys : (cfg.settings_to_update.map Prod.fst).Nodup)
    (hmem : (k, json.string v) ∈ cfg.settings_to_update)
    (hok : send_state sock .success ∈ (s.update_setting cfg sock).out) :
    ((s.update_setting cfg sock).svc.get_setting { id := cfg.id, setting_name := k } sock).out
        = [(sock, .setting_get_answer v "SUCCESS")] ∧
      ((s.update_setting cfg sock).svc.get_setting { id := cfg.id, setting_name := k } sock).thrown
        = none := by
  obtain ⟨c, u, hc, h1, _, hu, h3, heq⟩ := update_setting_success s cfg sock hok
  have hget := get_config_after_update _ _ _ (hu ▸ h3)
  rw [← hu] at hget
  have hfind : object_find
      (apply_settings (s.db_.get_config (c.get_db_id_from cfg.id)).1
        cfg.settings_to_update).settings k = some (json.string v) := by
    rw [apply_settings_settings]
    exact foldl_set_find_mem _ _ _ _ hkeys hmem
  rw [heq]
  simp [service.get_setting, hc, h1, hget, config_db.fail, config_db.good, hfind,
    json.get_string, reply, convert_request_state]

/-! ## Lemmas on `config_create` -/

theorem getLast?_filter_concat {α : Type} (p : α → Bool) (l : List α) (x : α) (hx : p x = true) :
    ((l ++ [x]).filter p).getLast? = some x := by
  rw [List.filter_append]
  simp [List.filter_cons, hx]

theorem attempt_collides_state (db : config_db) (st : db_state) (name : String)
    (random_string : Nat → String) (hash : String → Nat) (nb : Nat) :
    attempt_collides { db with state := st } name random_string hash nb
      = attempt_collides db name random_string hash nb := by
  unfold attempt_collides config_db.insert
  simp only []
  split <;> simp

theorem config_create_loop_success (name : String) (random_string : Nat → String)
    (hash : String → Nat) (fuel : Nat) :
    ∀ (nb : Nat) (db : config_db) (j : Nat), j < fuel →
      (∀ i, i < j → attempt_collides db name random_string hash (nb + i) = true) →
      attempt_collides db name random_string hash (nb + j) = false →
      config_db.config_create_loop name random_string hash fuel nb db
        = ({ config_key := (attempt_keys name random_string hash (nb + j)).1,
             readonly_config_key := (attempt_keys name random_string hash (nb + j)).2,
             config_id := db.next_rowid },
           { database_ := db.database_ ++ [attempt_row db name random_string hash (nb + j)],
             sequence := db.next_rowid, nb_tries_ := nb + j, state := .good }) := by
  induction fuel with
  | zero => intro nb db j hj; omega
  | succ fuel ih =>
    intro nb db j hj hbefore hat
    cases j with
    | zero =>
      simp only [Nat.add_zero] at hat ⊢
      unfold attempt_collides at hat
      unfold config_db.config_create_loop
      unfold attempt_keys at hat ⊢
      simp only [] at hat ⊢
      cases hins : db.insert (new_document name) (random_string (2 * nb) ++ toString (hash name))
          (random_string (2 * nb + 1) ++ toString (hash name)) with
      | none => simp [hins] at hat
      | some p =>
        obtain ⟨db', rowid⟩ := p
        unfold config_db.insert at hins
        split at hins
        · cases hins
        · simp only [Option.some.injEq, Prod.mk.injEq] at hins
          obtain ⟨hdb, hrow⟩ := hins
          subst hrow
          subst hdb
          simp only [config_db.rows_of_id]
          rw [getLast?_filter_concat _ _ _ (by simp)]
          simp [attempt_row, attempt_keys]
    | succ j =>
      have h0 := hbefore 0 (Nat.succ_pos j)
      simp only [Nat.add_zero] at h0
      unfold config_db.config_create_loop
      unfold attempt_collides attempt_keys at h0
      simp only [] at h0
      cases hins : db.insert (new_document name) (random_string (2 * nb) ++ toString (hash name))
          (random_string (2 * nb + 1) ++ toString (hash name)) with
      | some p => simp [hins] at h0
      | none =>
        simp only []
        have := ih (nb + 1) { db with state := .sql_error } j (by omega)
          (fun i hi => by
            rw [attempt_collides_state]
            have := hbefore (i + 1) (by omega)
            rwa [show nb + (i + 1) = nb + 1 + i by omega] at this)
          (by
            rw [attempt_collides_state]
            rwa [show nb + (j + 1) = nb + 1 + j by omega] at hat)
        rw [this]
        simp [attempt_row, config_db.next_rowid, show nb + 1 + j = nb + (j + 1) by omega]

theorem config_create_loop_failure (name : String) (random_string : Nat → String)
    (hash : String → Nat) (fuel : Nat) :
    ∀ (nb : Nat) (db : config_db),
      (∀ i, i < fuel + 1 → attempt_collides db name random_string hash (nb + i) = true) →
      config_db.config_create_loop name random_string hash (fuel + 1) nb db
        = ({ config_key := "", readonly_config_key := "", config_id := 0 },
           { db with nb_tries_ := nb + (fuel + 1), state := .sql_error }) := by
  induction fuel with
  | zero =>
    intro nb db hall
    have h0 := hall 0 (by omega)
    simp only [Nat.add_zero] at h0
    unfold config_db.config_create_loop
    unfold attempt_collides attempt_keys at h0
    simp only [] at h0
    cases hins : db.insert (new_document name) (random_string (2 * nb) ++ toString (hash name))
        (random_string (2 * nb + 1) ++ toString (hash name)) with
    | some p => simp [hins] at h0
    | none => simp [config_db.config_create_loop]
  | succ fuel ih =>
    intro nb db hall
    have h0 := hall 0 (by omega)
    simp only [Nat.add_zero] at h0
    unfold config_db.config_create_loop
    unfold attempt_collides attempt_keys at h0
    simp only [] at h0
    cases hins : db.insert (new_document name) (random_string (2 * nb) ++ toString (hash name))
        (random_string (2 * nb + 1) ++ toString (hash name)) with
    | some p => simp [hins] at h0
    | none =>
      simp only []
      rw [ih (nb + 1) { db with state := .sql_error } (fun i hi => by
        rw [attempt_collides_state]
        have := hall (i + 1) (by omega)
        rwa [show nb + (i + 1) = nb + 1 + i by omega] at this)]
      simp [show nb + 1 + (fuel + 1) = nb + (fuel + 1 + 1) by omega]


theorem attempt_cases (db : config_db) (name : String) (random_string : Nat → String)
    (hash : String → Nat) (n : Nat) :
    (∃ j, j < n ∧ (∀ i, i < j → attempt_collides db name random_string hash i = true) ∧
        attempt_collides db name random_string hash j = false) ∨
      (∀ i, i < n → attempt_collides db name random_string hash i = true) := by
  induction n with
  | zero => right; intro i hi; omega
  | succ n ih =>
    rcases ih with ⟨j, hj, hb, ha⟩ | hall
    · exact Or.inl ⟨j, by omega, hb, ha⟩
    · cases hn : attempt_collides db name random_string hash n with
      | false => exact Or.inl ⟨n, by omega, hall, hn⟩
      | true =>
        right
        intro i hi
        rcases Nat.lt_succ_iff_lt_or_eq.1 hi with h | h
        · exact hall i h
        · rw [h]; exact hn

theorem config_create_good (db : config_db) (name : String) (random_string : Nat → String)
    (hash : String → Nat) (hgood : (db.config_create name random_string hash).2.good = true) :
    ∃ j, j < 4 ∧
      db.config_create name random_string hash
        = ({ config_key := (attempt_keys name random_string hash j).1,
             readonly_config_key := (attempt_keys name random_string hash j).2,
             config_id := db.next_rowid },
           { database_ := db.database_ ++ [attempt_row db name random_string hash j],
             sequence := db.next_rowid, nb_tries_ := j, state := .good }) := by
  rcases attempt_cases db name random_string hash 4 with ⟨j, hj, hb, ha⟩ | hall
  · refine ⟨j, hj, ?_⟩
    have := config_create_loop_success name random_string hash 4 0 db j hj
      (by simpa using hb) (by simpa using ha)
    simpa [config_db.config_create, maximum_retries_] using this
  · have := config_create_loop_failure name random_string hash 3 0 db (by simpa using hall)
    unfold config_db.config_create maximum_retries_ at hgood
    rw [this] at hgood
    simp [config_db.good] at hgood

theorem get_config_id_found (db : config_db) (key : String) (r : row)
    (hr : (db.rows_of_key key).getLast? = some r) : db.get_config_id key = (r.id, db) := by
  unfold config_db.get_config_id
  have hne : db.database_.length ≠ 0 := by
    intro h
    have : db.database_ = [] := List.length_eq_zero.1 h
    unfold config_db.rows_of_key at hr
    rw [this] at hr
    cases hr
  rw [if_neg hne, hr]

/-- Witness for C1: the steps of the test case `get_setting with
valid request`. -/
theorem update_then_get_string_value_witness :
    ([("titi", json.string "1")].map Prod.fst).Nodup ∧
    ("titi", json.string "1") ∈ [("titi", json.string "1")] ∧
    send_state 5 .success ∈
      (fixture_loaded.update_setting
        { id := 1, settings_to_update := [("titi", .string "1")] } 5).out ∧
    ((fixture_loaded.update_setting
        { id := 1, settings_to_update := [("titi", .string "1")] } 5).svc.get_setting
      { id := 1, setting_name := "titi" } 5).out = [(5, .setting_get_answer "1" "SUCCESS")] :=
  ⟨by decide, by decide, by decide,
   (update_then_get_string_value fixture_loaded
      { id := 1, settings_to_update := [("titi", .string "1")] } 5 "titi" "1"
      (by decide) (by decide) (by decide)).1⟩

/-- C1 (as stated) fails for a value that is not a JSON string: after a SETTING_UPDATE of
`titi` to the number 1, which replies SUCCESS, SETTING_GET `titi` raises `type_error` in the
handler and the listener replies INTERNAL_ERROR. -/
theorem update_then_get_number_counterexample :
    (fixture_loaded.update_setting
        { id := 1, settings_to_update := [("titi", .number 1)] } 5).out
      = [(5, .state "SUCCESS")] ∧
    ((fixture_loaded.update_setting
        { id := 1, settings_to_update := [("titi", .number 1)] } 5).svc.get_setting
      { id := 1, setting_name := "titi" } 5).out = [] ∧
    ((fixture_loaded.update_setting
        { id := 1, settings_to_update := [("titi", .number 1)] } 5).svc.get_setting
      { id := 1, setting_name := "titi" } 5).thrown = some .json_type_error ∧
    ((fixture_loaded.update_setting
        { id := 1, settings_to_update := [("titi", .number 1)] } 5).svc.on_data
      (some (.object [("CONFIG_ID", .number 1), ("REQUEST_NAME", .string "SETTING_GET"),
        ("SETTING_NAME", .string "titi")])) 5 fixture_random_string fixture_hash).out
      = [(5, .state "INTERNAL_ERROR")] := by
  decide

theorem get_config_id_unknown (db : config_db) (key : String)
    (hkey : ∀ r ∈ db.database_, r.config_key ≠ key ∧ r.readonly_config_key ≠ key) :
    db.get_config_id key
      = (0, { db with state := if db.database_ = [] then .sql_error else .unknow_config_key }) := by
  unfold config_db.get_config_id config_db.rows_of_key
  have hfilter : db.database_.filter (fun r => decide (r.config_key = key)) = [] := by
    rw [List.filter_eq_nil_iff]
    intro r hr
    simp [(hkey r hr).1]
  have hfilter2 : db.database_.filter
      (fun r => !decide (r.config_key = key) && decide (r.readonly_config_key = key)) = [] := by
    rw [List.filter_eq_nil_iff]
    intro r hr
    simp [(hkey r hr).2]
  rw [hfilter, hfilter2, List.append_nil]
  cases h : db.database_ with
  | nil => simp
  | cons a l => simp

/-- C5 (amended): for a string that is the key of no row, on a table with at least one row
get_config_id leaves unknow_config_key and CONFIG_LOAD replies UNKNOWN_KEY, with either
member; on an empty table get_config_id leaves sql_error and CONFIG_LOAD replies DB_ERROR. -/
theorem load_unknown_key (s : service) (sock : Nat) (key : String)
    (hkey : ∀ r ∈ s.db_.database_, r.config_key ≠ key ∧ r.readonly_config_key ≠ key) :
    (s.db_.database_ ≠ [] →
      (s.db_.get_config_id key).2.state = .unknow_config_key ∧
      (s.load_config { config_key := some key, config_read_only_key := none } sock).out
        = [(sock, .state "UNKNOWN_KEY")] ∧
      (s.load_config { config_key := none, config_read_only_key := some key } sock).out
        = [(sock, .state "UNKNOWN_KEY")]) ∧
    (s.db_.database_ = [] →
      (s.db_.get_config_id key).2.state = .sql_error ∧
      (s.load_config { config_key := some key, config_read_only_key := none } sock).out
        = [(sock, .state "DB_ERROR")] ∧
      (s.load_config { config_key := none, config_read_only_key := some key } sock).out
        = [(sock, .state "DB_ERROR")]) := by
  have h := get_config_id_unknown s.db_ key hkey
  constructor
  · intro hne
    simp [service.load_config, service.load_config_key, h, hne, config_db.fail, config_db.good,
      config_db.get_state, reply, send_state, convert_request_state]
  · intro he
    simp [service.load_config, service.load_config_key, h, he, config_db.fail, config_db.good,
      config_db.get_state, reply, send_state, convert_request_state]

/-- Witness for C5: the test cases `read only key unknown`, on a table with
one row, and `read only key unknown in empty config table`. -/
theorem load_unknown_key_witness :
    (∀ r ∈ fixture_created.db_.database_,
      r.config_key ≠ "unknown_readonly_config_key" ∧
        r.readonly_config_key ≠ "unknown_readonly_config_key") ∧
    fixture_created.db_.database_ ≠ [] ∧
    (fixture_created.load_config
        { config_key := none, config_read_only_key := some "unknown_readonly_config_key" } 5).out
      = [(5, .state "UNKNOWN_KEY")] ∧
    (service.init.accept 5).db_.database_ = [] ∧
    ((service.init.accept 5).load_config
        { config_key := none, config_read_only_key := some "422Key" } 5).out
      = [(5, .state "DB_ERROR")] :=
  ⟨by decide, by decide,
   ((load_unknown_key fixture_created 5 "unknown_readonly_config_key" (by decide)).1
      (by decide)).2.2,
   by decide,
   ((load_unknown_key (service.init.accept 5) 5 "422Key" (by decide)).2 (by decide)).2.2⟩

/-- C5 (as stated) fails on an empty table: get_config_id leaves sql_error and CONFIG_LOAD
replies DB_ERROR, as the test case `read only key unknown in empty config table` expects. -/
theorem load_unknown_key_empty_table_counterexample :
    (service.init.accept 5).db_.database_ = [] ∧
    ((service.init.accept 5).db_.get_config_id "422Key").2.state = .sql_error ∧
    ((service.init.accept 5).on_data
        (some (.object [("READONLY_CONFIG_KEY", .string "422Key"),
          ("REQUEST_NAME", .string "CONFIG_LOAD")])) 5 fixture_random_string fixture_hash).out
      = [(5, .state "DB_ERROR")] := by
  decide

theorem order_registry_unknown (s : service) (random_string : Nat → String)
    (hash : String → Nat) (name : String) (h : name ∉ command_names) :
    s.order_registry random_string hash name = none := by
  simp only [command_names, List.mem_cons, List.mem_singleton, not_or, List.mem_nil_iff,
    not_false_eq_true, and_true] at h
  obtain ⟨h1, h2, h3, h4, h5, h6, h7, h8, h9, h10, h11, h12, h13⟩ := h
  simp [service.order_registry, h1, h2, h3, h4, h5, h6, h7, h8, h9, h10, h11, h12, h13]

/-- C6: the data-event listener on a chunk that parses as a JSON object.  Without the member
`REQUEST_NAME`, or with a `REQUEST_NAME` that is not a string, the single frame written is
INTERNAL_ERROR (the exceptions of `json::at` and of `get` are not a `std::out_of_range`); with
a `REQUEST_NAME` that is a string but not a command name, the single frame written is
UNKNOWN_REQUEST, whose JSON object has the member `REQUEST_STATE` only.  The service is
unchanged in the three cases. -/
theorem request_name_replies (s : service) (sock : Nat) (random_string : Nat → String)
    (hash : String → Nat) (fields : List (String × json)) :
    (object_find fields "REQUEST_NAME" = none →
      s.on_data (some (.object fields)) sock random_string hash
        = { svc := s, out := [(sock, .state "INTERNAL_ERROR")], thrown := none }) ∧
    (∀ v, object_find fields "REQUEST_NAME" = some v → (∀ name, v ≠ .string name) →
      s.on_data (some (.object fields)) sock random_string hash
        = { svc := s, out := [(sock, .state "INTERNAL_ERROR")], thrown := none }) ∧
    (∀ name, object_find fields "REQUEST_NAME" = some (.string name) → name ∉ command_names →
      s.on_data (some (.object fields)) sock random_string hash
        = { svc := s, out := [(sock, .state "UNKNOWN_REQUEST")], thrown := none }) ∧
    answer.to_json (.state "UNKNOWN_REQUEST")
      = .object [("REQUEST_STATE", .string "UNKNOWN_REQUEST")] := by
  refine ⟨?_, ?_, ?_, rfl⟩
  · intro h
    simp [service.on_data, service.try_data, json.at, h, Except.bind]
  · intro v h hv
    cases v with
    | string name => exact absurd rfl (hv name)
    | null => simp [service.on_data, service.try_data, json.at, h, Except.bind, json.get_string]
    | boolean b =>
      simp [service.on_data, service.try_data, json.at, h, Except.bind, json.get_string]
    | number n =>
      simp [service.on_data, service.try_data, json.at, h, Except.bind, json.get_string]
    | array a => simp [service.on_data, service.try_data, json.at, h, Except.bind, json.get_string]
    | object o =>
      simp [service.on_data, service.try_data, json.at, h, Except.bind, json.get_string]
  · intro name h hname
    simp [service.on_data, service.try_data, json.at, h, Except.bind, json.get_string,
      order_registry_unknown s random_string hash name hname]

/-- Witness for C6: the empty object, and the request of the test case
`unknown request`. -/
theorem request_name_replies_witness :
    object_find [] "REQUEST_NAME" = none ∧
    ((service.init.accept 5).on_data (some (.object [])) 5 fixture_random_string fixture_hash).out
      = [(5, .state "INTERNAL_ERROR")] ∧
    object_find [("REQUEST_NAME", .string "HELLOBRUH")] "REQUEST_NAME"
      = some (.string "HELLOBRUH") ∧
    "HELLOBRUH" ∉ command_names ∧
    ((service.init.accept 5).on_data (some (.object [("REQUEST_NAME", .string "HELLOBRUH")])) 5
        fixture_random_string fixture_hash).out
      = [(5, .state "UNKNOWN_REQUEST")] :=
  ⟨by decide,
   congrArg outcome.out
     ((request_name_replies (service.init.accept 5) 5 fixture_random_string fixture_hash []).1
       (by decide)),
   by decide, by decide,
   congrArg outcome.out
     ((request_name_replies (service.init.accept 5) 5 fixture_random_string fixture_hash
       [("REQUEST_NAME", .string "HELLOBRUH")]).2.2.1 "HELLOBRUH" (by decide) (by decide))⟩

theorem not_loaded_of_never_returned (c : client) (hwf : c.wf) (id : Nat)
    (h : id = 0 ∨ c.last_id_ < id) : c.has_loaded id = false := by
  obtain ⟨_, hb, _⟩ := hwf
  unfold client.has_loaded
  rw [Bool.eq_false_iff]
  intro hany
  rw [List.any_eq_true] at hany
  obtain ⟨p, hp, hpe⟩ := hany
  simp only [decide_eq_true_eq] at hpe
  have := hb p hp
  omega

/-- C4 (amended): on a registered connection whose session has not loaded the temp-id `id`
(by `not_loaded_of_never_returned`, such is every temp-id that no CONFIG_LOAD has returned on
the connection), the seven commands that test the temp-id reply UNKNOWN_ID (CONFIG_INCLUDE
whether `id` is given as CONFIG_ID or as SRC), while CONFIG_UNLOAD, SETTING_REMOVE, ALIAS_SET
and ALIAS_UNSET reply SUCCESS. -/
theorem unknown_temp_id_replies (s : service) (sock : Nat) (c : client) (id : Nat)
    (hc : registry_find s.config_clients_registry_ sock = some c)
    (hid : c.has_loaded id = false) :
    (∀ upd, (s.update_setting { id := id, settings_to_update := upd } sock).out
      = [(sock, .state "UNKNOWN_ID")]) ∧
    (∀ n, (s.get_setting { id := id, setting_name := n } sock).out
      = [(sock, .state "UNKNOWN_ID")]) ∧
    (s.get_all_settings { id := id } sock).out = [(sock, .state "UNKNOWN_ID")] ∧
    (s.get_settings_names { id := id } sock).out = [(sock, .state "UNKNOWN_ID")] ∧
    (∀ src, (s.include_config { id := id, src_id := src } sock).out
      = [(sock, .state "UNKNOWN_ID")]) ∧
    (∀ dst, (s.include_config { id := dst, src_id := id } sock).out
      = [(sock, .state "UNKNOWN_ID")]) ∧
    (∀ n a, (s.subscribe_setting { id := id, setting_name := n, alias_name := a } sock).out
      = [(sock, .state "UNKNOWN_ID")]) ∧
    (∀ n a, (s.unsubscribe_setting { id := id, setting_name := n, alias_name := a } sock).out
      = [(sock, .state "UNKNOWN_ID")]) ∧
    (s.unload_config { id := id } sock).out = [(sock, .state "SUCCESS")] ∧
    (∀ n, (s.remove_setting { id := id, setting_name := n } sock).out
      = [(sock, .state "SUCCESS")]) ∧
    (∀ n a, (s.set_alias { id := id, setting_name := n, alias_name := a } sock).out
      = [(sock, .state "SUCCESS")]) ∧
    (∀ a, (s.unset_alias { id := id, alias_name := a } sock).out
      = [(sock, .state "SUCCESS")]) := by
  refine ⟨?_, ?_, ?_, ?_, ?_, ?_, ?_, ?_, ?_, ?_, ?_, ?_⟩
  · intro upd
    simp [service.update_setting, hc, hid, reply, send_state, convert_request_state]
  · intro n
    simp [service.get_setting, hc, hid, reply, send_state, convert_request_state]
  · simp [service.get_all_settings, hc, hid, reply, send_state, convert_request_state]
  · simp [service.get_settings_names, hc, hid, reply, send_state, convert_request_state]
  · intro src
    simp [service.include_config, hc, hid, reply, send_state, convert_request_state]
  · intro dst
    simp [service.include_config, hc, hid, reply, send_state, convert_request_state]
  · intro n a
    simp [service.subscribe_setting, hc, hid, reply, send_state, convert_request_state]
  · intro n a
    simp [service.unsubscribe_setting, hc, hid, reply, send_state, convert_request_state]
  · simp [service.unload_config, hc, reply, send_state, convert_request_state]
  · intro n
    simp [service.remove_setting, hc, hid, reply, send_state, convert_request_state]
  · intro n a
    simp [service.set_alias, reply, send_state, convert_request_state]
  · intro a
    simp [service.unset_alias, reply, send_state, convert_request_state]

/-- Witness for C4: the temp-id 42 of the test cases, which the
connection has not loaded. -/
theorem unknown_temp_id_replies_witness :
    registry_find fixture_loaded.config_clients_registry_ 5
      = some { socket_ := 5, last_id_ := 1, config_ids_ := [(1, 1)], subscriptions_ := [] } ∧
    client.has_loaded
      { socket_ := 5, last_id_ := 1, config_ids_ := [(1, 1)], subscriptions_ := [] } 42 = false ∧
    (fixture_loaded.get_setting { id := 42, setting_name := "titi" } 5).out
      = [(5, .state "UNKNOWN_ID")] :=
  ⟨by decide, by decide,
   (unknown_temp_id_replies fixture_loaded 5
      { socket_ := 5, last_id_ := 1, config_ids_ := [(1, 1)], subscriptions_ := [] } 42
      (by decide) (by decide)).2.1 "titi"⟩

/-- C4 (as stated) fails for CONFIG_UNLOAD, SETTING_REMOVE, ALIAS_SET and ALIAS_UNSET: with a
temp-id that no CONFIG_LOAD has returned on the connection they reply SUCCESS, as the test
cases `unload_config request`, `remove_setting request`, `alias_set request` and
`alias_unset request` expect. -/
theorem unknown_temp_id_success_counterexample :
    client.has_loaded (client.init 5) 42 = false ∧
    ((service.init.accept 5).on_data
        (some (.object [("CONFIG_ID", .number 42), ("REQUEST_NAME", .string "CONFIG_UNLOAD")])) 5
        fixture_random_string fixture_hash).out = [(5, .state "SUCCESS")] ∧
    ((service.init.accept 5).on_data
        (some (.object [("CONFIG_ID", .number 43), ("REQUEST_NAME", .string "SETTING_REMOVE"),
          ("SETTING_NAME", .string "foobar")])) 5
        fixture_random_string fixture_hash).out = [(5, .state "SUCCESS")] ∧
    ((service.init.accept 5).on_data
        (some (.object [("ALIAS_NAME", .string "barfoo"), ("CONFIG_ID", .number 43),
          ("REQUEST_NAME", .string "ALIAS_SET"), ("SETTING_NAME", .string "foobar")])) 5
        fixture_random_string fixture_hash).out = [(5, .state "SUCCESS")] ∧
    ((service.init.accept 5).on_data
        (some (.object [("ALIAS_NAME", .string "barfoo"), ("CONFIG_ID", .number 43),
          ("REQUEST_NAME", .string "ALIAS_UNSET")])) 5
        fixture_random_string fixture_hash).out = [(5, .state "SUCCESS")] := by
  decide

/-- C7: `config_create` makes at most four insert attempts.  When the attempts before
attempt `j` (counted from 0, `j ≤ 3`) violate a unique constraint and attempt `j` does not,
the call ends with state good and `nb_tries_ = j`, returns the keys of attempt `j` and the
rowid of the row that it appended to the table, and CONFIG_CREATE replies SUCCESS with these
keys.  When the four attempts violate a unique constraint, the call ends with `nb_tries_ = 4`
and state sql_error, the table is unchanged, and CONFIG_CREATE replies DB_ERROR with empty
keys. -/
theorem config_create_retries (s : service) (sock : Nat) (name : String)
    (random_string : Nat → String) (hash : String → Nat) :
    (∀ j, j ≤ 3 →
      (∀ i, i < j → attempt_collides s.db_ name random_string hash i = true) →
      attempt_collides s.db_ name random_string hash j = false →
        (s.db_.config_create name random_string hash).2.state = .good ∧
        (s.db_.config_create name random_string hash).2.nb_tries_ = j ∧
        (s.db_.config_create name random_string hash).1
          = { config_key := (attempt_keys name random_string hash j).1,
              readonly_config_key := (attempt_keys name random_string hash j).2,
              config_id := s.db_.next_rowid } ∧
        (s.db_.config_create name random_string hash).2.database_
          = s.db_.database_ ++ [attempt_row s.db_ name random_string hash j] ∧
        (s.create_config { config_name := name } sock random_string hash).out
          = [(sock, .config_create_answer (attempt_keys name random_string hash j).1
              (attempt_keys name random_string hash j).2 "SUCCESS")]) ∧
    ((∀ i, i < 4 → attempt_collides s.db_ name random_string hash i = true) →
        (s.db_.config_create name random_string hash).2.state = .sql_error ∧
        (s.db_.config_create name random_string hash).2.nb_tries_ = 4 ∧
        (s.db_.config_create name random_string hash).2.database_ = s.db_.database_ ∧
        (s.create_config { config_name := name } sock random_string hash).out
          = [(sock, .config_create_answer "" "" "DB_ERROR")]) := by
  constructor
  · intro j hj hb ha
    have h := config_create_loop_success name random_string hash 4 0 s.db_ j (by omega)
      (by simpa using hb) (by simpa using ha)
    simp only [Nat.zero_add] at h
    have hc : s.db_.config_create name random_string hash = _ := h
    simp [service.create_config, hc, config_db.good, reply, convert_request_state]
  · intro hall
    have h := config_create_loop_failure name random_string hash 3 0 s.db_ (by simpa using hall)
    have hc : s.db_.config_create name random_string hash = _ := h
    simp [service.create_config, hc, config_db.good, reply, convert_request_state]

/-- Witness for C7: on the table of the test cases, whose row has the keys
`07` and `17`, the draws 0, 1, 2, 3 collide at the first attempt and succeed at the second,
and a source that always draws 0 collides four times. -/
theorem config_create_retries_witness :
    (∀ i, i < 1 → attempt_collides fixture_created.db_ "b" fixture_random_string fixture_hash i
      = true) ∧
    attempt_collides fixture_created.db_ "b" fixture_random_string fixture_hash 1 = false ∧
    (fixture_created.create_config { config_name := "b" } 5 fixture_random_string fixture_hash).out
      = [(5, .config_create_answer "27" "37" "SUCCESS")] ∧
    (∀ i, i < 4 → attempt_collides fixture_created.db_ "b" (fun _ => "0") fixture_hash i = true) ∧
    (fixture_created.create_config { config_name := "b" } 5 (fun _ => "0") fixture_hash).out
      = [(5, .config_create_answer "" "" "DB_ERROR")] :=
  ⟨by decide, by decide,
   ((config_create_retries fixture_created 5 "b" fixture_random_string fixture_hash).1 1
      (by decide) (by decide) (by decide)).2.2.2.2,
   by decide,
   ((config_create_retries fixture_created 5 "b" (fun _ => "0") fixture_hash).2
      (by decide)).2.2.2⟩

/-! ## Lemmas on `config_include` -/

theorem std_unique_mem (l : List Nat) (x : Nat) : x ∈ std_unique l ↔ x ∈ l := by
  induction l using std_unique.induct with
  | case1 => simp [std_unique]
  | case2 a => simp [std_unique]
  | case3 a rest ih =>
    simp only [std_unique, if_true]
    rw [ih]
    simp
  | case4 a b rest hne ih =>
    simp only [std_unique, if_neg hne]
    simp only [List.mem_cons] at ih ⊢
    rw [ih]

theorem std_unique_sorted (l : List Nat) (h : l.Sorted (· ≤ ·)) :
    (std_unique l).Sorted (· < ·) := by
  induction l using std_unique.induct with
  | case1 => simp [std_unique]
  | case2 a => simp [std_unique]
  | case3 a rest ih =>
    simp only [std_unique, if_true]
    exact ih (List.Sorted.of_cons h)
  | case4 a b rest hne ih =>
    simp only [std_unique, if_neg hne]
    have htail := List.Sorted.of_cons h
    refine List.sorted_cons.2 ⟨?_, ih htail⟩
    intro x hx
    rw [std_unique_mem] at hx
    have hab : a ≤ b := List.rel_of_sorted_cons h b (List.mem_cons_self _ _)
    have hax : a ≤ x := List.rel_of_sorted_cons h x hx
    have hbx : b ≤ x := by
      rcases List.mem_cons.1 hx with h1 | h1
      · omega
      · exact List.rel_of_sorted_cons htail x h1
    omega

theorem include_into_other_config (text : document) (src_id : Nat) :
    ∃ l, (include_into text src_id).other_config = some l ∧
      l.toFinset = (text.other_config.getD []).toFinset ∪ {src_id} ∧
      l.length = ((text.other_config.getD []).toFinset ∪ {src_id}).card ∧
      l.Sorted (· < ·) := by
  refine ⟨_, rfl, ?_, ?_, ?_⟩
  · ext x
    simp only [List.mem_toFinset, std_unique_mem, Finset.mem_union, Finset.mem_singleton]
    rw [(List.perm_insertionSort (· ≤ ·) _).mem_iff]
    simp
  · have hs := std_unique_sorted _
      (List.sorted_insertionSort (· ≤ ·) ((text.other_config.getD []) ++ [src_id]))
    rw [← List.toFinset_card_of_nodup hs.nodup]
    congr 1
    ext x
    simp only [List.mem_toFinset, std_unique_mem, Finset.mem_union, Finset.mem_singleton]
    rw [(List.perm_insertionSort (· ≤ ·) _).mem_iff]
    simp
  · exact std_unique_sorted _ (List.sorted_insertionSort _ _)

theorem mem_rows_of_id (db : config_db) (id : Nat) (r : row) (h : r ∈ db.rows_of_id id) :
    r.id = id := by
  unfold config_db.rows_of_id at h
  simpa using (List.mem_filter.1 h).2

theorem get_config_write_text (db : config_db) (text : document) (id : Nat)
    (h : db.rows_of_id id ≠ []) :
    ((db.write_text text id).get_config id).1 = text := by
  unfold config_db.get_config
  rw [rows_of_id_write_text]
  have hlast : (db.rows_of_id id).getLast h ∈ db.rows_of_id id := List.getLast_mem h
  have hid : ((db.rows_of_id id).getLast h).id = id := mem_rows_of_id _ _ _ hlast
  rw [List.getLast?_map, List.getLast?_eq_getLast _ h]
  simp [hid]

theorem rows_of_id_write_text_ne_nil (db : config_db) (text : document) (id id' : Nat) :
    (db.write_text text id).rows_of_id id' = [] ↔ db.rows_of_id id' = [] := by
  rw [rows_of_id_write_text]
  simp

theorem config_include_success (db : config_db) (dst_id src_id : Nat)
    (h : (db.config_include dst_id src_id).1.state = .success) :
    db.rows_of_id dst_id ≠ [] ∧
    db.config_include dst_id src_id
      = ({ state := .success,
           nb_configs :=
             ((include_into (db.get_config dst_id).1 src_id).other_config.getD []).length },
         db.write_text (include_into (db.get_config dst_id).1 src_id) dst_id) := by
  unfold config_db.config_include at h ⊢
  by_cases h1 : (db.rows_of_id dst_id).length = 0
  · simp [h1] at h
  · by_cases h2 : (db.rows_of_id src_id).length = 0
    · simp [h1, h2] at h
    · have hne : db.rows_of_id dst_id ≠ [] := by
        intro he; rw [he] at h1; simp at h1
      refine ⟨hne, ?_⟩
      simp only [h1, h2, if_false]
      unfold config_db.get_config
      rw [List.getLast?_eq_getLast _ hne]


theorem include_all_count (dst_id : Nat) (srcs : List Nat) :
    ∀ (db : config_db) (A : Finset Nat),
      ((db.get_config dst_id).1.other_config.getD []).toFinset = A → srcs ≠ [] →
      (∀ a ∈ (include_all dst_id srcs db).1, a.state = .success) →
      ((include_all dst_id srcs db).1.getLast?).map config_include_answer_db.nb_configs
        = some (A ∪ srcs.toFinset).card := by
  induction srcs with
  | nil => intro db A _ hne; exact absurd rfl hne
  | cons src rest ih =>
    intro db A hA _ hall
    have hfirst : (db.config_include dst_id src).1.state = .success :=
      hall _ (by simp [include_all])
    obtain ⟨hrows, hinc⟩ := config_include_success db dst_id src hfirst
    obtain ⟨l, hl, hset, hlen, _⟩ := include_into_other_config (db.get_config dst_id).1 src
    rw [hA] at hset hlen
    have hnext : (((db.config_include dst_id src).2.get_config dst_id).1.other_config.getD
        []).toFinset = A ∪ {src} := by
      rw [hinc]
      simp only []
      rw [get_config_write_text _ _ _ hrows, hl]
      simpa using hset
    cases rest with
    | nil =>
      simp only [include_all, List.getLast?_singleton, Option.map_some', List.toFinset_cons,
        List.toFinset_nil]
      rw [hinc]
      simp only [hl, Option.getD_some, hlen]
      congr 2
    | cons src2 rest2 =>
      have hrest := ih (db.config_include dst_id src).2 (A ∪ {src}) hnext (by simp)
        (fun a ha => hall a (by
          simp only [include_all] at ha ⊢
          exact List.mem_cons_of_mem _ ha))
      have hstep : (include_all dst_id (src :: src2 :: rest2) db).1.getLast?
          = (include_all dst_id (src2 :: rest2) (db.config_include dst_id src).2).1.getLast? := by
        simp [include_all]
      rw [hstep, hrest]
      congr 2
      ext x
      simp only [Finset.mem_union, Finset.mem_singleton, List.mem_toFinset, List.mem_cons]
      tauto

theorem config_create_fresh (db : config_db) (name : String) (random_string : Nat → String)
    (hash : String → Nat) (hgood : (db.config_create name random_string hash).2.good = true) :
    ((db.config_create name random_string hash).2.get_config
      (db.config_create name random_string hash).1.config_id).1 = new_document name := by
  obtain ⟨j, _, hcreate⟩ := config_create_good db name random_string hash hgood
  rw [hcreate]
  unfold config_db.get_config config_db.rows_of_id
  simp only []
  rw [getLast?_filter_concat _ _ _ (by simp [attempt_row])]
  simp [attempt_row]

/-- C8: on a destination that `config_create` has just created, after a non-empty sequence
of calls `config_include` that all answer success, the `nb_configs` of the last answer is the
number of distinct source ids of the sequence. -/
theorem include_count_distinct (db : config_db) (name : String) (random_string : Nat → String)
    (hash : String → Nat) (srcs : List Nat)
    (hgood : (db.config_create name random_string hash).2.good = true)
    (hne : srcs ≠ [])
    (hall : ∀ a ∈ (include_all (db.config_create name random_string hash).1.config_id srcs
      (db.config_create name random_string hash).2).1, a.state = .success) :
    ((include_all (db.config_create name random_string hash).1.config_id srcs
        (db.config_create name random_string hash).2).1.getLast?).map
      config_include_answer_db.nb_configs = some srcs.toFinset.card := by
  have h := include_all_count (db.config_create name random_string hash).1.config_id srcs
    (db.config_create name random_string hash).2 ∅
    (by rw [config_create_fresh db name random_string hash hgood]; simp [new_document]) hne hall
  simpa using h

/-- Witness for C8: the test case `include multiple config with same id
into existent src`, where a third configuration is created and the ids 2, 1 and 1 are included
into it; the last answer counts 2 configurations. -/
theorem include_count_distinct_witness :
    (fixture_two_configs.config_create "ma_config" (fun n => toString (n + 4))
      fixture_hash).2.good = true ∧
    [2, 1, 1] ≠ [] ∧
    (∀ a ∈ (include_all 3 [2, 1, 1]
        (fixture_two_configs.config_create "ma_config" (fun n => toString (n + 4))
          fixture_hash).2).1, a.state = .success) ∧
    ((include_all 3 [2, 1, 1]
        (fixture_two_configs.config_create "ma_config" (fun n => toString (n + 4))
          fixture_hash).2).1.getLast?).map
      config_include_answer_db.nb_configs = some 2 :=
  ⟨by decide, by decide, by decide,
   include_count_distinct fixture_two_configs "ma_config" (fun n => toString (n + 4))
     fixture_hash [2, 1, 1] (by decide) (by decide) (by decide)⟩

/-! ## Lemmas on the fan-out -/

theorem update_events_all_events (registry : List (Nat × client)) (db_id : Nat)
    (items : List (String × json)) :
    ∀ w ∈ update_events registry db_id items, w.2.is_event = true := by
  intro w hw
  unfold update_events at hw
  simp only [List.mem_flatMap] at hw
  obtain ⟨e, _, kv, _, hw⟩ := hw
  split at hw
  · simp only [List.mem_singleton] at hw
    rw [hw]; rfl
  · cases hw

theorem remove_events_all_events (registry : List (Nat × client)) (db_id : Nat)
    (name : String) :
    ∀ w ∈ remove_events registry db_id name, w.2.is_event = true := by
  intro w hw
  unfold remove_events at hw
  simp only [List.mem_flatMap] at hw
  obtain ⟨e, _, hw⟩ := hw
  split at hw
  · simp only [List.mem_singleton] at hw
    rw [hw]; rfl
  · cases hw

theorem update_setting_out (s : service) (cfg : setting_update) (sock : Nat) :
    (s.update_setting cfg sock).out = [] ∨
    (∃ st, (s.update_setting cfg sock).out = [send_state sock st]) ∨
    (∃ c, registry_find s.config_clients_registry_ sock = some c ∧
      (s.update_setting cfg sock).out = send_state sock .success ::
        update_events s.config_clients_registry_ (c.get_db_id_from cfg.id)
          cfg.settings_to_update) := by
  unfold service.update_setting
  cases hc : registry_find s.config_clients_registry_ sock with
  | none => left; rfl
  | some c =>
    simp only []
    split
    · right; left; exact ⟨_, rfl⟩
    · split
      · right; left; exact ⟨_, rfl⟩
      · split
        · right; left; exact ⟨_, rfl⟩
        · right; right; exact ⟨c, rfl, rfl⟩

theorem remove_setting_out (s : service) (cfg : setting_remove) (sock : Nat) :
    (s.remove_setting cfg sock).out = [send_state sock .success] ∨
    (∃ c, registry_find s.config_clients_registry_ sock = some c ∧ c.has_loaded cfg.id = true ∧
      (s.remove_setting cfg sock).out = send_state sock .success ::
        remove_events s.config_clients_registry_ (c.get_db_id_from cfg.id) cfg.setting_name) := by
  unfold service.remove_setting
  cases hc : registry_find s.config_clients_registry_ sock with
  | none => left; rfl
  | some c =>
    simp only []
    by_cases h : c.has_loaded cfg.id = true
    · right
      refine ⟨c, rfl, h, ?_⟩
      simp [h]
    · left
      simp [h, reply]

theorem head_before_event (out pre post : List (Nat × answer)) (hd w : Nat × answer)
    (tl : List (Nat × answer)) (hout : out = hd :: tl) (hhd : hd.2.is_event = false)
    (hsplit : out = pre ++ w :: post) (hw : w.2.is_event = true) : hd ∈ pre := by
  cases pre with
  | nil =>
    rw [hout] at hsplit
    simp only [List.nil_append, List.cons.injEq] at hsplit
    rw [← hsplit.1, hhd] at hw
    cases hw
  | cons p pre' =>
    rw [hout] at hsplit
    simp only [List.cons_append, List.cons.injEq] at hsplit
    rw [hsplit.1]
    exact List.mem_cons_self _ _

/-- C10: in the frames that `update_setting` and `remove_setting` write, every subscription
event comes after the SUCCESS reply to the socket of the request. -/
theorem reply_precedes_events (s : service) (sock : Nat) :
    (∀ (cfg : setting_update) (pre post : List (Nat × answer)) (w : Nat × answer),
      (s.update_setting cfg sock).out = pre ++ w :: post → w.2.is_event = true →
      (sock, answer.state "SUCCESS") ∈ pre) ∧
    (∀ (cfg : setting_remove) (pre post : List (Nat × answer)) (w : Nat × answer),
      (s.remove_setting cfg sock).out = pre ++ w :: post → w.2.is_event = true →
      (sock, answer.state "SUCCESS") ∈ pre) := by
  constructor
  · intro cfg pre post w hsplit hw
    rcases update_setting_out s cfg sock with h | ⟨st, h⟩ | ⟨c, _, h⟩
    · rw [h] at hsplit
      cases pre <;> cases hsplit
    · have := head_before_event _ pre post _ w _ h rfl hsplit hw
      rw [h] at hsplit
      cases pre with
      | nil =>
        simp only [List.nil_append, List.cons.injEq] at hsplit
        rw [← hsplit.1] at hw
        cases hw
      | cons p pre' =>
        simp only [List.cons_append, List.cons.injEq] at hsplit
        cases pre' <;> cases hsplit.2
    · exact head_before_event _ pre post _ w _ h rfl hsplit hw
  · intro cfg pre post w hsplit hw
    rcases remove_setting_out s cfg sock with h | ⟨c, _, _, h⟩
    · exact head_before_event _ pre post _ w _ h rfl hsplit hw
    · exact head_before_event _ pre post _ w _ h rfl hsplit hw


theorem flatMap_eq_nil_of_forall {α β : Type} (l : List α) (G : α → List β)
    (h : ∀ a ∈ l, G a = []) : l.flatMap G = [] := by
  induction l with
  | nil => rfl
  | cons a l ih =>
    simp only [List.flatMap_cons]
    rw [h a (List.mem_cons_self _ _), ih (fun b hb => h b (List.mem_cons_of_mem _ hb))]
    rfl

theorem flatMap_unique {α β κ : Type} (l : List α) (key : α → κ) (G : α → List β) (e : α)
    (hnd : (l.map key).Nodup) (he : e ∈ l) (hG : ∀ a ∈ l, key a ≠ key e → G a = []) :
    l.flatMap G = G e := by
  induction l with
  | nil => cases he
  | cons a l ih =>
    simp only [List.map_cons, List.nodup_cons] at hnd
    simp only [List.flatMap_cons]
    rcases List.mem_cons.1 he with h | h
    · subst h
      rw [flatMap_eq_nil_of_forall l G (fun b hb => hG b (List.mem_cons_of_mem _ hb) (by
        intro hk
        exact hnd.1 (hk ▸ List.mem_map_of_mem key hb)))]
      simp
    · have hne : key a ≠ key e := by
        intro hk
        exact hnd.1 (hk ▸ List.mem_map_of_mem key h)
      rw [hG a (List.mem_cons_self _ _) hne, List.nil_append]
      exact ih hnd.2 h (fun b hb => hG b (List.mem_cons_of_mem _ hb))

theorem flatMap_key {β : Type} (items : List (String × json)) (n : String) (f : List β)
    (hnd : (items.map Prod.fst).Nodup) :
    items.flatMap (fun kv => if kv.1 = n then f else [])
      = if n ∈ items.map Prod.fst then f else [] := by
  by_cases hn : n ∈ items.map Prod.fst
  · rw [if_pos hn]
    obtain ⟨kv, hkv, hk⟩ := List.mem_map.1 hn
    rw [flatMap_unique items Prod.fst _ kv hnd hkv (fun a _ ha => by
      rw [hk] at ha
      simp [ha])]
    simp [hk]
  · rw [if_neg hn]
    apply flatMap_eq_nil_of_forall
    intro a ha
    have : a.1 ≠ n := by
      intro h
      exact hn (h ▸ List.mem_map_of_mem Prod.fst ha)
    simp [this]

theorem events_to_update_events_entry (e : Nat × client) (db_id : Nat)
    (items : List (String × json)) (fileno : Nat) (n : String)
    (hnd : (items.map Prod.fst).Nodup) :
    events_to
        (items.flatMap (fun kv =>
          if e.2.is_subscribed db_id kv.1 then
            [(e.2.get_socket, answer.subscribe_event (e.2.get_id_from_db db_id) kv.1
              .update_setting)]
          else [])) fileno n
      = if e.2.get_socket = fileno ∧ n ∈ items.map Prod.fst ∧ e.2.is_subscribed db_id n = true
        then
          [(e.2.get_socket, answer.subscribe_event (e.2.get_id_from_db db_id) n .update_setting)]
        else [] := by
  unfold events_to
  rw [List.filter_flatMap]
  have hfun : (fun kv : String × json =>
      List.filter (fun w : Nat × answer =>
        decide (w.1 = fileno) &&
          (match w.2 with
           | .subscribe_event _ m _ => decide (m = n)
           | _ => false))
        (if e.2.is_subscribed db_id kv.1 then
          [(e.2.get_socket, answer.subscribe_event (e.2.get_id_from_db db_id) kv.1
            .update_setting)]
        else []))
      = (fun kv : String × json => if kv.1 = n then
          (if e.2.get_socket = fileno ∧ e.2.is_subscribed db_id n = true then
            [(e.2.get_socket, answer.subscribe_event (e.2.get_id_from_db db_id) n
              .update_setting)]
          else [])
        else []) := by
    funext kv
    by_cases hk : kv.1 = n
    · subst hk
      by_cases hs : e.2.is_subscribed db_id kv.1 = true
      · by_cases hf : e.2.get_socket = fileno <;> simp [hs, hf]
      · simp [hs]
    · by_cases hs : e.2.is_subscribed db_id kv.1 = true
      · simp [hs, hk]
      · simp [hs, hk]
  rw [hfun, flatMap_key items n _ hnd]
  by_cases h1 : n ∈ items.map Prod.fst <;> by_cases h2 : e.2.get_socket = fileno <;>
    by_cases h3 : e.2.is_subscribed db_id n = true <;> simp [h1, h2, h3]


theorem events_to_flatMap {α : Type} (l : List α) (F : α → List (Nat × answer)) (fileno : Nat)
    (n : String) : events_to (l.flatMap F) fileno n = l.flatMap (fun a => events_to (F a) fileno n) := by
  unfold events_to
  rw [List.filter_flatMap]

theorem events_to_state_cons (hd : Nat × answer) (tl : List (Nat × answer)) (fileno : Nat)
    (n : String) (h : hd.2.is_event = false) :
    events_to (hd :: tl) fileno n = events_to tl fileno n := by
  unfold events_to
  obtain ⟨fd, a⟩ := hd
  cases a <;> simp_all [answer.is_event]

theorem events_to_update_events (s : service) (hwf : s.wf) (db_id : Nat)
    (items : List (String × json)) (hnd : (items.map Prod.fst).Nodup)
    (e : Nat × client) (he : e ∈ s.config_clients_registry_) (n : String) :
    events_to (update_events s.config_clients_registry_ db_id items) e.1 n
      = if n ∈ items.map Prod.fst ∧ e.2.is_subscribed db_id n = true then
          [(e.1, answer.subscribe_event (e.2.get_id_from_db db_id) n .update_setting)]
        else [] := by
  obtain ⟨hkeys, hsock, _⟩ := hwf
  unfold update_events
  rw [events_to_flatMap]
  rw [flatMap_unique s.config_clients_registry_ Prod.fst _ e hkeys he (fun a ha hne => by
    rw [events_to_update_events_entry a db_id items e.1 n hnd]
    rw [if_neg]
    rw [hsock a ha]
    exact fun h => hne h.1)]
  rw [events_to_update_events_entry e db_id items e.1 n hnd]
  have hs := hsock e he
  simp only [hs, true_and]

theorem events_to_remove_events (s : service) (hwf : s.wf) (db_id : Nat) (name : String)
    (e : Nat × client) (he : e ∈ s.config_clients_registry_) (n : String) :
    events_to (remove_events s.config_clients_registry_ db_id name) e.1 n
      = if n = name ∧ e.2.is_subscribed db_id n = true then
          [(e.1, answer.subscribe_event (e.2.get_id_from_db db_id) n .delete_setting)]
        else [] := by
  obtain ⟨hkeys, hsock, _⟩ := hwf
  have hentry : ∀ a : Nat × client, a ∈ s.config_clients_registry_ →
      events_to (if a.2.is_subscribed db_id name then
          [(a.2.get_socket, answer.subscribe_event (a.2.get_id_from_db db_id) name
            .delete_setting)]
        else []) e.1 n
      = if a.1 = e.1 ∧ n = name ∧ a.2.is_subscribed db_id n = true then
          [(a.1, answer.subscribe_event (a.2.get_id_from_db db_id) n .delete_setting)]
        else [] := by
    intro a ha
    unfold events_to
    rw [hsock a ha]
    by_cases h1 : a.2.is_subscribed db_id name = true <;> by_cases h2 : a.1 = e.1 <;>
      by_cases h3 : name = n
    · subst h3; simp [h1, h2]
    · simp [h1, h2, h3, Ne.symm h3]
    · subst h3; simp [h1, h2]
    · simp [h1, h2, h3, Ne.symm h3]
    · subst h3; simp [h1, h2]
    · simp [h1, h2, h3, Ne.symm h3]
    · subst h3; simp [h1, h2]
    · simp [h1, h2, h3, Ne.symm h3]
  unfold remove_events
  rw [events_to_flatMap]
  rw [flatMap_unique s.config_clients_registry_ Prod.fst _ e hkeys he (fun a ha hne => by
    rw [hentry a ha, if_neg]
    exact fun h => hne h.1)]
  rw [hentry e he]
  simp

theorem events_go_to_sessions (s : service) (hwf : s.wf) (db_id : Nat)
    (items : List (String × json)) (name : String) :
    (∀ w ∈ update_events s.config_clients_registry_ db_id items,
      ∃ e ∈ s.config_clients_registry_, w.1 = e.1) ∧
    (∀ w ∈ remove_events s.config_clients_registry_ db_id name,
      ∃ e ∈ s.config_clients_registry_, w.1 = e.1) := by
  obtain ⟨_, hsock, _⟩ := hwf
  constructor
  · intro w hw
    unfold update_events at hw
    simp only [List.mem_flatMap] at hw
    obtain ⟨e, he, kv, _, hw⟩ := hw
    refine ⟨e, he, ?_⟩
    split at hw
    · simp only [List.mem_singleton] at hw
      rw [hw]; exact hsock e he
    · cases hw
  · intro w hw
    unfold remove_events at hw
    simp only [List.mem_flatMap] at hw
    obtain ⟨e, he, hw⟩ := hw
    refine ⟨e, he, ?_⟩
    split at hw
    · simp only [List.mem_singleton] at hw
      rw [hw]; exact hsock e he
    · cases hw


/-- C3: in a consistent registry, after a SETTING_UPDATE that replies SUCCESS (the members of
SETTINGS_TO_UPDATE having distinct keys) and after a SETTING_REMOVE on a loaded temp-id, with
`C` the config_id of the temp-id: every event is written to the socket of a session of the
registry, and for every session and every setting name the events written to its socket
under that name are exactly one event, of type UPDATE (resp. DELETE), when the name is a
written key (resp. the removed name) and the session is subscribed to `(C, name)`, and none
otherwise. -/
theorem fanout_exact (s : service) (sock : Nat) (c : client) (hwf : s.wf)
    (hc : registry_find s.config_clients_registry_ sock = some c) :
    (∀ cfg : setting_update, (cfg.settings_to_update.map Prod.fst).Nodup →
      send_state sock .success ∈ (s.update_setting cfg sock).out →
      (∀ w ∈ (s.update_setting cfg sock).out, w.2.is_event = true →
        ∃ e ∈ s.config_clients_registry_, w.1 = e.1) ∧
      (∀ e ∈ s.config_clients_registry_, ∀ n,
        events_to (s.update_setting cfg sock).out e.1 n
          = if n ∈ cfg.settings_to_update.map Prod.fst ∧
                e.2.is_subscribed (c.get_db_id_from cfg.id) n = true then
              [(e.1, answer.subscribe_event (e.2.get_id_from_db (c.get_db_id_from cfg.id)) n
                .update_setting)]
            else [])) ∧
    (∀ cfg : setting_remove, c.has_loaded cfg.id = true →
      (∀ w ∈ (s.remove_setting cfg sock).out, w.2.is_event = true →
        ∃ e ∈ s.config_clients_registry_, w.1 = e.1) ∧
      (∀ e ∈ s.config_clients_registry_, ∀ n,
        events_to (s.remove_setting cfg sock).out e.1 n
          = if n = cfg.setting_name ∧
                e.2.is_subscribed (c.get_db_id_from cfg.id) n = true then
              [(e.1, answer.subscribe_event (e.2.get_id_from_db (c.get_db_id_from cfg.id)) n
                .delete_setting)]
            else [])) := by
  constructor
  · intro cfg hnd hok
    obtain ⟨c', u, hc', _, _, _, _, heq⟩ := update_setting_success s cfg sock hok
    rw [hc] at hc'
    cases hc'
    rw [heq]
    simp only []
    constructor
    · intro w hw hev
      rcases List.mem_cons.1 hw with h | h
      · rw [h] at hev; cases hev
      · exact (events_go_to_sessions s hwf _ _ "").1 w h
    · intro e he n
      rw [events_to_state_cons (send_state sock .success) _ _ _ rfl]
      exact events_to_update_events s hwf _ _ hnd e he n
  · intro cfg hl
    have heq : (s.remove_setting cfg sock).out = send_state sock .success ::
        remove_events s.config_clients_registry_ (c.get_db_id_from cfg.id) cfg.setting_name := by
      simp [service.remove_setting, hc, hl]
    rw [heq]
    constructor
    · intro w hw hev
      rcases List.mem_cons.1 hw with h | h
      · rw [h] at hev; cases hev
      · exact (events_go_to_sessions s hwf _ [] _).2 w h
    · intro e he n
      rw [events_to_state_cons (send_state sock .success) _ _ _ rfl]
      exact events_to_remove_events s hwf _ _ e he n


/-! ## Lemmas on sessions -/

theorem eq_of_fst_eq {β : Type} (l : List (Nat × β)) (hnd : (l.map Prod.fst).Nodup)
    (p q : Nat × β) (hp : p ∈ l) (hq : q ∈ l) (h : p.1 = q.1) : p = q :=
  List.inj_on_of_nodup_map hnd hp hq h

theorem client_get_db_id_of_mem (c : client) (hnd : (c.config_ids_.map Prod.fst).Nodup)
    (p : Nat × Nat) (hp : p ∈ c.config_ids_) :
    c.has_loaded p.1 = true ∧ c.get_db_id_from p.1 = p.2 := by
  constructor
  · unfold client.has_loaded
    rw [List.any_eq_true]
    exact ⟨p, hp, by simp⟩
  · unfold client.get_db_id_from
    cases hf : c.config_ids_.find? (fun q => decide (q.1 = p.1)) with
    | none =>
      rw [List.find?_eq_none] at hf
      exact absurd (hf p hp) (by simp)
    | some q =>
      have hq := List.mem_of_find?_eq_some hf
      have hq1 : q.1 = p.1 := by simpa using List.find?_some hf
      rw [eq_of_fst_eq _ hnd q p hq hp hq1]

theorem client_temp_id_of_subscribed (c : client) (hwf : c.wf) (db_id : Nat) (n : String)
    (h : c.is_subscribed db_id n = true) :
    c.has_loaded (c.get_id_from_db db_id) = true ∧
      c.get_db_id_from (c.get_id_from_db db_id) = db_id := by
  obtain ⟨hnd, _, hsub⟩ := hwf
  unfold client.is_subscribed at h
  rw [List.any_eq_true] at h
  obtain ⟨q, hq, hqe⟩ := h
  simp only [decide_eq_true_eq] at hqe
  obtain ⟨p, hp, hpq⟩ := hsub q hq
  rw [hqe] at hpq
  simp only [] at hpq
  unfold client.get_id_from_db
  cases hf : c.config_ids_.find? (fun r => decide (r.2 = db_id)) with
  | none =>
    rw [List.find?_eq_none] at hf
    exact absurd (hf p hp) (by simp [hpq])
  | some r =>
    have hr := List.mem_of_find?_eq_some hf
    have hr2 : r.2 = db_id := by simpa using List.find?_some hf
    have := client_get_db_id_of_mem c hnd r hr
    simp only []
    rw [hr2] at this
    exact this

/-- C9: in a consistent registry, every subscription event that `update_setting` and
`remove_setting` write, for a request on the configuration `C` of the temp-id of the request,
is written to the socket of a session that has loaded the temp-id carried by the event, and
this temp-id maps to `C` in that session. -/
theorem event_carries_recipient_temp_id (s : service) (sock : Nat) (c : client) (hwf : s.wf)
    (hc : registry_find s.config_clients_registry_ sock = some c) :
    (∀ (cfg : setting_update) (w : Nat × answer) (t : Nat) (n : String)
        (ty : subscribe_event_type),
      w ∈ (s.update_setting cfg sock).out → w.2 = .subscribe_event t n ty →
      ∃ e ∈ s.config_clients_registry_, e.1 = w.1 ∧ e.2.has_loaded t = true ∧
        e.2.get_db_id_from t = c.get_db_id_from cfg.id) ∧
    (∀ (cfg : setting_remove) (w : Nat × answer) (t : Nat) (n : String)
        (ty : subscribe_event_type),
      w ∈ (s.remove_setting cfg sock).out → w.2 = .subscribe_event t n ty →
      ∃ e ∈ s.config_clients_registry_, e.1 = w.1 ∧ e.2.has_loaded t = true ∧
        e.2.get_db_id_from t = c.get_db_id_from cfg.id) := by
  obtain ⟨_, hsock, hclients⟩ := hwf
  constructor
  · intro cfg w t n ty hw hev
    rcases update_setting_out s cfg sock with h | ⟨st, h⟩ | ⟨c', hc', h⟩
    · rw [h] at hw; cases hw
    · rw [h] at hw
      simp only [List.mem_singleton] at hw
      rw [hw] at hev; cases hev
    · rw [hc] at hc'
      cases hc'
      rw [h] at hw
      rcases List.mem_cons.1 hw with h1 | h1
      · rw [h1] at hev; cases hev
      · unfold update_events at h1
        simp only [List.mem_flatMap] at h1
        obtain ⟨e, he, kv, _, hw'⟩ := h1
        split at hw'
        · next hs =>
          simp only [List.mem_singleton] at hw'
          rw [hw'] at hev
          simp only [answer.subscribe_event.injEq] at hev
          obtain ⟨ht, _, _⟩ := hev
          refine ⟨e, he, ?_, ?_⟩
          · rw [hw']; exact (hsock e he).symm
          · rw [← ht]
            exact client_temp_id_of_subscribed e.2 (hclients e he) _ _ hs
        · cases hw'
  · intro cfg w t n ty hw hev
    rcases remove_setting_out s cfg sock with h | ⟨c', hc', _, h⟩
    · rw [h] at hw
      simp only [List.mem_singleton] at hw
      rw [hw] at hev; cases hev
    · rw [hc] at hc'
      cases hc'
      rw [h] at hw
      rcases List.mem_cons.1 hw with h1 | h1
      · rw [h1] at hev; cases hev
      · unfold remove_events at h1
        simp only [List.mem_flatMap] at h1
        obtain ⟨e, he, hw'⟩ := h1
        split at hw'
        · next hs =>
          simp only [List.mem_singleton] at hw'
          rw [hw'] at hev
          simp only [answer.subscribe_event.injEq] at hev
          obtain ⟨ht, _, _⟩ := hev
          refine ⟨e, he, ?_, ?_⟩
          · rw [hw']; exact (hsock e he).symm
          · rw [← ht]
            exact client_temp_id_of_subscribed e.2 (hclients e he) _ _ hs
        · cases hw'


/-- Witness for C3: connection 6 updates `foo` and `titi` through its temp-id 2, and
connection 5, which is subscribed to `titi`, gets one event, under its own temp-id 1. -/
theorem fanout_exact_witness :
    fixture_two_clients.wf ∧
    registry_find fixture_two_clients.config_clients_registry_ 6 = some fixture_client_b ∧
    ([("foo", json.string "bar"), ("titi", json.number 1)].map Prod.fst).Nodup ∧
    send_state 6 .success ∈
      (fixture_two_clients.update_setting
        { id := 2, settings_to_update := [("foo", .string "bar"), ("titi", .number 1)] } 6).out ∧
    (5, fixture_client_a) ∈ fixture_two_clients.config_clients_registry_ ∧
    events_to
        (fixture_two_clients.update_setting
          { id := 2, settings_to_update := [("foo", .string "bar"), ("titi", .number 1)] } 6).out
        5 "titi"
      = [(5, .subscribe_event 1 "titi" .update_setting)] :=
  ⟨by decide, by decide, by decide, by decide, by decide,
   ((fanout_exact fixture_two_clients 6 fixture_client_b (by decide) (by decide)).1
      { id := 2, settings_to_update := [("foo", .string "bar"), ("titi", .number 1)] }
      (by decide) (by decide)).2 (5, fixture_client_a) (by decide) "titi"⟩

/-- Witness for C9: connection 6 removes `titi` through its
temp-id 2, and the event to connection 5 carries the temp-id 1 of connection 5. -/
theorem event_carries_recipient_temp_id_witness :
    fixture_two_clients.wf ∧
    registry_find fixture_two_clients.config_clients_registry_ 6 = some fixture_client_b ∧
    ((5, answer.subscribe_event 1 "titi" .delete_setting) ∈
      (fixture_two_clients.remove_setting { id := 2, setting_name := "titi" } 6).out) ∧
    (∃ e ∈ fixture_two_clients.config_clients_registry_, e.1 = 5 ∧ e.2.has_loaded 1 = true ∧
      e.2.get_db_id_from 1 = fixture_client_b.get_db_id_from 2) :=
  ⟨by decide, by decide, by decide,
   (event_carries_recipient_temp_id fixture_two_clients 6 fixture_client_b (by decide)
      (by decide)).2 { id := 2, setting_name := "titi" }
      (5, .subscribe_event 1 "titi" .delete_setting) 1 "titi" .delete_setting
      (by decide) rfl⟩

/-- Witness for C10: the test case `setting_subscribe request`, where the
subscribed connection updates `titi` itself and gets the reply, then the event. -/
theorem reply_precedes_events_witness :
    (fixture_subscribed.update_setting
        { id := 1, settings_to_update := [("foo", .string "bar"), ("titi", .number 1)] } 5).out
      = [(5, .state "SUCCESS")] ++ (5, .subscribe_event 1 "titi" .update_setting) :: [] ∧
    (5, answer.state "SUCCESS") ∈ [(5, answer.state "SUCCESS")] :=
  ⟨by decide,
   (reply_precedes_events fixture_subscribed 5).1
     { id := 1, settings_to_update := [("foo", .string "bar"), ("titi", .number 1)] }
     [(5, .state "SUCCESS")] [] (5, .subscribe_event 1 "titi" .update_setting)
     (by decide) rfl⟩


/-! ## The registry of a reachable service is consistent -/

theorem client_init_wf (fileno : Nat) : (client.init fileno).wf := by
  simp [client.wf, client.init]

theorem client_insert_db_id_wf (c : client) (db_id : Nat) (h : c.wf) :
    (c.insert_db_id db_id).2.wf := by
  obtain ⟨hnd, hb, hs⟩ := h
  refine ⟨?_, ?_, ?_⟩
  · simp only [client.insert_db_id, List.map_append, List.map_cons, List.map_nil]
    rw [List.nodup_append]
    refine ⟨hnd, by simp, ?_⟩
    intro a ha hb'
    simp only [List.mem_singleton] at hb'
    obtain ⟨p, hp, hpa⟩ := List.mem_map.1 ha
    have := (hb p hp).2
    omega
  · intro p hp
    simp only [client.insert_db_id, List.mem_append, List.mem_singleton] at hp ⊢
    rcases hp with hp | hp
    · have := hb p hp
      omega
    · rw [hp]; simp
  · intro q hq
    obtain ⟨p, hp, hpq⟩ := hs q hq
    exact ⟨p, by simp [client.insert_db_id, hp], hpq⟩

theorem client_remove_temp_id_wf (c : client) (temp_id : Nat) (h : c.wf) :
    (c.remove_temp_id temp_id).wf := by
  obtain ⟨hnd, hb, hs⟩ := h
  unfold client.remove_temp_id
  split
  · refine ⟨?_, ?_, ?_⟩
    · exact (List.Sublist.map Prod.fst (List.filter_sublist _)).nodup hnd
    · intro p hp
      exact hb p (List.mem_filter.1 hp).1
    · intro q hq
      simp only [List.mem_filter, Bool.not_eq_true', decide_eq_false_iff_not] at hq
      obtain ⟨p, hp, hpq⟩ := hs q hq.1
      refine ⟨p, ?_, hpq⟩
      simp only [List.mem_filter, Bool.not_eq_true', decide_eq_false_iff_not]
      refine ⟨hp, ?_⟩
      intro hpt
      have := (client_get_db_id_of_mem c hnd p hp).2
      rw [hpt, hpq] at this
      exact hq.2 this.symm
  · exact ⟨hnd, hb, hs⟩

theorem client_subscribe_wf (c : client) (temp_id : Nat) (n : String) (h : c.wf) :
    (c.subscribe temp_id n).wf := by
  obtain ⟨hnd, hb, hs⟩ := h
  unfold client.subscribe
  split
  · next hcond =>
    simp only [Bool.and_eq_true] at hcond
    refine ⟨hnd, hb, ?_⟩
    intro q hq
    simp only [List.mem_append, List.mem_singleton] at hq
    rcases hq with hq | hq
    · exact hs q hq
    · have hl := hcond.1
      unfold client.has_loaded at hl
      rw [List.any_eq_true] at hl
      obtain ⟨p, hp, hpt⟩ := hl
      simp only [decide_eq_true_eq] at hpt
      refine ⟨p, hp, ?_⟩
      rw [hq, ← hpt]
      exact ((client_get_db_id_of_mem c hnd p hp).2).symm
  · exact ⟨hnd, hb, hs⟩

theorem client_unsubscribe_wf (c : client) (temp_id : Nat) (n : String) (h : c.wf) :
    (c.unsubscribe temp_id n).wf := by
  obtain ⟨hnd, hb, hs⟩ := h
  refine ⟨hnd, hb, ?_⟩
  intro q hq
  exact hs q (List.mem_filter.1 hq).1

theorem registry_find_mem (registry : List (Nat × client)) (fileno : Nat) (c : client)
    (h : registry_find registry fileno = some c) : (fileno, c) ∈ registry := by
  induction registry with
  | nil => cases h
  | cons e rest ih =>
    obtain ⟨fd, c'⟩ := e
    unfold registry_find at h
    split at h
    · next hfd =>
      cases h
      rw [hfd]
      exact List.mem_cons_self _ _
    · exact List.mem_cons_of_mem _ (ih h)

theorem registry_find_none (registry : List (Nat × client)) (fileno : Nat)
    (h : registry_find registry fileno = none) : fileno ∉ registry.map Prod.fst := by
  induction registry with
  | nil => simp
  | cons e rest ih =>
    obtain ⟨fd, c'⟩ := e
    unfold registry_find at h
    split at h
    · cases h
    · next hfd =>
      simp only [List.map_cons, List.mem_cons, not_or]
      exact ⟨fun he => hfd he.symm, ih h⟩

theorem wf_registry_assign (s : service) (sock : Nat) (c c' : client) (db : config_db)
    (hwf : s.wf) (hc : registry_find s.config_clients_registry_ sock = some c)
    (hsock : c'.get_socket = c.get_socket) (hc' : c'.wf) :
    service.wf
      { config_clients_registry_ := registry_assign s.config_clients_registry_ sock c',
        db_ := db } := by
  obtain ⟨hkeys, hs, hcl⟩ := hwf
  have hmem := registry_find_mem _ _ _ hc
  have hcs : c.get_socket = sock := hs _ hmem
  refine ⟨?_, ?_, ?_⟩
  · have : (registry_assign s.config_clients_registry_ sock c').map Prod.fst
        = s.config_clients_registry_.map Prod.fst := by
      unfold registry_assign
      rw [List.map_map]
      apply List.map_congr_left
      intro e _
      simp only [Function.comp]
      split <;> rfl
    simp only []
    rw [this]
    exact hkeys
  · intro e he
    simp only [registry_assign, List.mem_map] at he
    obtain ⟨e0, he0, hee⟩ := he
    split at hee
    · next h =>
      rw [← hee]
      simp only []
      rw [hsock, hcs, h]
    · rw [← hee]; exact hs e0 he0
  · intro e he
    simp only [registry_assign, List.mem_map] at he
    obtain ⟨e0, he0, hee⟩ := he
    split at hee
    · rw [← hee]; exact hc'
    · rw [← hee]; exact hcl e0 he0

theorem wf_of_registry_eq (s s' : service) (hwf : s.wf)
    (h : s'.config_clients_registry_ = s.config_clients_registry_) : s'.wf := by
  unfold service.wf at hwf ⊢
  rw [h]
  exact hwf



theorem create_config_wf (s : service) (cfg : config_create) (sock : Nat)
    (random_string : Nat → String) (hash : String → Nat) (hwf : s.wf) :
    (s.create_config cfg sock random_string hash).svc.wf := by
  apply wf_of_registry_eq s _ hwf
  unfold service.create_config
  simp only []
  split <;> rfl

theorem load_config_wf (s : service) (cfg : config_load) (sock : Nat) (hwf : s.wf) :
    (s.load_config cfg sock).svc.wf := by
  have hkey : ∀ key, (s.load_config_key key sock).svc.wf := by
    intro key
    unfold service.load_config_key
    simp only []
    split
    · split <;> exact wf_of_registry_eq s _ hwf rfl
    · split
      · exact wf_of_registry_eq s _ hwf rfl
      · split
        · exact wf_of_registry_eq s _ hwf rfl
        · next c hc =>
          exact wf_registry_assign s sock c _ _ hwf hc rfl
            (client_insert_db_id_wf c _ ((hwf.2.2) _ (registry_find_mem _ _ _ hc)))
  unfold service.load_config
  split
  · exact hkey _
  · exact hkey _
  · exact hwf

theorem unload_config_wf (s : service) (cfg : config_unload) (sock : Nat) (hwf : s.wf) :
    (s.unload_config cfg sock).svc.wf := by
  unfold service.unload_config
  split
  · exact hwf
  · next c hc =>
    refine wf_registry_assign s sock c _ _ hwf hc ?_
      (client_remove_temp_id_wf c _ ((hwf.2.2) _ (registry_find_mem _ _ _ hc)))
    unfold client.remove_temp_id
    split <;> rfl

theorem include_config_wf (s : service) (cfg : config_include) (sock : Nat) (hwf : s.wf) :
    (s.include_config cfg sock).svc.wf := by
  apply wf_of_registry_eq s _ hwf
  unfold service.include_config
  split
  · rfl
  · simp only []
    split
    · rfl
    · split <;> rfl

theorem update_setting_wf (s : service) (cfg : setting_update) (sock : Nat) (hwf : s.wf) :
    (s.update_setting cfg sock).svc.wf := by
  apply wf_of_registry_eq s _ hwf
  unfold service.update_setting
  split
  · rfl
  · simp only []
    split
    · rfl
    · split
      · rfl
      · split <;> rfl

theorem remove_setting_wf (s : service) (cfg : setting_remove) (sock : Nat) (hwf : s.wf) :
    (s.remove_setting cfg sock).svc.wf := by
  apply wf_of_registry_eq s _ hwf
  unfold service.remove_setting
  split
  · rfl
  · split <;> rfl

theorem get_setting_wf (s : service) (cfg : setting_get) (sock : Nat) (hwf : s.wf) :
    (s.get_setting cfg sock).svc.wf := by
  apply wf_of_registry_eq s _ hwf
  unfold service.get_setting
  split
  · rfl
  · simp only []
    split
    · rfl
    · split
      · rfl
      · split
        · rfl
        · split <;> rfl

theorem get_settings_names_wf (s : service) (cfg : config_get_settings_names) (sock : Nat)
    (hwf : s.wf) : (s.get_settings_names cfg sock).svc.wf := by
  apply wf_of_registry_eq s _ hwf
  unfold service.get_settings_names
  split
  · rfl
  · simp only []
    split
    · rfl
    · split <;> rfl

theorem get_all_settings_wf (s : service) (cfg : config_get_settings) (sock : Nat)
    (hwf : s.wf) : (s.get_all_settings cfg sock).svc.wf := by
  apply wf_of_registry_eq s _ hwf
  unfold service.get_all_settings
  split
  · rfl
  · simp only []
    split
    · rfl
    · split <;> rfl

theorem subscribe_setting_wf (s : service) (cfg : setting_subscribe) (sock : Nat)
    (hwf : s.wf) : (s.subscribe_setting cfg sock).svc.wf := by
  unfold service.subscribe_setting
  split
  · exact hwf
  · next c hc =>
    split
    · exact hwf
    · split
      · refine wf_registry_assign s sock c _ _ hwf hc ?_
          (client_subscribe_wf c _ _ ((hwf.2.2) _ (registry_find_mem _ _ _ hc)))
        unfold client.subscribe
        split <;> rfl
      · exact hwf

theorem unsubscribe_setting_wf (s : service) (cfg : setting_subscribe) (sock : Nat)
    (hwf : s.wf) : (s.unsubscribe_setting cfg sock).svc.wf := by
  unfold service.unsubscribe_setting
  split
  · exact hwf
  · next c hc =>
    split
    · exact hwf
    · split
      · exact wf_registry_assign s sock c _ _ hwf hc rfl
          (client_unsubscribe_wf c _ _ ((hwf.2.2) _ (registry_find_mem _ _ _ hc)))
      · exact hwf

theorem fill_request_wf {α : Type} (s : service) (request : Except cpp_exception α)
    (handler : α → outcome) (hwf : s.wf) (h : ∀ cfg, (handler cfg).svc.wf) :
    (fill_request s request handler).svc.wf := by
  unfold fill_request
  split
  · exact hwf
  · exact h _

theorem order_registry_wf (s : service) (random_string : Nat → String) (hash : String → Nat)
    (command_order : String) (handler : json → Nat → outcome) (hwf : s.wf)
    (h : s.order_registry random_string hash command_order = some handler)
    (json_data : json) (sock : Nat) : (handler json_data sock).svc.wf := by
  unfold service.order_registry at h
  by_cases h0 : command_order = "CONFIG_CREATE"
  · rw [if_pos h0] at h
    injection h with h
    subst h
    exact fill_request_wf _ _ _ hwf (fun cfg => create_config_wf s cfg sock random_string hash hwf)
  · rw [if_neg h0] at h
    by_cases h1 : command_order = "CONFIG_LOAD"
    · rw [if_pos h1] at h
      injection h with h
      subst h
      exact fill_request_wf _ _ _ hwf (fun cfg => load_config_wf s cfg sock hwf)
    · rw [if_neg h1] at h
      by_cases h2 : command_order = "CONFIG_UNLOAD"
      · rw [if_pos h2] at h
        injection h with h
        subst h
        exact fill_request_wf _ _ _ hwf (fun cfg => unload_config_wf s cfg sock hwf)
      · rw [if_neg h2] at h
        by_cases h3 : command_order = "CONFIG_INCLUDE"
        · rw [if_pos h3] at h
          injection h with h
          subst h
          exact fill_request_wf _ _ _ hwf (fun cfg => include_config_wf s cfg sock hwf)
        · rw [if_neg h3] at h
          by_cases h4 : command_order = "SETTING_UPDATE"
          · rw [if_pos h4] at h
            injection h with h
            subst h
            exact fill_request_wf _ _ _ hwf (fun cfg => update_setting_wf s cfg sock hwf)
          · rw [if_neg h4] at h
            by_cases h5 : command_order = "SETTING_REMOVE"
            · rw [if_pos h5] at h
              injection h with h
              subst h
              exact fill_request_wf _ _ _ hwf (fun cfg => remove_setting_wf s cfg sock hwf)
            · rw [if_neg h5] at h
              by_cases h6 : command_order = "SETTING_GET"
              · rw [if_pos h6] at h
                injection h with h
                subst h
                exact fill_request_wf _ _ _ hwf (fun cfg => get_setting_wf s cfg sock hwf)
              · rw [if_neg h6] at h
                by_cases h7 : command_order = "CONFIG_GET_SETTINGS"
                · rw [if_pos h7] at h
                  injection h with h
                  subst h
                  exact fill_request_wf _ _ _ hwf (fun cfg => get_all_settings_wf s cfg sock hwf)
                · rw [if_neg h7] at h
                  by_cases h8 : command_order = "CONFIG_GET_SETTINGS_NAMES"
                  · rw [if_pos h8] at h
                    injection h with h
                    subst h
                    exact fill_request_wf _ _ _ hwf (fun cfg => get_settings_names_wf s cfg sock hwf)
                  · rw [if_neg h8] at h
                    by_cases h9 : command_order = "ALIAS_SET"
                    · rw [if_pos h9] at h
                      injection h with h
                      subst h
                      exact fill_request_wf _ _ _ hwf (fun cfg => hwf)
                    · rw [if_neg h9] at h
                      by_cases h10 : command_order = "ALIAS_UNSET"
                      · rw [if_pos h10] at h
                        injection h with h
                        subst h
                        exact fill_request_wf _ _ _ hwf (fun cfg => hwf)
                      · rw [if_neg h10] at h
                        by_cases h11 : command_order = "SUBSCRIBE_SETTING"
                        · rw [if_pos h11] at h
                          injection h with h
                          subst h
                          exact fill_request_wf _ _ _ hwf (fun cfg => subscribe_setting_wf s cfg sock hwf)
                        · rw [if_neg h11] at h
                          by_cases h12 : command_order = "UNSUBSCRIBE_SETTING"
                          · rw [if_pos h12] at h
                            injection h with h
                            subst h
                            exact fill_request_wf _ _ _ hwf (fun cfg => unsubscribe_setting_wf s cfg sock hwf)
                          · rw [if_neg h12] at h
                            cases h

theorem on_data_wf (s : service) (data : Option json) (sock : Nat)
    (random_string : Nat → String) (hash : String → Nat) (hwf : s.wf) :
    (s.on_data data sock random_string hash).svc.wf := by
  have htry : (s.try_data data sock random_string hash).svc.wf := by
    unfold service.try_data
    split
    · exact hwf
    · split
      · exact hwf
      · split
        · exact hwf
        · next handler hh => exact order_registry_wf s _ _ _ handler hwf hh _ _
  unfold service.on_data
  simp only []
  split
  · exact htry
  · exact htry
  · exact htry

theorem accept_wf (s : service) (fileno : Nat) (hwf : s.wf) : (s.accept fileno).wf := by
  unfold service.accept
  split
  · exact hwf
  · next hnone =>
    obtain ⟨hkeys, hs, hcl⟩ := hwf
    refine ⟨?_, ?_, ?_⟩
    · simp only [List.map_append, List.map_cons, List.map_nil]
      rw [List.nodup_append]
      refine ⟨hkeys, by simp, ?_⟩
      intro a ha hb
      simp only [List.mem_singleton] at hb
      rw [hb] at ha
      exact registry_find_none _ _ hnone ha
    · intro e he
      simp only [List.mem_append, List.mem_singleton] at he
      rcases he with he | he
      · exact hs e he
      · rw [he]; rfl
    · intro e he
      simp only [List.mem_append, List.mem_singleton] at he
      rcases he with he | he
      · exact hcl e he
      · rw [he]; exact client_init_wf fileno

theorem end_event_wf (s : service) (fileno : Nat) (hwf : s.wf) : (s.end_event fileno).wf := by
  obtain ⟨hkeys, hs, hcl⟩ := hwf
  refine ⟨?_, ?_, ?_⟩
  · exact (List.Sublist.map Prod.fst (List.filter_sublist _)).nodup hkeys
  · intro e he
    exact hs e (List.mem_filter.1 he).1
  · intro e he
    exact hcl e (List.mem_filter.1 he).1

/-- Every reachable state of the service has a consistent registry. -/
theorem reachable_wf (s : service) (h : reachable s) : s.wf := by
  induction h with
  | start table sequence => simp [service.wf]
  | accept fileno _ ih => exact accept_wf _ fileno ih
  | end_event fileno _ ih => exact end_event_wf _ fileno ih
  | data data sock random_string hash _ ih => exact on_data_wf _ data sock random_string hash ih

/-! ## The data-event listener in terms of typed requests -/

/-- The outcome of a handler whose `fill_request` gave `request`. -/
theorem order_registry_parse (s : service) (random_string : Nat → String) (hash : String → Nat)
    (command_order : String) (json_data : json) (sock : Nat) :
    (s.order_registry random_string hash command_order).map (fun handler => handler json_data sock)
      = (parse_request command_order json_data).map (fun request =>
          match request with
          | .error e => { svc := s, out := [], thrown := some e }
          | .ok r => s.handle r sock random_string hash) := by
  unfold service.order_registry parse_request
  by_cases h0 : command_order = "CONFIG_CREATE"
  · rw [if_pos h0, if_pos h0]
    cases hr : config_create.from_json json_data <;>
      simp [fill_request, hr, Except.map, service.handle]
  · rw [if_neg h0, if_neg h0]
    by_cases h1 : command_order = "CONFIG_LOAD"
    · rw [if_pos h1, if_pos h1]
      cases hr : config_load.from_json json_data <;>
        simp [fill_request, hr, Except.map, service.handle]
    · rw [if_neg h1, if_neg h1]
      by_cases h2 : command_order = "CONFIG_UNLOAD"
      · rw [if_pos h2, if_pos h2]
        cases hr : config_unload.from_json json_data <;>
          simp [fill_request, hr, Except.map, service.handle]
      · rw [if_neg h2, if_neg h2]
        by_cases h3 : command_order = "CONFIG_INCLUDE"
        · rw [if_pos h3, if_pos h3]
          cases hr : config_include.from_json json_data <;>
            simp [fill_request, hr, Except.map, service.handle]
        · rw [if_neg h3, if_neg h3]
          by_cases h4 : command_order = "SETTING_UPDATE"
          · rw [if_pos h4, if_pos h4]
            cases hr : setting_update.from_json json_data <;>
              simp [fill_request, hr, Except.map, service.handle]
          · rw [if_neg h4, if_neg h4]
            by_cases h5 : command_order = "SETTING_REMOVE"
            · rw [if_pos h5, if_pos h5]
              cases hr : setting_remove.from_json json_data <;>
                simp [fill_request, hr, Except.map, service.handle]
            · rw [if_neg h5, if_neg h5]
              by_cases h6 : command_order = "SETTING_GET"
              · rw [if_pos h6, if_pos h6]
                cases hr : setting_get.from_json json_data <;>
                  simp [fill_request, hr, Except.map, service.handle]
              · rw [if_neg h6, if_neg h6]
                by_cases h7 : command_order = "CONFIG_GET_SETTINGS"
                · rw [if_pos h7, if_pos h7]
                  cases hr : config_get_settings.from_json json_data <;>
                    simp [fill_request, hr, Except.map, service.handle]
                · rw [if_neg h7, if_neg h7]
                  by_cases h8 : command_order = "CONFIG_GET_SETTINGS_NAMES"
                  · rw [if_pos h8, if_pos h8]
                    cases hr : config_get_settings_names.from_json json_data <;>
                      simp [fill_request, hr, Except.map, service.handle]
                  · rw [if_neg h8, if_neg h8]
                    by_cases h9 : command_order = "ALIAS_SET"
                    · rw [if_pos h9, if_pos h9]
                      cases hr : alias_set.from_json json_data <;>
                        simp [fill_request, hr, Except.map, service.handle]
                    · rw [if_neg h9, if_neg h9]
                      by_cases h10 : command_order = "ALIAS_UNSET"
                      · rw [if_pos h10, if_pos h10]
                        cases hr : alias_unset.from_json json_data <;>
                          simp [fill_request, hr, Except.map, service.handle]
                      · rw [if_neg h10, if_neg h10]
                        by_cases h11 : command_order = "SUBSCRIBE_SETTING"
                        · rw [if_pos h11, if_pos h11]
                          cases hr : setting_subscribe.from_json json_data <;>
                            simp [fill_request, hr, Except.map, service.handle]
                        · rw [if_neg h11, if_neg h11]
                          by_cases h12 : command_order = "UNSUBSCRIBE_SETTING"
                          · rw [if_pos h12, if_pos h12]
                            cases hr : setting_subscribe.from_json json_data <;>
                              simp [fill_request, hr, Except.map, service.handle]
                          · rw [if_neg h12, if_neg h12]
                            rfl

theorem try_data_handle (s : service) (json_data : json) (sock : Nat)
    (random_string : Nat → String) (hash : String → Nat) :
    s.try_data (some json_data) sock random_string hash
      = match (json_data.at "REQUEST_NAME").bind json.get_string with
        | .error e => { svc := s, out := [], thrown := some e }
        | .ok command_order =>
          match parse_request command_order json_data with
          | none => { svc := s, out := [], thrown := some .std_out_of_range }
          | some (.error e) => { svc := s, out := [], thrown := some e }
          | some (.ok r) => s.handle r sock random_string hash := by
  unfold service.try_data
  simp only []
  cases hn : (json_data.at "REQUEST_NAME").bind json.get_string with
  | error e => rfl
  | ok command_order =>
    simp only []
    have h := order_registry_parse s random_string hash command_order json_data sock
    cases ho : s.order_registry random_string hash command_order with
    | none =>
      rw [ho] at h
      cases hp : parse_request command_order json_data with
      | none => rfl
      | some pr => rw [hp] at h; cases h
    | some handler =>
      rw [ho] at h
      cases hp : parse_request command_order json_data with
      | none => rw [hp] at h; cases h
      | some pr =>
        rw [hp] at h
        simp only [Option.map_some', Option.some.injEq] at h
        simp only []
        rw [h]
        cases pr <;> rfl


/-- C13: on a registered connection CONFIG_UNLOAD writes the single frame SUCCESS, whose JSON
object has the member `REQUEST_STATE` only, whatever the CONFIG_ID and whether or not the
session has loaded it; this holds for the handler and for the listener on every frame with
the command name `CONFIG_UNLOAD` and a number as `CONFIG_ID`. -/
theorem unload_replies_success (s : service) (sock : Nat) (c : client)
    (random_string : Nat → String) (hash : String → Nat)
    (hc : registry_find s.config_clients_registry_ sock = some c) :
    (∀ cfg : config_unload,
      (s.unload_config cfg sock).out = [(sock, .state "SUCCESS")] ∧
      (s.unload_config cfg sock).thrown = none) ∧
    (∀ (fields : List (String × json)) (n : Int),
      object_find fields "REQUEST_NAME" = some (.string "CONFIG_UNLOAD") →
      object_find fields "CONFIG_ID" = some (.number n) →
      (s.on_data (some (.object fields)) sock random_string hash).out
        = [(sock, .state "SUCCESS")]) ∧
    answer.to_json (.state "SUCCESS") = .object [("REQUEST_STATE", .string "SUCCESS")] := by
  have hunload : ∀ cfg : config_unload,
      (s.unload_config cfg sock).out = [(sock, .state "SUCCESS")] ∧
      (s.unload_config cfg sock).thrown = none := by
    intro cfg
    simp [service.unload_config, hc, reply, send_state, convert_request_state]
  refine ⟨hunload, ?_, rfl⟩
  intro fields n hname hid
  have hparse : parse_request "CONFIG_UNLOAD" (.object fields)
      = some (.ok (.config_unload { id := (n % (2 ^ 64 : Int)).toNat })) := by
    simp [parse_request, config_unload.from_json, json.at, hid, json.get_size_t, Except.map,
      bind, Except.bind, pure, Except.pure]
  unfold service.on_data
  rw [try_data_handle]
  simp only [json.at, hname, Except.bind, json.get_string, hparse, service.handle]
  rw [(hunload _).2]
  exact (hunload _).1

/-- Witness for C13: the request of the test case `unload_config request`, with the temp-id
42 that the connection has not loaded. -/
theorem unload_replies_success_witness :
    registry_find (service.init.accept 5).config_clients_registry_ 5 = some (client.init 5) ∧
    object_find [("CONFIG_ID", .number 42), ("REQUEST_NAME", .string "CONFIG_UNLOAD")]
      "REQUEST_NAME" = some (.string "CONFIG_UNLOAD") ∧
    object_find [("CONFIG_ID", .number 42), ("REQUEST_NAME", .string "CONFIG_UNLOAD")]
      "CONFIG_ID" = some (.number 42) ∧
    ((service.init.accept 5).on_data
        (some (.object [("CONFIG_ID", .number 42), ("REQUEST_NAME", .string "CONFIG_UNLOAD")]))
        5 fixture_random_string fixture_hash).out = [(5, .state "SUCCESS")] :=
  ⟨by decide, by decide, by decide,
   (unload_replies_success (service.init.accept 5) 5 (client.init 5) fixture_random_string
      fixture_hash (by decide)).2.1 _ 42 (by decide) (by decide)⟩


/-! ## Theorems on single handlers -/

/-- C17: on a registered connection SETTING_REMOVE leaves the service as it is, store
included, raises nothing, and writes the frame SUCCESS first and subscription events after
it, for every CONFIG_ID and SETTING_NAME; so SETTING_GET and CONFIG_GET_SETTINGS have the
same outcome after it as before it. -/
theorem remove_setting_keeps_store (s : service) (sock : Nat) (c : client)
    (cfg : setting_remove) (hc : registry_find s.config_clients_registry_ sock = some c) :
    (s.remove_setting cfg sock).svc = s ∧
    (s.remove_setting cfg sock).thrown = none ∧
    (s.remove_setting cfg sock).out.head? = some (sock, .state "SUCCESS") ∧
    (∀ w ∈ (s.remove_setting cfg sock).out.tail, w.2.is_event = true) ∧
    (∀ g : setting_get,
      (s.remove_setting cfg sock).svc.get_setting g sock = s.get_setting g sock) ∧
    (∀ g : config_get_settings,
      (s.remove_setting cfg sock).svc.get_all_settings g sock = s.get_all_settings g sock) := by
  have hsvc : (s.remove_setting cfg sock).svc = s := by
    unfold service.remove_setting
    rw [hc]
    simp only []
    split <;> rfl
  refine ⟨hsvc, ?_, ?_, ?_, ?_, ?_⟩
  · unfold service.remove_setting
    rw [hc]
    simp only []
    split <;> rfl
  · unfold service.remove_setting
    rw [hc]
    simp only []
    split <;> rfl
  · rcases remove_setting_out s cfg sock with h | ⟨c', _, _, h⟩
    · rw [h]; simp
    · rw [h]
      simp only [List.tail_cons]
      exact remove_events_all_events _ _ _
  · intro g; rw [hsvc]
  · intro g; rw [hsvc]

/-- Witness for C17: the test case `setting_unsubscribe request`, where the subscribed
connection removes `titi`. -/
theorem remove_setting_keeps_store_witness :
    registry_find fixture_subscribed.config_clients_registry_ 5 = some fixture_client_a ∧
    (fixture_subscribed.remove_setting { id := 1, setting_name := "titi" } 5).out
      = [(5, .state "SUCCESS"), (5, .subscribe_event 1 "titi" .delete_setting)] ∧
    (fixture_subscribed.remove_setting { id := 1, setting_name := "titi" } 5).svc
      = fixture_subscribed :=
  ⟨by decide, by decide,
   (remove_setting_keeps_store fixture_subscribed 5 fixture_client_a
      { id := 1, setting_name := "titi" } (by decide)).1⟩

/-- C19: on a registered connection SUBSCRIBE_SETTING and UNSUBSCRIBE_SETTING reply
UNKNOWN_ID when the session has not loaded the CONFIG_ID, whatever the name members, and
leave the service unchanged; when it is loaded they reply SUCCESS if `SETTING_NAME` is
present, recording or removing the subscription in the session without looking at the
store, and INTERNAL_ERROR if it is absent, leaving the service unchanged. -/
theorem subscribe_replies (s : service) (sock : Nat) (c : client) (cfg : setting_subscribe)
    (hc : registry_find s.config_clients_registry_ sock = some c) :
    (c.has_loaded cfg.id = false →
      s.subscribe_setting cfg sock
        = { svc := s, out := [(sock, .state "UNKNOWN_ID")], thrown := none } ∧
      s.unsubscribe_setting cfg sock
        = { svc := s, out := [(sock, .state "UNKNOWN_ID")], thrown := none }) ∧
    (c.has_loaded cfg.id = true → ∀ n, cfg.setting_name = some n →
      s.subscribe_setting cfg sock
        = { svc :=
              { config_clients_registry_ :=
                  registry_assign s.config_clients_registry_ sock (c.subscribe cfg.id n),
                db_ := s.db_ },
            out := [(sock, .state "SUCCESS")], thrown := none } ∧
      s.unsubscribe_setting cfg sock
        = { svc :=
              { config_clients_registry_ :=
                  registry_assign s.config_clients_registry_ sock (c.unsubscribe cfg.id n),
                db_ := s.db_ },
            out := [(sock, .state "SUCCESS")], thrown := none }) ∧
    (c.has_loaded cfg.id = true → cfg.setting_name = none →
      s.subscribe_setting cfg sock
        = { svc := s, out := [(sock, .state "INTERNAL_ERROR")], thrown := none } ∧
      s.unsubscribe_setting cfg sock
        = { svc := s, out := [(sock, .state "INTERNAL_ERROR")], thrown := none }) := by
  refine ⟨?_, ?_, ?_⟩
  · intro h
    simp [service.subscribe_setting, service.unsubscribe_setting, hc, h, reply, send_state,
      convert_request_state]
  · intro h n hn
    simp [service.subscribe_setting, service.unsubscribe_setting, hc, h, hn, reply, send_state,
      convert_request_state]
  · intro h hn
    simp [service.subscribe_setting, service.unsubscribe_setting, hc, h, hn, reply, send_state,
      convert_request_state]

/-- Witness for C19: connection 5 of the test cases, which has loaded the temp-id 1 only. -/
theorem subscribe_replies_witness :
    registry_find fixture_loaded.config_clients_registry_ 5
      = some { socket_ := 5, last_id_ := 1, config_ids_ := [(1, 1)], subscriptions_ := [] } ∧
    (fixture_loaded.subscribe_setting
        { id := 43, setting_name := none, alias_name := some "barfoo" } 5).out
      = [(5, .state "UNKNOWN_ID")] ∧
    (fixture_loaded.subscribe_setting
        { id := 1, setting_name := some "no_such_setting", alias_name := none } 5).out
      = [(5, .state "SUCCESS")] ∧
    (fixture_loaded.unsubscribe_setting
        { id := 1, setting_name := none, alias_name := some "barfoo" } 5)
      = { svc := fixture_loaded, out := [(5, .state "INTERNAL_ERROR")], thrown := none } :=
  ⟨by decide,
   congrArg outcome.out
     ((subscribe_replies fixture_loaded 5
       { socket_ := 5, last_id_ := 1, config_ids_ := [(1, 1)], subscriptions_ := [] }
       { id := 43, setting_name := none, alias_name := some "barfoo" } (by decide)).1
       (by decide)).1,
   congrArg outcome.out
     ((subscribe_replies fixture_loaded 5
       { socket_ := 5, last_id_ := 1, config_ids_ := [(1, 1)], subscriptions_ := [] }
       { id := 1, setting_name := some "no_such_setting", alias_name := none }
       (by decide)).2.1 (by decide) "no_such_setting" rfl).1,
   ((subscribe_replies fixture_loaded 5
       { socket_ := 5, last_id_ := 1, config_ids_ := [(1, 1)], subscriptions_ := [] }
       { id := 1, setting_name := none, alias_name := some "barfoo" } (by decide)).2.2
       (by decide) rfl).2⟩

/-- C18: `include_config` never writes to the table, and it does not call
`config_db::config_include`: on the service of the test cases, where connection 5 has loaded
the configurations 1 and 2 as temp-ids 1 and 2, CONFIG_INCLUDE with CONFIG_ID 1 and SRC 2
replies SUCCESS and the stored document of configuration 1 still has an empty `INCLUDES` and
no `OTHER_CONFIG`, whereas `config_include` of the store adapter records the id 2. -/
theorem include_config_persists_nothing :
    (∀ (s : service) (cfg : config_include) (sock : Nat),
      (s.include_config cfg sock).svc.db_.database_ = s.db_.database_) ∧
    (fixture_two_loaded.include_config { id := 1, src_id := 2 } 5).out
      = [(5, .state "SUCCESS")] ∧
    ((fixture_two_loaded.include_config { id := 1, src_id := 2 } 5).svc.db_.get_config 1).1
      = { config_name := "ma_config", settings := [], includes := [], other_config := none } ∧
    ((fixture_two_loaded.db_.config_include 1 2).2.get_config 1).1.other_config = some [2] := by
  refine ⟨?_, by decide, by decide, by decide⟩
  intro s cfg sock
  unfold service.include_config
  split
  · rfl
  · simp only []
    split
    · rfl
    · split
      · exact get_config_rows _ _
      · exact get_config_rows _ _

/-- C12: when the state of the store adapter is not good before the request (`get_config_id`
does not assign it on success), a CONFIG_LOAD with a key that a row of the table has does not
reply SUCCESS: it replies UNKNOWN_KEY when the state is unknow_config_key and DB_ERROR
otherwise, and loads nothing. -/
theorem load_known_key_after_failure (s : service) (sock : Nat) (key : String) (r : row)
    (hr : (s.db_.rows_of_key key).getLast? = some r) (hstate : s.db_.state ≠ .good) :
    s.load_config { config_key := some key, config_read_only_key := none } sock
      = { svc := s,
          out := [(sock, .state
            (if s.db_.state = .unknow_config_key then "UNKNOWN_KEY" else "DB_ERROR"))],
          thrown := none } ∧
    s.load_config { config_key := none, config_read_only_key := some key } sock
      = { svc := s,
          out := [(sock, .state
            (if s.db_.state = .unknow_config_key then "UNKNOWN_KEY" else "DB_ERROR"))],
          thrown := none } := by
  have hid := get_config_id_found s.db_ key r hr
  have hkey : s.load_config_key key sock
      = { svc := s,
          out := [(sock, .state
            (if s.db_.state = .unknow_config_key then "UNKNOWN_KEY" else "DB_ERROR"))],
          thrown := none } := by
    unfold service.load_config_key
    simp only [hid]
    have hfail : s.db_.fail = true := by
      simp [config_db.fail, config_db.good, hstate]
    rw [if_pos hfail]
    unfold config_db.get_state
    cases hs : s.db_.state <;>
      simp [reply, send_state, convert_request_state]
  exact ⟨by simpa [service.load_config] using hkey, by simpa [service.load_config] using hkey⟩

/-- Witness for C12: the service is reachable by the chunks CONFIG_CREATE and CONFIG_LOAD
with an unknown key on connection 5; the key `07` is then the `config_key` of the stored
configuration `ma_config`, and CONFIG_LOAD with it replies UNKNOWN_KEY. -/
theorem load_known_key_after_failure_witness :
    reachable fixture_stale ∧
    (fixture_stale.db_.rows_of_key "07").getLast?
      = some { config_text := new_document "ma_config", id := 1, config_key := "07",
               readonly_config_key := "17" } ∧
    fixture_stale.db_.state ≠ .good ∧
    (fixture_stale.on_data (some (frame_load "07")) 5 fixture_random_string fixture_hash).out
      = [(5, .state "UNKNOWN_KEY")] ∧
    (fixture_stale.load_config { config_key := none, config_read_only_key := some "07" } 5).out
      = [(5, .state "UNKNOWN_KEY")] :=
  ⟨reachable.data _ 5 _ _ (reachable.data _ 5 _ _ (reachable.accept 5 (reachable.start [] 0))),
   by decide, by decide, by decide,
   congrArg outcome.out
     (load_known_key_after_failure fixture_stale 5 "07"
       { config_text := new_document "ma_config", id := 1, config_key := "07",
         readonly_config_key := "17" } (by decide) (by decide)).2⟩

/-! ## Lemmas on the keys of `config_create` -/

theorem toDigitsCore_ne_nil (base fuel n : Nat) (ds : List Char) (h : ds ≠ []) :
    Nat.toDigitsCore base fuel n ds ≠ [] := by
  induction fuel generalizing n ds with
  | zero => simpa [Nat.toDigitsCore] using h
  | succ fuel ih =>
    unfold Nat.toDigitsCore
    simp only []
    split
    · simp
    · exact ih _ _ (by simp)

theorem nat_toString_ne_empty (n : Nat) : (toString n : String) ≠ "" := by
  intro h
  have hd : (toString n : String).data = [] := by rw [h]
  have hrepr : (toString n : String).data = Nat.toDigits 10 n := rfl
  rw [hrepr] at hd
  unfold Nat.toDigits Nat.toDigitsCore at hd
  simp only [] at hd
  split at hd
  · cases hd
  · exact toDigitsCore_ne_nil _ _ _ _ (by simp) hd

theorem append_ne_empty (a b : String) (hb : b ≠ "") : a ++ b ≠ "" := by
  intro h
  have hd : (a ++ b).data = [] := by rw [h]
  rw [String.data_append] at hd
  have : b.data = [] := (List.append_eq_nil.1 hd).2
  exact hb (String.ext this)

theorem append_right_cancel (a b c : String) : a ++ c = b ++ c ↔ a = b := by
  constructor
  · intro h
    have hd : (a ++ c).data = (b ++ c).data := by rw [h]
    rw [String.data_append, String.data_append] at hd
    exact String.ext (List.append_cancel_right hd)
  · intro h; rw [h]

/-- C11 (amended): a `config_create` that ends with state good returns a `config_key` and a
`readonly_config_key` that are both non-empty, and they differ from each other exactly when
the two outcomes of `random_string()` in the attempt that inserted differ. -/
theorem created_keys (db : config_db) (name : String) (random_string : Nat → String)
    (hash : String → Nat)
    (hgood : (db.config_create name random_string hash).2.state = .good) :
    (db.config_create name random_string hash).1.config_key ≠ "" ∧
    (db.config_create name random_string hash).1.readonly_config_key ≠ "" ∧
    ((db.config_create name random_string hash).1.config_key
        ≠ (db.config_create name random_string hash).1.readonly_config_key ↔
      random_string (2 * (db.config_create name random_string hash).2.nb_tries_)
        ≠ random_string (2 * (db.config_create name random_string hash).2.nb_tries_ + 1)) := by
  obtain ⟨j, _, hcreate⟩ := config_create_good db name random_string hash
    (by simp [config_db.good, hgood])
  rw [hcreate]
  simp only [attempt_keys]
  refine ⟨append_ne_empty _ _ (nat_toString_ne_empty _),
    append_ne_empty _ _ (nat_toString_ne_empty _), ?_⟩
  rw [Ne, append_right_cancel]

/-- Witness for C11: the test case `config_create db`, on a new table with the draws 0
and 1. -/
theorem created_keys_witness :
    (config_db.init.config_create "ma_config" fixture_random_string fixture_hash).2.state
      = .good ∧
    (config_db.init.config_create "ma_config" fixture_random_string fixture_hash).1.config_key
      ≠ "" ∧
    (config_db.init.config_create "ma_config" fixture_random_string fixture_hash).1.config_key
      = "07" :=
  ⟨by decide,
   (created_keys config_db.init "ma_config" fixture_random_string fixture_hash (by decide)).1,
   by decide⟩

/-- C11 (as stated) fails when the random source draws the same string twice: on a new table
`config_create` ends with state good and returns the same string as `config_key` and as
`readonly_config_key`, each unique in its own column. -/
theorem created_keys_equal_counterexample :
    (config_db.init.config_create "ma_config" (fun _ => "0") fixture_hash).2.state = .good ∧
    (config_db.init.config_create "ma_config" (fun _ => "0") fixture_hash).1.config_key
      = "07" ∧
    (config_db.init.config_create "ma_config" (fun _ => "0") fixture_hash).1.readonly_config_key
      = "07" ∧
    ((service.init.accept 5).on_data (some frame_create) 5 (fun _ => "0") fixture_hash).out
      = [(5, .config_create_answer "07" "07" "SUCCESS")] := by
  decide

/-! ## What the handlers do to the table and to the registry -/

theorem rows_of_id_congr (db db' : config_db) (id : Nat) (h : db'.database_ = db.database_) :
    db'.rows_of_id id = db.rows_of_id id := by
  unfold config_db.rows_of_id
  rw [h]

theorem get_config_fst_congr (db db' : config_db) (id : Nat)
    (h : db'.database_ = db.database_) : (db'.get_config id).1 = (db.get_config id).1 := by
  unfold config_db.get_config
  rw [rows_of_id_congr db db' id h]
  split <;> rfl

theorem get_config_id_table (db : config_db) (key : String) :
    (db.get_config_id key).2.database_ = db.database_ := by
  unfold config_db.get_config_id
  split
  · rfl
  · split <;> rfl

theorem get_config_name_table (db : config_db) (id : Nat) :
    (db.get_config_name id).2.database_ = db.database_ := by
  unfold config_db.get_config_name
  split
  · rfl
  · split <;> rfl

theorem get_config_name_ok (db : config_db) (id : Nat)
    (h : (db.get_config_name id).2.fail = false) : db.rows_of_id id ≠ [] := by
  unfold config_db.get_config_name at h
  split at h
  · simp [config_db.fail, config_db.good] at h
  · split at h
    · simp [config_db.fail, config_db.good] at h
    · next r hr =>
      intro he
      rw [he] at hr
      cases hr

theorem update_config_table (db : config_db) (text : document) (id : Nat) :
    (db.update_config text id).database_
      = if db.rows_of_id id = [] then db.database_ else (db.write_text text id).database_ := by
  unfold config_db.update_config
  by_cases h : db.rows_of_id id = []
  · simp [h]
  · have : (db.rows_of_id id).length ≠ 0 := fun hl => h (List.length_eq_zero.1 hl)
    simp [h, this]

theorem config_create_table (db : config_db) (name : String) (random_string : Nat → String)
    (hash : String → Nat) :
    (db.config_create name random_string hash).2.database_ = db.database_ ∨
    ∃ j, (db.config_create name random_string hash).2.database_
      = db.database_ ++ [attempt_row db name random_string hash j] := by
  rcases attempt_cases db name random_string hash 4 with ⟨j, hj, hb, ha⟩ | hall
  · right
    refine ⟨j, ?_⟩
    have := config_create_loop_success name random_string hash 4 0 db j hj
      (by simpa using hb) (by simpa using ha)
    have hc : db.config_create name random_string hash = _ := this
    rw [hc]
    simp
  · left
    have := config_create_loop_failure name random_string hash 3 0 db (by simpa using hall)
    have hc : db.config_create name random_string hash = _ := this
    rw [hc]

theorem le_foldr_max (l : List Nat) (init x : Nat) (h : x ∈ l) : x ≤ l.foldr max init := by
  induction l with
  | nil => cases h
  | cons a l ih =>
    simp only [List.foldr_cons]
    rcases List.mem_cons.1 h with h | h
    · rw [h]; exact Nat.le_max_left _ _
    · exact Nat.le_trans (ih h) (Nat.le_max_right _ _)

theorem id_lt_next_rowid (db : config_db) (r : row) (h : r ∈ db.database_) :
    r.id < db.next_rowid := by
  unfold config_db.next_rowid
  have := le_foldr_max (db.database_.map row.id) db.sequence r.id (List.mem_map_of_mem _ h)
  omega

theorem rows_of_id_append_new (db db' : config_db) (id : Nat) (r : row)
    (h : db'.database_ = db.database_ ++ [r]) (hid : r.id = db.next_rowid)
    (hrows : db.rows_of_id id ≠ []) : db'.rows_of_id id = db.rows_of_id id := by
  unfold config_db.rows_of_id at hrows ⊢
  rw [h, List.filter_append]
  have hne : r.id ≠ id := by
    intro he
    obtain ⟨x, hx⟩ := List.exists_mem_of_ne_nil _ hrows
    have hx' := List.mem_filter.1 hx
    have hlt := id_lt_next_rowid db x hx'.1
    have : x.id = id := by simpa using hx'.2
    omega
  simp [hne]

theorem rows_of_id_write_text_other (db : config_db) (text : document) (id id' : Nat)
    (hne : id' ≠ id) : (db.write_text text id).rows_of_id id' = db.rows_of_id id' := by
  rw [rows_of_id_write_text]
  conv_rhs => rw [← List.map_id (db.rows_of_id id')]
  apply List.map_congr_left
  intro r hr
  have := mem_rows_of_id db id' r hr
  simp [this, hne]


theorem load_config_table (s : service) (cfg : config_load) (sock : Nat) :
    (s.load_config cfg sock).svc.db_.database_ = s.db_.database_ := by
  have hkey : ∀ key, (s.load_config_key key sock).svc.db_.database_ = s.db_.database_ := by
    intro key
    unfold service.load_config_key
    simp only []
    split
    · split <;> exact get_config_id_table _ _
    · split
      · exact (get_config_name_table _ _).trans (get_config_id_table _ _)
      · split <;> exact (get_config_name_table _ _).trans (get_config_id_table _ _)
  unfold service.load_config
  split
  · exact hkey _
  · exact hkey _
  · rfl

theorem unload_config_table (s : service) (cfg : config_unload) (sock : Nat) :
    (s.unload_config cfg sock).svc.db_ = s.db_ := by
  unfold service.unload_config
  split <;> rfl

theorem include_config_table (s : service) (cfg : config_include) (sock : Nat) :
    (s.include_config cfg sock).svc.db_.database_ = s.db_.database_ ∧
    (s.include_config cfg sock).svc.config_clients_registry_ = s.config_clients_registry_ := by
  unfold service.include_config
  split
  · exact ⟨rfl, rfl⟩
  · simp only []
    split
    · exact ⟨rfl, rfl⟩
    · split <;> exact ⟨get_config_rows _ _, rfl⟩

theorem get_setting_table (s : service) (cfg : setting_get) (sock : Nat) :
    (s.get_setting cfg sock).svc.db_.database_ = s.db_.database_ ∧
    (s.get_setting cfg sock).svc.config_clients_registry_ = s.config_clients_registry_ := by
  unfold service.get_setting
  split
  · exact ⟨rfl, rfl⟩
  · simp only []
    split
    · exact ⟨rfl, rfl⟩
    · split
      · exact ⟨get_config_rows _ _, rfl⟩
      · split
        · exact ⟨get_config_rows _ _, rfl⟩
        · split <;> exact ⟨get_config_rows _ _, rfl⟩

theorem get_settings_names_table (s : service) (cfg : config_get_settings_names) (sock : Nat) :
    (s.get_settings_names cfg sock).svc.db_.database_ = s.db_.database_ ∧
    (s.get_settings_names cfg sock).svc.config_clients_registry_
      = s.config_clients_registry_ := by
  unfold service.get_settings_names
  split
  · exact ⟨rfl, rfl⟩
  · simp only []
    split
    · exact ⟨rfl, rfl⟩
    · split <;> exact ⟨get_config_rows _ _, rfl⟩

theorem get_all_settings_table (s : service) (cfg : config_get_settings) (sock : Nat) :
    (s.get_all_settings cfg sock).svc.db_.database_ = s.db_.database_ ∧
    (s.get_all_settings cfg sock).svc.config_clients_registry_
      = s.config_clients_registry_ := by
  unfold service.get_all_settings
  split
  · exact ⟨rfl, rfl⟩
  · simp only []
    split
    · exact ⟨rfl, rfl⟩
    · split <;> exact ⟨get_config_rows _ _, rfl⟩

theorem remove_setting_svc (s : service) (cfg : setting_remove) (sock : Nat) :
    (s.remove_setting cfg sock).svc = s := by
  unfold service.remove_setting
  split
  · rfl
  · split <;> rfl

theorem subscribe_setting_table (s : service) (cfg : setting_subscribe) (sock : Nat) :
    (s.subscribe_setting cfg sock).svc.db_ = s.db_ := by
  unfold service.subscribe_setting
  split
  · rfl
  · split
    · rfl
    · split <;> rfl

theorem unsubscribe_setting_table (s : service) (cfg : setting_subscribe) (sock : Nat) :
    (s.unsubscribe_setting cfg sock).svc.db_ = s.db_ := by
  unfold service.unsubscribe_setting
  split
  · rfl
  · split
    · rfl
    · split <;> rfl

theorem create_config_effect (s : service) (cfg : config_create) (sock : Nat)
    (random_string : Nat → String) (hash : String → Nat) :
    (s.create_config cfg sock random_string hash).svc.config_clients_registry_
      = s.config_clients_registry_ ∧
    (s.create_config cfg sock random_string hash).svc.db_
      = (s.db_.config_create cfg.config_name random_string hash).2 := by
  unfold service.create_config
  simp only []
  split <;> exact ⟨rfl, rfl⟩

theorem write_text_congr (db db' : config_db) (text : document) (id : Nat)
    (h : db'.database_ = db.database_) :
    (db'.write_text text id).database_ = (db.write_text text id).database_ := by
  unfold config_db.write_text
  simp only []
  rw [h]

theorem get_config_ok_rows (db : config_db) (id : Nat) (h : (db.get_config id).2.fail = false) :
    db.rows_of_id id ≠ [] := by
  rw [get_config_fail] at h
  intro he
  rw [he] at h
  simp at h

theorem update_setting_effect (s : service) (cfg : setting_update) (sock : Nat) :
    (s.update_setting cfg sock).svc.config_clients_registry_ = s.config_clients_registry_ ∧
    (send_state sock .success ∈ (s.update_setting cfg sock).out →
      ∃ c, registry_find s.config_clients_registry_ sock = some c ∧
        c.has_loaded cfg.id = true ∧
        s.db_.rows_of_id (c.get_db_id_from cfg.id) ≠ [] ∧
        (s.update_setting cfg sock).svc.db_.database_
          = (s.db_.write_text
              (apply_settings (s.db_.get_config (c.get_db_id_from cfg.id)).1
                cfg.settings_to_update)
              (c.get_db_id_from cfg.id)).database_) ∧
    (send_state sock .success ∉ (s.update_setting cfg sock).out →
      (s.update_setting cfg sock).svc.db_.database_ = s.db_.database_) := by
  refine ⟨?_, ?_, ?_⟩
  · unfold service.update_setting
    split
    · rfl
    · simp only []
      split
      · rfl
      · split
        · rfl
        · split <;> rfl
  · intro hok
    obtain ⟨c, u, hc, h1, h2, hu, h3, heq⟩ := update_setting_success s cfg sock hok
    have hrows := get_config_ok_rows _ _ h2
    refine ⟨c, hc, h1, hrows, ?_⟩
    rw [heq]
    simp only []
    rw [hu, update_config_table]
    have hr : (s.db_.get_config (c.get_db_id_from cfg.id)).2.rows_of_id
        (c.get_db_id_from cfg.id) ≠ [] := by
      rw [rows_of_id_congr _ _ _ (get_config_rows _ _)]
      exact hrows
    rw [if_neg hr]
    exact write_text_congr _ _ _ _ (get_config_rows _ _)
  · intro hno
    cases hc : registry_find s.config_clients_registry_ sock with
    | none => simp [service.update_setting, hc]
    | some c =>
      by_cases h1 : c.has_loaded cfg.id = true
      · by_cases h2 : (s.db_.get_config (c.get_db_id_from cfg.id)).2.fail = true
        · simp only [service.update_setting, hc, h1, h2, reply, Bool.not_true,
            Bool.false_eq_true, if_false, if_true]
          exact get_config_rows _ _
        · by_cases h3 : ((s.db_.get_config (c.get_db_id_from cfg.id)).2.update_config
              (apply_settings (s.db_.get_config (c.get_db_id_from cfg.id)).1
                cfg.settings_to_update)
              (c.get_db_id_from cfg.id)).fail = true
          · simp only [service.update_setting, hc, h1, h2, h3, reply, Bool.not_true,
              Bool.false_eq_true, if_false, if_true]
            rw [update_config_table]
            split
            · exact get_config_rows _ _
            · next hr =>
              exfalso
              simp only [config_db.update_config] at h3
              have hlen : ((s.db_.get_config (c.get_db_id_from cfg.id)).2.rows_of_id
                  (c.get_db_id_from cfg.id)).length ≠ 0 :=
                fun hl => hr (List.length_eq_zero.1 hl)
              simp [hlen, config_db.fail, config_db.good] at h3
          · exfalso
            apply hno
            simp [service.update_setting, hc, h1, h2, h3]
      · simp [service.update_setting, hc, h1, reply]


theorem handle_table_other (s : service) (r : request) (sock : Nat)
    (random_string : Nat → String) (hash : String → Nat)
    (h1 : ∀ cfg, r ≠ .config_create cfg) (h2 : ∀ cfg, r ≠ .setting_update cfg) :
    (s.handle r sock random_string hash).svc.db_.database_ = s.db_.database_ := by
  cases r with
  | config_create cfg => exact absurd rfl (h1 cfg)
  | setting_update cfg => exact absurd rfl (h2 cfg)
  | config_load cfg => exact load_config_table s cfg sock
  | config_unload cfg => exact congrArg config_db.database_ (unload_config_table s cfg sock)
  | config_include cfg => exact (include_config_table s cfg sock).1
  | setting_remove cfg =>
    exact congrArg (fun x => x.db_.database_) (remove_setting_svc s cfg sock)
  | setting_get cfg => exact (get_setting_table s cfg sock).1
  | config_get_settings cfg => exact (get_all_settings_table s cfg sock).1
  | config_get_settings_names cfg => exact (get_settings_names_table s cfg sock).1
  | alias_set cfg => rfl
  | alias_unset cfg => rfl
  | subscribe_setting cfg =>
    exact congrArg config_db.database_ (subscribe_setting_table s cfg sock)
  | unsubscribe_setting cfg =>
    exact congrArg config_db.database_ (unsubscribe_setting_table s cfg sock)

theorem get_config_fst_of_rows (db db' : config_db) (id : Nat)
    (h : db'.rows_of_id id = db.rows_of_id id) : (db'.get_config id).1 = (db.get_config id).1 := by
  unfold config_db.get_config
  rw [h]
  split <;> rfl

/-- The document of a stored configuration after a handler has run: the handler of a
SETTING_UPDATE made on it that replies SUCCESS assigns the members to its `SETTINGS`, and
every other handler leaves it as it is. -/
theorem handle_doc (s : service) (r : request) (sock : Nat) (random_string : Nat → String)
    (hash : String → Nat) (config_id : Nat) (hC : s.db_.rows_of_id config_id ≠ []) :
    ((s.handle r sock random_string hash).svc.db_.get_config config_id).1
      = (match r.update_on s sock config_id with
         | some upd => apply_settings (s.db_.get_config config_id).1 upd
         | none => (s.db_.get_config config_id).1) ∧
    (s.handle r sock random_string hash).svc.db_.rows_of_id config_id ≠ [] := by
  have hsame : (s.handle r sock random_string hash).svc.db_.database_ = s.db_.database_ →
      r.update_on s sock config_id = none →
      ((s.handle r sock random_string hash).svc.db_.get_config config_id).1
        = (match r.update_on s sock config_id with
           | some upd => apply_settings (s.db_.get_config config_id).1 upd
           | none => (s.db_.get_config config_id).1) ∧
      (s.handle r sock random_string hash).svc.db_.rows_of_id config_id ≠ [] := by
    intro ht hu
    rw [hu]
    exact ⟨get_config_fst_congr _ _ _ ht, by rw [rows_of_id_congr _ _ _ ht]; exact hC⟩
  by_cases h1 : ∃ cfg, r = .config_create cfg
  · obtain ⟨cfg, rfl⟩ := h1
    have heff := (create_config_effect s cfg sock random_string hash).2
    have hrows : (s.handle (.config_create cfg) sock random_string hash).svc.db_.rows_of_id
        config_id = s.db_.rows_of_id config_id := by
      simp only [service.handle]
      rw [heff]
      rcases config_create_table s.db_ cfg.config_name random_string hash with h | ⟨j, h⟩
      · exact rows_of_id_congr _ _ _ h
      · exact rows_of_id_append_new _ _ _ _ h rfl hC
    exact ⟨get_config_fst_of_rows _ _ _ hrows, by rw [hrows]; exact hC⟩
  · by_cases h2 : ∃ cfg, r = .setting_update cfg
    · obtain ⟨cfg, rfl⟩ := h2
      obtain ⟨_, hyes, hno⟩ := update_setting_effect s cfg sock
      by_cases hok : send_state sock .success ∈ (s.update_setting cfg sock).out
      · obtain ⟨c, hc, hl, hrows, htab⟩ := hyes hok
        by_cases hid : c.get_db_id_from cfg.id = config_id
        · have hhit : update_hits s cfg sock config_id = true := by
            simp [update_hits, hc, hl, hid, hok]
          simp only [request.update_on, hhit, if_true, service.handle]
          rw [hid] at htab
          constructor
          · rw [get_config_fst_congr _ _ _ htab]
            exact get_config_write_text _ _ _ hC
          · rw [rows_of_id_congr _ _ _ htab]
            intro he
            exact hC ((rows_of_id_write_text_ne_nil _ _ _ _).1 he)
        · have hhit : update_hits s cfg sock config_id = false := by
            simp [update_hits, hc, hid]
          simp only [request.update_on, hhit, service.handle]
          have hr : (s.update_setting cfg sock).svc.db_.rows_of_id config_id
              = s.db_.rows_of_id config_id := by
            rw [rows_of_id_congr _ _ _ htab]
            exact rows_of_id_write_text_other _ _ _ _ (Ne.symm hid)
          exact ⟨get_config_fst_of_rows _ _ _ hr, by rw [hr]; exact hC⟩
      · have hhit : update_hits s cfg sock config_id = false := by
          unfold update_hits
          split
          · rfl
          · simp [hok]
        exact hsame (hno hok) (by simp [request.update_on, hhit])
    · have hne1 : ∀ cfg, r ≠ .config_create cfg := fun cfg h => h1 ⟨cfg, h⟩
      have hne2 : ∀ cfg, r ≠ .setting_update cfg := fun cfg h => h2 ⟨cfg, h⟩
      refine hsame (handle_table_other s r sock random_string hash hne1 hne2) ?_
      cases r <;> first | rfl | exact absurd rfl (hne2 _)


theorem on_data_svc (s : service) (data : Option json) (sock : Nat)
    (random_string : Nat → String) (hash : String → Nat) :
    (s.on_data data sock random_string hash).svc
      = (s.try_data data sock random_string hash).svc := by
  unfold service.on_data
  simp only []
  split
  · rfl
  · rfl
  · rfl

/-- The document of a stored configuration after an event. -/
theorem step_doc (s : service) (ev : event) (config_id : Nat)
    (hC : s.db_.rows_of_id config_id ≠ []) :
    ((s.step ev).svc.db_.get_config config_id).1
      = (match ev.update_on s config_id with
         | some upd => apply_settings (s.db_.get_config config_id).1 upd
         | none => (s.db_.get_config config_id).1) ∧
    (s.step ev).svc.db_.rows_of_id config_id ≠ [] := by
  have hsame : ∀ s' : service, s'.db_ = s.db_ →
      (s'.db_.get_config config_id).1 = (s.db_.get_config config_id).1 ∧
      s'.db_.rows_of_id config_id ≠ [] := by
    intro s' h
    rw [h]
    exact ⟨rfl, hC⟩
  cases ev with
  | accept fileno =>
    refine hsame _ ?_
    simp only [service.step, service.accept]
    split <;> rfl
  | end_event fileno => exact hsame _ rfl
  | data data sock random_string hash =>
    simp only [service.step]
    rw [on_data_svc]
    cases data with
    | none => exact hsame _ rfl
    | some json_data =>
      rw [try_data_handle]
      simp only [event.update_on]
      cases hn : (json_data.at "REQUEST_NAME").bind json.get_string with
      | error e => exact hsame _ rfl
      | ok command_order =>
        simp only []
        cases hp : parse_request command_order json_data with
        | none => exact hsame _ rfl
        | some pr =>
          cases pr with
          | error e => exact hsame _ rfl
          | ok r => exact handle_doc s r sock random_string hash config_id hC

/-- The document of a stored configuration after a run: the members of the successful
SETTING_UPDATE requests made on it have been assigned to its `SETTINGS`, in order. -/
theorem run_doc (config_id : Nat) (evs : List event) :
    ∀ s : service, s.db_.rows_of_id config_id ≠ [] →
      ((s.run evs).1.db_.get_config config_id).1
        = (updates_of config_id s evs).foldl apply_settings (s.db_.get_config config_id).1 ∧
      (s.run evs).1.db_.rows_of_id config_id ≠ [] := by
  induction evs with
  | nil => intro s hC; exact ⟨rfl, hC⟩
  | cons ev rest ih =>
    intro s hC
    obtain ⟨hdoc, hrows⟩ := step_doc s ev config_id hC
    obtain ⟨h1, h2⟩ := ih (s.step ev).svc hrows
    refine ⟨?_, by simpa [service.run] using h2⟩
    simp only [service.run, updates_of]
    rw [h1, hdoc]
    cases ev.update_on s config_id <;> rfl

theorem foldl_apply_settings_settings (us : List (List (String × json))) (d : document) :
    (us.foldl apply_settings d).settings
      = us.foldl (fun o upd => upd.foldl (fun o kv => object_set o kv.1 kv.2) o) d.settings := by
  induction us generalizing d with
  | nil => rfl
  | cons u rest ih =>
    simp only [List.foldl_cons]
    rw [ih, apply_settings_settings]

theorem loaded_db_id_mem (c : client) (id : Nat) (h : c.has_loaded id = true) :
    ∃ p ∈ c.config_ids_, p.2 = c.get_db_id_from id := by
  unfold client.has_loaded at h
  rw [List.any_eq_true] at h
  obtain ⟨q, hq, hqe⟩ := h
  unfold client.get_db_id_from
  cases hf : c.config_ids_.find? (fun p => decide (p.1 = id)) with
  | none =>
    rw [List.find?_eq_none] at hf
    exact absurd hqe (hf q hq)
  | some p => exact ⟨p, List.mem_of_find?_eq_some hf, rfl⟩

theorem loaded_rows (s : service) (sock : Nat) (c : client) (id : Nat)
    (hst : s.loaded_stored) (hc : registry_find s.config_clients_registry_ sock = some c)
    (hl : c.has_loaded id = true) : s.db_.rows_of_id (c.get_db_id_from id) ≠ [] := by
  obtain ⟨p, hp, hpe⟩ := loaded_db_id_mem c id hl
  rw [← hpe]
  exact hst (sock, c) (registry_find_mem _ _ _ hc) p hp

theorem get_config_of_rows (db : config_db) (id : Nat) (h : db.rows_of_id id ≠ []) :
    (db.get_config id).2.fail = false := by
  rw [get_config_fail]
  cases hr : db.rows_of_id id with
  | nil => exact absurd hr h
  | cons a l => rfl


/-! ## Every loaded configuration is stored -/

theorem loaded_stored_of_registry_eq (s s' : service) (hst : s.loaded_stored)
    (hreg : s'.config_clients_registry_ = s.config_clients_registry_)
    (hrows : ∀ id, s.db_.rows_of_id id ≠ [] → s'.db_.rows_of_id id ≠ []) :
    s'.loaded_stored := by
  intro e he p hp
  rw [hreg] at he
  exact hrows _ (hst e he p hp)

theorem loaded_stored_assign (s : service) (sock : Nat) (c c' : client) (db' : config_db)
    (hst : s.loaded_stored) (hc : registry_find s.config_clients_registry_ sock = some c)
    (hids : ∀ p ∈ c'.config_ids_, p ∈ c.config_ids_ ∨ db'.rows_of_id p.2 ≠ [])
    (hrows : ∀ id, s.db_.rows_of_id id ≠ [] → db'.rows_of_id id ≠ []) :
    service.loaded_stored
      { config_clients_registry_ := registry_assign s.config_clients_registry_ sock c',
        db_ := db' } := by
  intro e he p hp
  simp only [registry_assign, List.mem_map] at he
  obtain ⟨e0, he0, hee⟩ := he
  split at hee
  · rw [← hee] at hp
    simp only [] at hp
    rcases hids p hp with h | h
    · exact hrows _ (hst (sock, c) (registry_find_mem _ _ _ hc) p h)
    · exact h
  · rw [← hee] at hp
    exact hrows _ (hst e0 he0 p hp)

theorem load_config_loaded_stored (s : service) (cfg : config_load) (sock : Nat)
    (hst : s.loaded_stored) : (s.load_config cfg sock).svc.loaded_stored := by
  have hkey : ∀ key, (s.load_config_key key sock).svc.loaded_stored := by
    intro key
    have hmono : ∀ db' : config_db, db'.database_ = s.db_.database_ →
        ∀ id, s.db_.rows_of_id id ≠ [] → db'.rows_of_id id ≠ [] := by
      intro db' h id hid
      rw [rows_of_id_congr _ _ _ h]
      exact hid
    have h1 := get_config_id_table s.db_ key
    have h2 := (get_config_name_table (s.db_.get_config_id key).2
      (s.db_.get_config_id key).1).trans h1
    unfold service.load_config_key
    simp only []
    split
    · split <;> exact loaded_stored_of_registry_eq s _ hst rfl (hmono _ h1)
    · split
      · exact loaded_stored_of_registry_eq s _ hst rfl (hmono _ h2)
      · next hn =>
        split
        · exact loaded_stored_of_registry_eq s _ hst rfl (hmono _ h2)
        · next c hc =>
          refine loaded_stored_assign s sock c _ _ hst hc ?_ (hmono _ h2)
          intro p hp
          simp only [client.insert_db_id, List.mem_append, List.mem_singleton] at hp
          rcases hp with hp | hp
          · exact Or.inl hp
          · right
            rw [hp]
            simp only []
            rw [rows_of_id_congr _ _ _ (get_config_name_table _ _)]
            exact get_config_name_ok _ _ (by simpa using hn)
  unfold service.load_config
  split
  · exact hkey _
  · exact hkey _
  · exact hst

theorem handle_loaded_stored (s : service) (r : request) (sock : Nat)
    (random_string : Nat → String) (hash : String → Nat) (hst : s.loaded_stored) :
    (s.handle r sock random_string hash).svc.loaded_stored := by
  have hmono : ∀ id, s.db_.rows_of_id id ≠ [] →
      (s.handle r sock random_string hash).svc.db_.rows_of_id id ≠ [] :=
    fun id hid => (handle_doc s r sock random_string hash id hid).2
  have hreg : (s.handle r sock random_string hash).svc.config_clients_registry_
      = s.config_clients_registry_ → (s.handle r sock random_string hash).svc.loaded_stored :=
    fun h => loaded_stored_of_registry_eq s _ hst h hmono
  cases r with
  | config_create cfg => exact hreg (create_config_effect s cfg sock random_string hash).1
  | config_load cfg => exact load_config_loaded_stored s cfg sock hst
  | config_unload cfg =>
    simp only [service.handle, service.unload_config]
    split
    · exact hst
    · next c hc =>
      refine loaded_stored_assign s sock c _ _ hst hc ?_ (fun _ h => h)
      intro p hp
      left
      unfold client.remove_temp_id at hp
      split at hp
      · exact (List.mem_filter.1 hp).1
      · exact hp
  | config_include cfg => exact hreg (include_config_table s cfg sock).2
  | setting_update cfg => exact hreg (update_setting_effect s cfg sock).1
  | setting_remove cfg =>
    exact hreg (congrArg service.config_clients_registry_ (remove_setting_svc s cfg sock))
  | setting_get cfg => exact hreg (get_setting_table s cfg sock).2
  | config_get_settings cfg => exact hreg (get_all_settings_table s cfg sock).2
  | config_get_settings_names cfg => exact hreg (get_settings_names_table s cfg sock).2
  | alias_set cfg => exact hst
  | alias_unset cfg => exact hst
  | subscribe_setting cfg =>
    simp only [service.handle, service.subscribe_setting]
    split
    · exact hst
    · next c hc =>
      split
      · exact hst
      · split
        · refine loaded_stored_assign s sock c _ _ hst hc ?_ (fun _ h => h)
          intro p hp
          left
          unfold client.subscribe at hp
          split at hp <;> exact hp
        · exact hst
  | unsubscribe_setting cfg =>
    simp only [service.handle, service.unsubscribe_setting]
    split
    · exact hst
    · next c hc =>
      split
      · exact hst
      · split
        · exact loaded_stored_assign s sock c _ _ hst hc (fun p hp => Or.inl hp) (fun _ h => h)
        · exact hst

theorem step_loaded_stored (s : service) (ev : event) (hst : s.loaded_stored) :
    (s.step ev).svc.loaded_stored := by
  cases ev with
  | accept fileno =>
    simp only [service.step, service.accept]
    split
    · exact hst
    · intro e he p hp
      simp only [List.mem_append, List.mem_singleton] at he
      rcases he with he | he
      · exact hst e he p hp
      · rw [he] at hp
        cases hp
  | end_event fileno =>
    intro e he p hp
    exact hst e (List.mem_filter.1 he).1 p hp
  | data data sock random_string hash =>
    simp only [service.step]
    rw [on_data_svc]
    cases data with
    | none => exact hst
    | some json_data =>
      rw [try_data_handle]
      cases hn : (json_data.at "REQUEST_NAME").bind json.get_string with
      | error e => exact hst
      | ok command_order =>
        simp only []
        cases hp : parse_request command_order json_data with
        | none => exact hst
        | some pr =>
          cases pr with
          | error e => exact hst
          | ok r => exact handle_loaded_stored s r sock random_string hash hst

/-- In every reachable state of the service, every configuration that a session has loaded
has a row in the table. -/
theorem reachable_loaded_stored (s : service) (h : reachable s) : s.loaded_stored := by
  induction h with
  | start table sequence =>
    intro e he
    cases he
  | accept fileno _ ih => exact step_loaded_stored _ (.accept fileno) ih
  | end_event fileno _ ih => exact step_loaded_stored _ (.end_event fileno) ih
  | data data sock random_string hash _ ih =>
    exact step_loaded_stored _ (.data data sock random_string hash) ih

/-! ## Runs stay within the reachable states -/

theorem reachable_step (s : service) (ev : event) (h : reachable s) :
    reachable (s.step ev).svc := by
  cases ev with
  | accept fileno => exact reachable.accept fileno h
  | end_event fileno => exact reachable.end_event fileno h
  | data data sock random_string hash => exact reachable.data data sock random_string hash h

theorem reachable_run (evs : List event) :
    ∀ s : service, reachable s → reachable (s.run evs).1 := by
  induction evs with
  | nil => intro s h; exact h
  | cons ev rest ih =>
    intro s h
    exact ih _ (reachable_step s ev h)

theorem reachable_init : reachable service.init := reachable.start [] 0

/-! ## The replies of the read-only handlers -/

/-- C14 (amended): in a reachable state, for every temp-id that the session of `sock` has
loaded and every setting name n: when n is a key of SETTINGS of the stored document with a
JSON string v, SETTING_GET replies SUCCESS with SETTING_VALUE v; when n is not a key, it
replies UNKNOWN_SETTING; when n is a key with a value that is not a JSON string, the handler
writes nothing and raises `type_error`. -/
theorem get_setting_replies (s : service) (sock : Nat) (c : client) (id : Nat) (n : String)
    (hr : reachable s)
    (hc : registry_find s.config_clients_registry_ sock = some c)
    (hl : c.has_loaded id = true) :
    (∀ v : String,
      object_find (s.db_.get_config (c.get_db_id_from id)).1.settings n = some (.string v) →
      (s.get_setting { id := id, setting_name := n } sock).out
          = [(sock, .setting_get_answer v "SUCCESS")] ∧
        (s.get_setting { id := id, setting_name := n } sock).thrown = none) ∧
    (object_find (s.db_.get_config (c.get_db_id_from id)).1.settings n = none →
      (s.get_setting { id := id, setting_name := n } sock).out
          = [(sock, .state "UNKNOWN_SETTING")] ∧
        (s.get_setting { id := id, setting_name := n } sock).thrown = none) ∧
    (∀ value : json,
      object_find (s.db_.get_config (c.get_db_id_from id)).1.settings n = some value →
      (∀ v : String, value ≠ .string v) →
      (s.get_setting { id := id, setting_name := n } sock).out = [] ∧
        (s.get_setting { id := id, setting_name := n } sock).thrown
          = some .json_type_error) := by
  have hrows := loaded_rows s sock c id (reachable_loaded_stored s hr) hc hl
  have hfail := get_config_of_rows s.db_ _ hrows
  refine ⟨?_, ?_, ?_⟩
  · intro v hv
    simp [service.get_setting, hc, hl, hfail, hv, json.get_string, reply,
      convert_request_state]
  · intro hv
    simp [service.get_setting, hc, hl, hfail, hv, reply, send_state, convert_request_state]
  · intro value hv hns
    cases value with
    | string v => exact absurd rfl (hns v)
    | null => simp [service.get_setting, hc, hl, hfail, hv, json.get_string]
    | boolean b => simp [service.get_setting, hc, hl, hfail, hv, json.get_string]
    | number k => simp [service.get_setting, hc, hl, hfail, hv, json.get_string]
    | array a => simp [service.get_setting, hc, hl, hfail, hv, json.get_string]
    | object o => simp [service.get_setting, hc, hl, hfail, hv, json.get_string]

/-- Witness for C14: in the state of the test case `get_setting request`, reached by events,
connection 5 has loaded temp-id 1, whose stored SETTINGS has `titi` with the string 1 and has
no `toto`; SETTING_GET `titi` replies SUCCESS with 1 and SETTING_GET `toto` replies
UNKNOWN_SETTING. -/
theorem get_setting_replies_witness :
    reachable fixture_updated ∧
    registry_find fixture_updated.config_clients_registry_ 5
      = some { socket_ := 5, last_id_ := 1, config_ids_ := [(1, 1)], subscriptions_ := [] } ∧
    (fixture_updated.get_setting { id := 1, setting_name := "titi" } 5).out
      = [(5, .setting_get_answer "1" "SUCCESS")] ∧
    (fixture_updated.get_setting { id := 1, setting_name := "toto" } 5).out
      = [(5, .state "UNKNOWN_SETTING")] :=
  ⟨reachable_run _ _ reachable_init, by decide,
   ((get_setting_replies fixture_updated 5
      { socket_ := 5, last_id_ := 1, config_ids_ := [(1, 1)], subscriptions_ := [] } 1 "titi"
      (reachable_run _ _ reachable_init) (by decide) (by decide)).1 "1" (by decide)).1,
   ((get_setting_replies fixture_updated 5
      { socket_ := 5, last_id_ := 1, config_ids_ := [(1, 1)], subscriptions_ := [] } 1 "toto"
      (reachable_run _ _ reachable_init) (by decide) (by decide)).2.1 (by decide)).1⟩

/-- C14 (as stated) fails when the value of the key is not a JSON string: in the state reached
by the events of the test cases and a SETTING_UPDATE of `titi` to the number 1, `titi` is a
key of SETTINGS of the stored document of temp-id 1, and the chunk SETTING_GET `titi` is
answered with INTERNAL_ERROR and no SETTING_VALUE. -/
theorem get_setting_number_counterexample :
    reachable fixture_number_stored ∧
    registry_find fixture_number_stored.config_clients_registry_ 5
      = some { socket_ := 5, last_id_ := 1, config_ids_ := [(1, 1)], subscriptions_ := [] } ∧
    object_find (fixture_number_stored.db_.get_config 1).1.settings "titi"
      = some (.number 1) ∧
    (fixture_number_stored.step (chunk (frame_get "titi"))).out
      = [(5, .state "INTERNAL_ERROR")] :=
  ⟨reachable_run _ _ reachable_init, by decide, by decide, by decide⟩

theorem get_all_settings_reply (s : service) (sock : Nat) (c : client) (id : Nat)
    (hc : registry_find s.config_clients_registry_ sock = some c)
    (hl : c.has_loaded id = true)
    (hrows : s.db_.rows_of_id (c.get_db_id_from id) ≠ []) :
    (s.get_all_settings { id := id } sock).out
        = [(sock, .config_get_settings_answer
            (.object (s.db_.get_config (c.get_db_id_from id)).1.settings) "SUCCESS")] ∧
      (s.get_all_settings { id := id } sock).thrown = none := by
  have hfail := get_config_of_rows s.db_ _ hrows
  simp [service.get_all_settings, hc, hl, hfail, reply, convert_request_state]

theorem config_create_rows (db : config_db) (name : String) (random_string : Nat → String)
    (hash : String → Nat) (hgood : (db.config_create name random_string hash).2.good = true) :
    (db.config_create name random_string hash).2.rows_of_id
      (db.config_create name random_string hash).1.config_id ≠ [] := by
  apply get_config_ok_rows
  obtain ⟨j, _, hcreate⟩ := config_create_good db name random_string hash hgood
  rw [hcreate]
  unfold config_db.get_config config_db.rows_of_id
  simp only []
  rw [getLast?_filter_concat _ _ _ (by simp [attempt_row])]
  simp [config_db.fail, config_db.good]


/-- C16: let a CONFIG_CREATE succeed and give the configuration the id C, and let any sequence
of events follow.  On every temp-id that a session then holds for C, CONFIG_GET_SETTINGS
replies SUCCESS with SETTINGS equal to the SETTINGS object of the stored document of C, and
this object is the result of applying to the empty object, in order, the members of every
SETTING_UPDATE made on C during these events that replied SUCCESS. -/
theorem get_all_settings_history (s0 : service) (cfg : config_create) (sock0 : Nat)
    (random_string : Nat → String) (hash : String → Nat) (evs : List event)
    (sock : Nat) (c : client) (id : Nat)
    (hgood : (s0.db_.config_create cfg.config_name random_string hash).2.good = true)
    (hc : registry_find
      ((s0.create_config cfg sock0 random_string hash).svc.run evs).1.config_clients_registry_
      sock = some c)
    (hl : c.has_loaded id = true)
    (hid : c.get_db_id_from id
      = (s0.db_.config_create cfg.config_name random_string hash).1.config_id) :
    (((s0.create_config cfg sock0 random_string hash).svc.run evs).1.get_all_settings
        { id := id } sock).out
      = [(sock, .config_get_settings_answer
          (.object (((s0.create_config cfg sock0 random_string hash).svc.run evs).1.db_.get_config
            (c.get_db_id_from id)).1.settings) "SUCCESS")] ∧
    (((s0.create_config cfg sock0 random_string hash).svc.run evs).1.get_all_settings
        { id := id } sock).thrown = none ∧
    (((s0.create_config cfg sock0 random_string hash).svc.run evs).1.db_.get_config
        (c.get_db_id_from id)).1.settings
      = (updates_of (c.get_db_id_from id) (s0.create_config cfg sock0 random_string hash).svc
          evs).foldl
        (fun o upd => upd.foldl (fun o kv => object_set o kv.1 kv.2) o) [] := by
  have hdb : (s0.create_config cfg sock0 random_string hash).svc.db_
      = (s0.db_.config_create cfg.config_name random_string hash).2 := by
    simp [service.create_config, hgood, reply]
  have hrows0 : (s0.create_config cfg sock0 random_string hash).svc.db_.rows_of_id
      (c.get_db_id_from id) ≠ [] := by
    rw [hdb, hid]
    exact config_create_rows _ _ _ _ hgood
  have hdoc0 : ((s0.create_config cfg sock0 random_string hash).svc.db_.get_config
      (c.get_db_id_from id)).1 = new_document cfg.config_name := by
    rw [hdb, hid]
    exact config_create_fresh _ _ _ _ hgood
  obtain ⟨hdoc, hrows⟩ := run_doc (c.get_db_id_from id) evs _ hrows0
  obtain ⟨hout, hthrown⟩ := get_all_settings_reply _ sock c id hc hl hrows
  refine ⟨hout, hthrown, ?_⟩
  rw [hdoc, foldl_apply_settings_settings, hdoc0]
  rfl

/-- Witness for C16: after the CONFIG_CREATE of `ma_config` on connection 5 and the events of
`fixture_history`, the successful updates of the configuration are the two SETTING_UPDATE
(the SETTING_REMOVE keeps the store), and CONFIG_GET_SETTINGS on temp-id 1 replies with
`lala` and the last value of `titi`. -/
theorem get_all_settings_history_witness :
    updates_of 1 fixture_created fixture_history
      = [[("lala", .string "lala"), ("titi", .string "1")], [("titi", .string "2")]] ∧
    ((fixture_created.run fixture_history).1.get_all_settings { id := 1 } 5).out
      = [(5, .config_get_settings_answer
          (.object [("lala", .string "lala"), ("titi", .string "2")]) "SUCCESS")] ∧
    ((fixture_created.run fixture_history).1.db_.get_config 1).1.settings
      = (updates_of 1 fixture_created fixture_history).foldl
        (fun o upd => upd.foldl (fun o kv => object_set o kv.1 kv.2) o) [] :=
  ⟨by decide, by decide,
   (get_all_settings_history (service.init.accept 5) { config_name := "ma_config" } 5
      fixture_random_string fixture_hash fixture_history
      5 { socket_ := 5, last_id_ := 1, config_ids_ := [(1, 1)], subscriptions_ := [] } 1
      (by decide) (by decide) (by decide) (by decide)).2.2⟩

/-! ## Loading with either key -/

theorem registry_find_assign (registry : List (Nat × client)) (fileno : Nat) (c c' : client)
    (h : registry_find registry fileno = some c) :
    registry_find (registry_assign registry fileno c') fileno = some c' := by
  induction registry with
  | nil => cases h
  | cons e rest ih =>
    obtain ⟨fd, c0⟩ := e
    unfold registry_find at h
    by_cases hfd : fd = fileno
    · simp only [registry_assign, List.map_cons]
      rw [if_pos hfd]
      simp only [registry_find]
      rw [if_pos hfd]
    · rw [if_neg hfd] at h
      have := ih h
      simp only [registry_assign] at this
      simp only [registry_assign, List.map_cons]
      rw [if_neg hfd]
      simp only [registry_find]
      rw [if_neg hfd]
      exact this

theorem getLast?_filter_only {α : Type} (p : α → Bool) (l : List α) (x : α)
    (hx : x ∈ l) (hp : p x = true) (honly : ∀ y ∈ l, p y = true → y = x) :
    (l.filter p).getLast? = some x := by
  have hne : l.filter p ≠ [] := List.ne_nil_of_mem (List.mem_filter.2 ⟨hx, hp⟩)
  rw [List.getLast?_eq_getLast _ hne]
  have hm := List.getLast_mem hne
  rw [honly _ (List.mem_filter.1 hm).1 (List.mem_filter.1 hm).2]

/-- On a table in which no other row has the `config_key` of the row `r`, no other row has
its `readonly_config_key`, and no other row has the `config_key` of `r` as its
`readonly_config_key`, the select delivers `r` last for either key of `r`. -/
theorem rows_of_key_own_keys (db : config_db) (r : row) (hr : r ∈ db.database_)
    (hck : ∀ q ∈ db.database_, q.config_key = r.config_key → q = r)
    (hrk : ∀ q ∈ db.database_, q.readonly_config_key = r.readonly_config_key → q = r)
    (hfree : ∀ q ∈ db.database_, q.readonly_config_key = r.config_key → q = r) :
    (db.rows_of_key r.config_key).getLast? = some r ∧
    (db.rows_of_key r.readonly_config_key).getLast? = some r := by
  have h1 : (db.rows_of_key r.config_key).getLast? = some r := by
    unfold config_db.rows_of_key
    have h2 : db.database_.filter
        (fun q => !decide (q.config_key = r.config_key) &&
          decide (q.readonly_config_key = r.config_key)) = [] := by
      rw [List.filter_eq_nil_iff]
      intro q hq hpq
      simp only [Bool.and_eq_true, Bool.not_eq_true', decide_eq_false_iff_not,
        decide_eq_true_eq] at hpq
      exact hpq.1 (by rw [hfree q hq hpq.2])
    rw [h2, List.append_nil]
    exact getLast?_filter_only _ _ r hr (by simp)
      (fun q hq hpq => hck q hq (by simpa using hpq))
  refine ⟨h1, ?_⟩
  by_cases heq : r.config_key = r.readonly_config_key
  · rw [← heq]
    exact h1
  · unfold config_db.rows_of_key
    have h3 : (db.database_.filter
        (fun q => !decide (q.config_key = r.readonly_config_key) &&
          decide (q.readonly_config_key = r.readonly_config_key))).getLast? = some r :=
      getLast?_filter_only _ _ r hr (by simp [heq])
        (fun q hq hpq => hrk q hq (by
          simp only [Bool.and_eq_true, decide_eq_true_eq] at hpq
          exact hpq.2))
    have hne : db.database_.filter
        (fun q => !decide (q.config_key = r.readonly_config_key) &&
          decide (q.readonly_config_key = r.readonly_config_key)) ≠ [] := by
      intro h
      rw [h] at h3
      cases h3
    rw [List.getLast?_append_of_ne_nil _ hne]
    exact h3

theorem char_toNat_injective : Function.Injective Char.toNat := by
  intro a b h
  apply Char.ext
  apply UInt32.ext
  exact h

theorem key_data_injective (a b : String)
    (h : a.data.map Char.toNat = b.data.map Char.toNat) : a = b :=
  String.ext (List.map_injective_iff.2 char_toNat_injective h)

theorem key_lt_trans (a b c : String) (h1 : key_lt a b = true) (h2 : key_lt b c = true) :
    key_lt a c = true := by
  unfold key_lt at *
  simp only [decide_eq_true_eq] at *
  exact lt_trans h1 h2

theorem key_lt_irrefl (a : String) : key_lt a a = false := by
  unfold key_lt
  simp

theorem key_lt_of_not (a b : String) (h1 : key_lt a b = false) (h2 : a ≠ b) :
    key_lt b a = true := by
  unfold key_lt at *
  simp only [decide_eq_true_eq, decide_eq_false_iff_not] at *
  rcases lt_trichotomy (a.data.map Char.toNat) (b.data.map Char.toNat) with h | h | h
  · exact absurd h h1
  · exact absurd (key_data_injective a b h) h2
  · exact h

theorem object_set_keys (o : List (String × json)) (key : String) (value : json) :
    ∀ k ∈ (object_set o key value).map Prod.fst, k = key ∨ k ∈ o.map Prod.fst := by
  induction o with
  | nil =>
    intro k hk
    simp [object_set] at hk
    exact Or.inl hk
  | cons hd tl ih =>
    obtain ⟨k0, v0⟩ := hd
    intro k hk
    simp only [object_set] at hk
    split at hk
    · right
      simpa using hk
    · split at hk
      · simp only [List.map_cons, List.mem_cons] at hk ⊢
        tauto
      · simp only [List.map_cons, List.mem_cons] at hk ⊢
        rcases hk with hk | hk
        · exact Or.inr (Or.inl hk)
        · rcases ih k hk with h | h
          · exact Or.inl h
          · exact Or.inr (Or.inr h)

theorem object_set_sorted (o : List (String × json)) (key : String) (value : json)
    (h : object_sorted o) : object_sorted (object_set o key value) := by
  induction o with
  | nil => simp [object_set, object_sorted]
  | cons hd tl ih =>
    obtain ⟨k0, v0⟩ := hd
    unfold object_sorted at h ih ⊢
    simp only [List.map_cons, List.pairwise_cons] at h
    obtain ⟨hhead, htail⟩ := h
    simp only [object_set]
    by_cases h1 : k0 = key
    · rw [if_pos h1]
      simp only [List.map_cons, List.pairwise_cons]
      exact ⟨hhead, htail⟩
    · rw [if_neg h1]
      by_cases h2 : key_lt key k0 = true
      · rw [if_pos h2]
        simp only [List.map_cons, List.pairwise_cons, List.mem_cons]
        refine ⟨?_, hhead, htail⟩
        intro k hk
        rcases hk with hk | hk
        · rw [hk]; exact h2
        · exact key_lt_trans _ _ _ h2 (hhead k hk)
      · rw [if_neg h2]
        simp only [List.map_cons, List.pairwise_cons]
        refine ⟨?_, ih htail⟩
        intro k hk
        rcases object_set_keys tl key value k hk with hk | hk
        · rw [hk]
          exact key_lt_of_not key k0 (by simpa using h2) (fun e => h1 e.symm)
        · exact hhead k hk

theorem foldl_object_set_sorted (upd : List (String × json)) :
    ∀ o : List (String × json), object_sorted o →
      object_sorted (upd.foldl (fun o kv => object_set o kv.1 kv.2) o) := by
  induction upd with
  | nil => intro o h; exact h
  | cons kv rest ih =>
    intro o h
    exact ih _ (object_set_sorted o kv.1 kv.2 h)

theorem foldl_updates_sorted (us : List (List (String × json))) :
    ∀ o : List (String × json), object_sorted o →
      object_sorted
        (us.foldl (fun o upd => upd.foldl (fun o kv => object_set o kv.1 kv.2) o) o) := by
  induction us with
  | nil => intro o h; exact h
  | cons upd rest ih =>
    intro o h
    exact ih _ (foldl_object_set_sorted upd o h)

theorem object_sorted_nodup (o : List (String × json)) (h : object_sorted o) :
    (o.map Prod.fst).Nodup := by
  unfold object_sorted at h
  refine List.Pairwise.imp ?_ h
  intro a b hab he
  rw [he, key_lt_irrefl] at hab
  cases hab

theorem object_find_none_iff (o : List (String × json)) (key : String) :
    object_find o key = none ↔ key ∉ o.map Prod.fst := by
  induction o with
  | nil => simp [object_find]
  | cons hd tl ih =>
    obtain ⟨k0, v0⟩ := hd
    simp only [object_find, List.map_cons, List.mem_cons, not_or]
    by_cases h : k0 = key
    · simp [h]
    · rw [if_neg h, ih]
      constructor
      · intro h'
        exact ⟨fun e => h e.symm, h'⟩
      · intro h'
        exact h'.2


theorem get_settings_names_reply (s : service) (sock : Nat) (c : client) (id : Nat)
    (hc : registry_find s.config_clients_registry_ sock = some c)
    (hl : c.has_loaded id = true)
    (hrows : s.db_.rows_of_id (c.get_db_id_from id) ≠ []) :
    (s.get_settings_names { id := id } sock).out
        = [(sock, .config_get_settings_names_answer
            (settings_names_of (s.db_.get_config (c.get_db_id_from id)).1.settings)
            "SUCCESS")] ∧
      (s.get_settings_names { id := id } sock).thrown = none := by
  have hfail := get_config_of_rows s.db_ _ hrows
  simp [service.get_settings_names, hc, hl, hfail, reply, convert_request_state]

/-- C15 (amended): let a CONFIG_CREATE succeed and give the configuration the id C, and let
any sequence of events follow.  On every temp-id that a session then holds for C, when the
stored SETTINGS has at least one member, CONFIG_GET_SETTINGS_NAMES replies SUCCESS with
SETTINGS_NAMES the array of the keys of the stored SETTINGS, each once and nothing else, in
ascending order of the keys (the order of `std::map`), whatever the order in which the
settings were inserted. -/
theorem settings_names_ascending (s0 : service) (cfg : config_create) (sock0 : Nat)
    (random_string : Nat → String) (hash : String → Nat) (evs : List event)
    (sock : Nat) (c : client) (id : Nat)
    (hgood : (s0.db_.config_create cfg.config_name random_string hash).2.good = true)
    (hc : registry_find
      ((s0.create_config cfg sock0 random_string hash).svc.run evs).1.config_clients_registry_
      sock = some c)
    (hl : c.has_loaded id = true)
    (hid : c.get_db_id_from id
      = (s0.db_.config_create cfg.config_name random_string hash).1.config_id) :
    ((((s0.create_config cfg sock0 random_string hash).svc.run evs).1.db_.get_config
        (c.get_db_id_from id)).1.settings ≠ [] →
      (((s0.create_config cfg sock0 random_string hash).svc.run evs).1.get_settings_names
          { id := id } sock).out
        = [(sock, .config_get_settings_names_answer
            (.array
              ((((s0.create_config cfg sock0 random_string hash).svc.run evs).1.db_.get_config
                (c.get_db_id_from id)).1.settings.map (fun kv => .string kv.1)))
            "SUCCESS")]) ∧
    (((s0.create_config cfg sock0 random_string hash).svc.run evs).1.get_settings_names
        { id := id } sock).thrown = none ∧
    ((((s0.create_config cfg sock0 random_string hash).svc.run evs).1.db_.get_config
        (c.get_db_id_from id)).1.settings.map Prod.fst).Pairwise
      (fun a b => key_lt a b = true) ∧
    ((((s0.create_config cfg sock0 random_string hash).svc.run evs).1.db_.get_config
        (c.get_db_id_from id)).1.settings.map Prod.fst).Nodup ∧
    (∀ k : String,
      k ∈ (((s0.create_config cfg sock0 random_string hash).svc.run evs).1.db_.get_config
          (c.get_db_id_from id)).1.settings.map Prod.fst ↔
        object_find
          (((s0.create_config cfg sock0 random_string hash).svc.run evs).1.db_.get_config
            (c.get_db_id_from id)).1.settings k ≠ none) := by
  have hdb : (s0.create_config cfg sock0 random_string hash).svc.db_
      = (s0.db_.config_create cfg.config_name random_string hash).2 := by
    simp [service.create_config, hgood, reply]
  have hrows0 : (s0.create_config cfg sock0 random_string hash).svc.db_.rows_of_id
      (c.get_db_id_from id) ≠ [] := by
    rw [hdb, hid]
    exact config_create_rows _ _ _ _ hgood
  have hdoc0 : ((s0.create_config cfg sock0 random_string hash).svc.db_.get_config
      (c.get_db_id_from id)).1 = new_document cfg.config_name := by
    rw [hdb, hid]
    exact config_create_fresh _ _ _ _ hgood
  obtain ⟨hdoc, hrows⟩ := run_doc (c.get_db_id_from id) evs _ hrows0
  obtain ⟨hout, hthrown⟩ := get_settings_names_reply _ sock c id hc hl hrows
  have hsorted : object_sorted
      (((s0.create_config cfg sock0 random_string hash).svc.run evs).1.db_.get_config
        (c.get_db_id_from id)).1.settings := by
    rw [hdoc, foldl_apply_settings_settings, hdoc0]
    exact foldl_updates_sorted _ _ (by simp [object_sorted, new_document])
  refine ⟨?_, hthrown, hsorted, object_sorted_nodup _ hsorted, ?_⟩
  · intro hne
    rw [hout]
    cases hs : (((s0.create_config cfg sock0 random_string hash).svc.run evs).1.db_.get_config
        (c.get_db_id_from id)).1.settings with
    | nil => exact absurd hs hne
    | cons a l => rfl
  · intro k
    rw [Ne, object_find_none_iff, not_not]

/-- Witness for C15: the steps of the test case `get_settings_names with multiple settings`,
after the CONFIG_CREATE of `ma_config` on connection 5: the connection loads the
configuration as temp-id 1 and updates `lala` and `titi`; SETTINGS_NAMES is then the array of
`lala` and `titi`. -/
theorem settings_names_ascending_witness :
    ((fixture_created.run
        [chunk (frame_load "07"),
         chunk (frame_update [("lala", .string "lala"), ("titi", .string "1")])]).1.db_.get_config
      1).1.settings = [("lala", .string "lala"), ("titi", .string "1")] ∧
    ((fixture_created.run
        [chunk (frame_load "07"),
         chunk (frame_update [("lala", .string "lala"), ("titi", .string "1")])]).1.get_settings_names
      { id := 1 } 5).out
      = [(5, .config_get_settings_names_answer (.array [.string "lala", .string "titi"])
          "SUCCESS")] :=
  ⟨by decide,
   ((settings_names_ascending (service.init.accept 5) { config_name := "ma_config" } 5
      fixture_random_string fixture_hash
      [chunk (frame_load "07"),
       chunk (frame_update [("lala", .string "lala"), ("titi", .string "1")])]
      5 { socket_ := 5, last_id_ := 1, config_ids_ := [(1, 1)], subscriptions_ := [] } 1
      (by decide) (by decide) (by decide) (by decide)).1 (by decide)).trans (by decide)⟩

/-- C15 (as stated) fails on the order: after the CONFIG_CREATE of `ma_config`, connection 5
loads it and inserts `titi` and then `lala`, each with a SETTING_UPDATE that replies SUCCESS;
CONFIG_GET_SETTINGS_NAMES then lists `lala` before `titi`. -/
theorem settings_names_insertion_order_counterexample :
    (fixture_created.run fixture_two_inserts).2
      = [(5, .config_load_answer "ma_config" 1 "SUCCESS"), (5, .state "SUCCESS"),
         (5, .state "SUCCESS")] ∧
    updates_of 1 fixture_created fixture_two_inserts
      = [[("titi", .string "1")], [("lala", .string "lala")]] ∧
    ((fixture_created.run fixture_two_inserts).1.step
        (chunk (frame_on_config "CONFIG_GET_SETTINGS_NAMES"))).out
      = [(5, .config_get_settings_names_answer (.array [.string "lala", .string "titi"])
          "SUCCESS")] := by
  decide

/-! ## The answer and the effect of `config_include` -/

theorem rows_length_zero_iff (db : config_db) (id : Nat) :
    (db.rows_of_id id).length = 0 ↔ db.rows_of_id id = [] :=
  List.length_eq_zero

/-- C27: `config_include` answers `unknown_id` exactly when no row has the id of the
destination or no row has the id of the source, and the store is then left as it is (table,
sequence, `nb_tries_` and state); when both rows exist it answers `success`. -/
theorem config_include_unknown_id (db : config_db) (dst_id src_id : Nat) :
    ((db.config_include dst_id src_id).1.state = .unknown_id ↔
      db.rows_of_id dst_id = [] ∨ db.rows_of_id src_id = []) ∧
    ((db.config_include dst_id src_id).1.state = .unknown_id →
      (db.config_include dst_id src_id).2 = db) ∧
    (db.rows_of_id dst_id ≠ [] → db.rows_of_id src_id ≠ [] →
      (db.config_include dst_id src_id).1.state = .success) := by
  by_cases h1 : db.rows_of_id dst_id = []
  · have h1l : (db.rows_of_id dst_id).length = 0 := by rw [h1]; rfl
    refine ⟨?_, ?_, ?_⟩
    · simp [config_db.config_include, h1l, h1]
    · intro _
      simp [config_db.config_include, h1l]
    · intro h; exact absurd h1 h
  · by_cases h2 : db.rows_of_id src_id = []
    · have h1l : ¬ (db.rows_of_id dst_id).length = 0 := fun h => h1 (List.length_eq_zero.1 h)
      have h2l : (db.rows_of_id src_id).length = 0 := by rw [h2]; rfl
      refine ⟨?_, ?_, ?_⟩
      · simp [config_db.config_include, h1l, h2l, h2]
      · intro _
        simp [config_db.config_include, h1l, h2l]
      · intro _ h; exact absurd h2 h
    · have h1l : ¬ (db.rows_of_id dst_id).length = 0 := fun h => h1 (List.length_eq_zero.1 h)
      have h2l : ¬ (db.rows_of_id src_id).length = 0 := fun h => h2 (List.length_eq_zero.1 h)
      have hs : (db.config_include dst_id src_id).1.state = .success := by
        unfold config_db.config_include
        rw [if_neg h1l, if_neg h2l, List.getLast?_eq_getLast _ h1]
      refine ⟨?_, ?_, fun _ _ => hs⟩
      · rw [hs]
        simp [h1, h2]
      · intro h
        rw [hs] at h
        cases h

/-- Witness for C27: the test cases `include into nonexistent destination`, `include from
nonexistent src` and `include unique config into existent src`, on the store with the
configurations 1 and 2. -/
theorem config_include_unknown_id_witness :
    (fixture_two_configs.config_include 42 1).1.state = .unknown_id ∧
    (fixture_two_configs.config_include 42 1).2 = fixture_two_configs ∧
    (fixture_two_configs.config_include 1 42).1.state = .unknown_id ∧
    (fixture_two_configs.config_include 1 42).2 = fixture_two_configs ∧
    (fixture_two_configs.config_include 1 2).1.state = .success :=
  ⟨(config_include_unknown_id fixture_two_configs 42 1).1.2 (Or.inl (by decide)),
   (config_include_unknown_id fixture_two_configs 42 1).2.1 (by decide),
   (config_include_unknown_id fixture_two_configs 1 42).1.2 (Or.inr (by decide)),
   (config_include_unknown_id fixture_two_configs 1 42).2.1 (by decide),
   (config_include_unknown_id fixture_two_configs 1 2).2.2 (by decide) (by decide)⟩

theorem include_into_idem (text : document) (src_id : Nat) :
    include_into (include_into text src_id) src_id = include_into text src_id := by
  obtain ⟨l, hl, hset, _, hsorted⟩ := include_into_other_config text src_id
  obtain ⟨l', hl', hset', _, hsorted'⟩ :=
    include_into_other_config (include_into text src_id) src_id
  have hmem : ∀ x, x ∈ l' ↔ x ∈ l := by
    intro x
    have h1 : x ∈ l'.toFinset ↔ x ∈ l.toFinset := by
      rw [hset', hl, Option.getD_some, hset]
      simp only [Finset.mem_union, Finset.mem_singleton]
      tauto
    simpa using h1
  have heq : l' = l :=
    List.eq_of_perm_of_sorted
      ((List.perm_ext_iff_of_nodup hsorted'.nodup hsorted.nodup).2 hmem) hsorted' hsorted
  have h1 : (include_into (include_into text src_id) src_id).other_config
      = (include_into text src_id).other_config := by rw [hl', hl, heq]
  unfold include_into at h1 ⊢
  simp only [] at h1 ⊢
  rw [h1]

theorem write_text_idem (db : config_db) (text : document) (id : Nat) :
    (db.write_text text id).write_text text id = db.write_text text id := by
  unfold config_db.write_text
  simp only [List.map_map]
  congr 1
  apply List.map_congr_left
  intro r _
  simp only [Function.comp]
  by_cases h : r.id = id
  · simp [h]
  · simp [h]


theorem config_include_of_rows (db : config_db) (dst_id src_id : Nat)
    (hdst : db.rows_of_id dst_id ≠ []) (hsrc : db.rows_of_id src_id ≠ []) :
    db.config_include dst_id src_id
      = ({ state := .success,
           nb_configs :=
             ((include_into (db.get_config dst_id).1 src_id).other_config.getD []).length },
         db.write_text (include_into (db.get_config dst_id).1 src_id) dst_id) := by
  have h1l : ¬ (db.rows_of_id dst_id).length = 0 := fun h => hdst (List.length_eq_zero.1 h)
  have h2l : ¬ (db.rows_of_id src_id).length = 0 := fun h => hsrc (List.length_eq_zero.1 h)
  unfold config_db.config_include
  rw [if_neg h1l, if_neg h2l]
  unfold config_db.get_config
  rw [List.getLast?_eq_getLast _ hdst]

/-- C28: when the rows of the destination and of the source exist, whatever the
`OTHER_CONFIG` of the destination (absent, or any list of numbers), `config_include` persists
the document of the destination with an `OTHER_CONFIG` that ascends strictly, whose elements
are the old ones and the source id, and the rest of the document as it was; it answers
`success` with `nb_configs` the length of the list; and a second call with the same ids
gives the same answer and leaves the store as the first call left it. -/
theorem config_include_sorted (db : config_db) (dst_id src_id : Nat)
    (hdst : db.rows_of_id dst_id ≠ []) (hsrc : db.rows_of_id src_id ≠ []) :
    ∃ l : List Nat,
      ((db.config_include dst_id src_id).2.get_config dst_id).1
        = { (db.get_config dst_id).1 with other_config := some l } ∧
      l.Sorted (· < ·) ∧
      (∀ x, x ∈ l ↔ x ∈ (db.get_config dst_id).1.other_config.getD [] ∨ x = src_id) ∧
      (db.config_include dst_id src_id).1 = { state := .success, nb_configs := l.length } ∧
      (db.config_include dst_id src_id).2.config_include dst_id src_id
        = ({ state := .success, nb_configs := l.length },
           (db.config_include dst_id src_id).2) := by
  obtain ⟨l, hl, hset, _, hsorted⟩ := include_into_other_config (db.get_config dst_id).1 src_id
  have hfirst := config_include_of_rows db dst_id src_id hdst hsrc
  have hdoc : ((db.write_text (include_into (db.get_config dst_id).1 src_id) dst_id).get_config
      dst_id).1 = include_into (db.get_config dst_id).1 src_id :=
    get_config_write_text db _ dst_id hdst
  have hdst' : (db.write_text (include_into (db.get_config dst_id).1 src_id) dst_id).rows_of_id
      dst_id ≠ [] := fun h => hdst ((rows_of_id_write_text_ne_nil _ _ _ _).1 h)
  have hsrc' : (db.write_text (include_into (db.get_config dst_id).1 src_id) dst_id).rows_of_id
      src_id ≠ [] := fun h => hsrc ((rows_of_id_write_text_ne_nil _ _ _ _).1 h)
  refine ⟨l, ?_, hsorted, ?_, ?_, ?_⟩
  · rw [hfirst]
    simp only []
    rw [hdoc]
    unfold include_into at hl ⊢
    simp only [] at hl ⊢
    rw [hl]
  · intro x
    have h1 : x ∈ l.toFinset ↔
        x ∈ ((db.get_config dst_id).1.other_config.getD []).toFinset ∪ {src_id} := by
      rw [hset]
    simpa using h1
  · rw [hfirst, hl]
    rfl
  · rw [hfirst]
    simp only []
    rw [config_include_of_rows _ dst_id src_id hdst' hsrc', hdoc, include_into_idem,
      write_text_idem, hl]
    rfl

/-- Witness for C28: on a store whose destination has the `OTHER_CONFIG` 3, 1, 3, the
inclusion of the configuration 2 persists 1, 2, 3 and answers 3, and so does a second
inclusion; and the test case `include unique config into existent src`. -/
theorem config_include_sorted_witness :
    ((fixture_unsorted_includes.config_include 1 2).2.get_config 1).1.other_config
      = some [1, 2, 3] ∧
    (fixture_unsorted_includes.config_include 1 2).1 = { state := .success, nb_configs := 3 } ∧
    ((fixture_unsorted_includes.config_include 1 2).2.config_include 1 2).1
      = { state := .success, nb_configs := 3 } ∧
    (fixture_two_configs.config_include 1 2).1 = { state := .success, nb_configs := 1 } ∧
    (∃ l : List Nat,
      ((fixture_unsorted_includes.config_include 1 2).2.get_config 1).1
        = { (fixture_unsorted_includes.get_config 1).1 with other_config := some l } ∧
      l.Sorted (· < ·) ∧
      (∀ x, x ∈ l ↔ x ∈ (fixture_unsorted_includes.get_config 1).1.other_config.getD [] ∨ x = 2) ∧
      (fixture_unsorted_includes.config_include 1 2).1
        = { state := .success, nb_configs := l.length } ∧
      (fixture_unsorted_includes.config_include 1 2).2.config_include 1 2
        = ({ state := .success, nb_configs := l.length },
           (fixture_unsorted_includes.config_include 1 2).2)) :=
  ⟨by decide, by decide, by decide, by decide,
   config_include_sorted fixture_unsorted_includes 1 2 (by decide) (by decide)⟩

/-! ## The state of the store adapter after a call -/

theorem config_create_state (db : config_db) (name : String) (random_string : Nat → String)
    (hash : String → Nat) :
    (db.config_create name random_string hash).2.state = .good ∨
    (db.config_create name random_string hash).2.state = .sql_error := by
  rcases attempt_cases db name random_string hash 4 with ⟨j, hj, hb, ha⟩ | hall
  · left
    have := config_create_loop_success name random_string hash 4 0 db j hj
      (by simpa using hb) (by simpa using ha)
    unfold config_db.config_create maximum_retries_
    rw [this]
  · right
    have := config_create_loop_failure name random_string hash 3 0 db (by simpa using hall)
    unfold config_db.config_create maximum_retries_
    rw [this]

/-- C26: `get_config` and `update_config` on a stored id, and `config_create`, assign the
state, so that it reflects the call whatever it was before (good for the first two, good or
`sql_error` for `config_create`); but `get_config_id` and `get_config_name` return the store
as it was when they succeed, and `config_include` never assigns the state: after a call of
one of these that succeeds, the state is the one that an earlier call left.  On the store of
the test case `unknow key`, `get_config_id` with the key `07` of the stored configuration
returns its id 1 and leaves the state `unknow_config_key`, so that `good()` is false. -/
theorem state_after_store_call (db : config_db) :
    (∀ id, db.rows_of_id id ≠ [] → (db.get_config id).2.state = .good) ∧
    (∀ text id, db.rows_of_id id ≠ [] → (db.update_config text id).state = .good) ∧
    (∀ name random_string hash,
      (db.config_create name random_string hash).2.state = .good ∨
      (db.config_create name random_string hash).2.state = .sql_error) ∧
    (∀ key r, (db.rows_of_key key).getLast? = some r →
      db.get_config_id key = (r.id, db)) ∧
    (∀ id r, (db.rows_of_id id).getLast? = some r →
      db.get_config_name id = (r.config_text.config_name, db)) ∧
    (∀ dst_id src_id, (db.config_include dst_id src_id).2.state = db.state) ∧
    (fixture_stale_db.rows_of_key "07").getLast?
      = some { config_text := new_document "ma_config", id := 1, config_key := "07",
               readonly_config_key := "17" } ∧
    (fixture_stale_db.get_config_id "07").1 = 1 ∧
    (fixture_stale_db.get_config_id "07").2.state = .unknow_config_key ∧
    (fixture_stale_db.get_config_id "07").2.good = false ∧
    ((fixture_stale_db.get_config_name 1).2.config_include 1 1).1.state = .success ∧
    ((fixture_stale_db.get_config_name 1).2.config_include 1 1).2.good = false := by
  refine ⟨?_, ?_, ?_, ?_, ?_, ?_, by decide, by decide, by decide, by decide, by decide,
    by decide⟩
  · intro id h
    unfold config_db.get_config
    rw [List.getLast?_eq_getLast _ h]
  · intro text id h
    unfold config_db.update_config
    rw [if_neg (fun hl => h (List.length_eq_zero.1 hl))]
  · intro name random_string hash
    exact config_create_state db name random_string hash
  · intro key r hr
    exact get_config_id_found db key r hr
  · intro id r hr
    have hne : db.database_.length ≠ 0 := by
      intro h
      have h0 : db.database_ = [] := List.length_eq_zero.1 h
      unfold config_db.rows_of_id at hr
      rw [h0] at hr
      cases hr
    unfold config_db.get_config_name
    rw [if_neg hne, hr]
  · intro dst_id src_id
    unfold config_db.config_include
    split
    · rfl
    · split
      · rfl
      · split <;> rfl

/-! ## Chunks that are not JSON documents -/

/-- C25: for a chunk on which `json::parse` raises `parse_error`, the listener writes the
single frame INTERNAL_ERROR to the socket of the chunk, whose JSON object has the member
`REQUEST_STATE` only, and leaves the service as it is: the registry, with the session of the
connection, and the store. -/
theorem invalid_chunk_replies (s : service) (sock : Nat) (random_string : Nat → String)
    (hash : String → Nat) :
    s.on_data none sock random_string hash
      = { svc := s, out := [(sock, .state "INTERNAL_ERROR")], thrown := none } ∧
    registry_find (s.on_data none sock random_string hash).svc.config_clients_registry_ sock
      = registry_find s.config_clients_registry_ sock ∧
    answer.to_json (.state "INTERNAL_ERROR")
      = .object [("REQUEST_STATE", .string "INTERNAL_ERROR")] := by
  have h : s.on_data none sock random_string hash
      = { svc := s, out := [(sock, .state "INTERNAL_ERROR")], thrown := none } := by
    unfold service.on_data service.try_data
    rfl
  refine ⟨h, ?_, rfl⟩
  rw [h]

/-! ## What a SETTING_UPDATE leaves as it is -/

theorem apply_settings_fields (d : document) (upd : List (String × json)) :
    (apply_settings d upd).config_name = d.config_name ∧
    (apply_settings d upd).includes = d.includes ∧
    (apply_settings d upd).other_config = d.other_config := by
  unfold apply_settings
  induction upd generalizing d with
  | nil => exact ⟨rfl, rfl, rfl⟩
  | cons kv rest ih =>
    simp only [List.foldl_cons]
    exact ih _

theorem write_text_keys (db : config_db) (text : document) (id : Nat) :
    (db.write_text text id).database_.map (fun r => (r.id, r.config_key, r.readonly_config_key))
      = db.database_.map (fun r => (r.id, r.config_key, r.readonly_config_key)) := by
  unfold config_db.write_text
  simp only [List.map_map]
  apply List.map_congr_left
  intro r _
  simp only [Function.comp]
  split <;> rfl

/-- C30: when a SETTING_UPDATE on a temp-id of the configuration C replies SUCCESS, the
stored document of C afterwards has, for every name that is not a key of
`SETTINGS_TO_UPDATE`, the value it had, and the same `CONFIG_NAME`, `INCLUDES` and
`OTHER_CONFIG`; the rows of every other id are the same, and every row keeps its id and its
two keys; the registry is the same; and when `SETTINGS_TO_UPDATE` has no member, the stored
document of C is the same and the SUCCESS reply is the only frame written. -/
theorem update_setting_frame (s : service) (cfg : setting_update) (sock : Nat) (c : client)
    (hc : registry_find s.config_clients_registry_ sock = some c)
    (hok : send_state sock .success ∈ (s.update_setting cfg sock).out) :
    (∀ k, k ∉ cfg.settings_to_update.map Prod.fst →
      object_find
          ((s.update_setting cfg sock).svc.db_.get_config (c.get_db_id_from cfg.id)).1.settings k
        = object_find (s.db_.get_config (c.get_db_id_from cfg.id)).1.settings k) ∧
    ((s.update_setting cfg sock).svc.db_.get_config (c.get_db_id_from cfg.id)).1.config_name
      = (s.db_.get_config (c.get_db_id_from cfg.id)).1.config_name ∧
    ((s.update_setting cfg sock).svc.db_.get_config (c.get_db_id_from cfg.id)).1.includes
      = (s.db_.get_config (c.get_db_id_from cfg.id)).1.includes ∧
    ((s.update_setting cfg sock).svc.db_.get_config (c.get_db_id_from cfg.id)).1.other_config
      = (s.db_.get_config (c.get_db_id_from cfg.id)).1.other_config ∧
    (∀ id, id ≠ c.get_db_id_from cfg.id →
      (s.update_setting cfg sock).svc.db_.rows_of_id id = s.db_.rows_of_id id) ∧
    (s.update_setting cfg sock).svc.db_.database_.map
        (fun r => (r.id, r.config_key, r.readonly_config_key))
      = s.db_.database_.map (fun r => (r.id, r.config_key, r.readonly_config_key)) ∧
    (s.update_setting cfg sock).svc.config_clients_registry_ = s.config_clients_registry_ ∧
    (cfg.settings_to_update = [] →
      ((s.update_setting cfg sock).svc.db_.get_config (c.get_db_id_from cfg.id)).1
        = (s.db_.get_config (c.get_db_id_from cfg.id)).1 ∧
      (s.update_setting cfg sock).out = [(sock, .state "SUCCESS")]) := by
  obtain ⟨c', u, hc', h1, h2, hu, h3, heq⟩ := update_setting_success s cfg sock hok
  rw [hc] at hc'
  cases hc'
  have hget := get_config_after_update _ _ _ (hu ▸ h3)
  rw [← hu] at hget
  have hsvc : (s.update_setting cfg sock).svc.db_ = u := by rw [heq]
  have hdoc : ((s.update_setting cfg sock).svc.db_.get_config (c.get_db_id_from cfg.id)).1
      = apply_settings (s.db_.get_config (c.get_db_id_from cfg.id)).1 cfg.settings_to_update := by
    rw [hsvc, hget]
  have hrows := get_config_ok_rows s.db_ _ h2
  have htable : u.database_
      = (s.db_.write_text
          (apply_settings (s.db_.get_config (c.get_db_id_from cfg.id)).1 cfg.settings_to_update)
          (c.get_db_id_from cfg.id)).database_ := by
    rw [hu, update_config_table]
    have hne : (s.db_.get_config (c.get_db_id_from cfg.id)).2.rows_of_id (c.get_db_id_from cfg.id)
        ≠ [] := by
      rw [rows_of_id_congr _ _ _ (get_config_rows s.db_ _)]
      exact hrows
    rw [if_neg hne]
    exact write_text_congr _ _ _ _ (get_config_rows s.db_ _)
  obtain ⟨hn, hi, ho⟩ := apply_settings_fields (s.db_.get_config (c.get_db_id_from cfg.id)).1
    cfg.settings_to_update
  refine ⟨?_, ?_, ?_, ?_, ?_, ?_, ?_, ?_⟩
  · intro k hk
    rw [hdoc, apply_settings_settings]
    exact foldl_set_find_not_mem _ _ _ hk
  · rw [hdoc, hn]
  · rw [hdoc, hi]
  · rw [hdoc, ho]
  · intro id hid
    rw [hsvc, rows_of_id_congr _ _ id htable]
    exact rows_of_id_write_text_other _ _ _ _ hid
  · rw [hsvc, htable]
    exact write_text_keys _ _ _
  · rw [heq]
  · intro hnil
    constructor
    · rw [hdoc, hnil]
      rfl
    · rw [heq, hnil]
      simp only [update_events, List.flatMap_nil]
      rw [flatMap_eq_nil_of_forall _ _ (fun _ _ => rfl)]
      rfl

/-- Witness for C30: the test case `update_setting with multiple settings` after `titi` and
`lala` are stored: the SETTING_UPDATE of `titi` alone replies SUCCESS, and `lala` keeps its
value. -/
theorem update_setting_frame_witness :
    send_state 5 .success ∈
      (fixture_updated.update_setting
        { id := 1, settings_to_update := [("titi", .string "2")] } 5).out ∧
    "lala" ∉ [("titi", json.string "2")].map Prod.fst ∧
    object_find
        ((fixture_updated.update_setting
          { id := 1, settings_to_update := [("titi", .string "2")] } 5).svc.db_.get_config
          1).1.settings "lala"
      = some (.string "lala") ∧
    object_find
        ((fixture_updated.update_setting
          { id := 1, settings_to_update := [("titi", .string "2")] } 5).svc.db_.get_config
          1).1.settings "lala"
      = object_find (fixture_updated.db_.get_config 1).1.settings "lala" :=
  ⟨by decide, by decide, by decide,
   (update_setting_frame fixture_updated
      { id := 1, settings_to_update := [("titi", .string "2")] } 5
      { socket_ := 5, last_id_ := 1, config_ids_ := [(1, 1)], subscriptions_ := [] }
      (by decide) (by decide)).1 "lala" (by decide)⟩

/-! ## Requests that do not reply SUCCESS change nothing -/

theorem state_of_event (a : answer) (h : a.is_event = true) : a.state_of = none := by
  cases a <;> first | rfl | simp [answer.is_event] at h

theorem update_config_fail_table (db : config_db) (text : document) (id : Nat)
    (h : (db.update_config text id).fail = true) :
    (db.update_config text id).database_ = db.database_ := by
  unfold config_db.update_config at h ⊢
  split
  · rfl
  · next hl =>
    rw [if_neg hl] at h
    simp [config_db.fail, config_db.good] at h

theorem config_create_fail_table (db : config_db) (name : String)
    (random_string : Nat → String) (hash : String → Nat)
    (h : (db.config_create name random_string hash).2.good = false) :
    (db.config_create name random_string hash).2.database_ = db.database_ := by
  rcases attempt_cases db name random_string hash 4 with ⟨j, hj, hb, ha⟩ | hall
  · have := config_create_loop_success name random_string hash 4 0 db j hj
      (by simpa using hb) (by simpa using ha)
    unfold config_db.config_create maximum_retries_ at h
    rw [this] at h
    simp [config_db.good] at h
  · have := config_create_loop_failure name random_string hash 3 0 db (by simpa using hall)
    unfold config_db.config_create maximum_retries_
    rw [this]

theorem create_config_keeps (s : service) (cfg : config_create) (sock : Nat)
    (random_string : Nat → String) (hash : String → Nat) :
    (s.create_config cfg sock random_string hash).keeps s ∨
    (s.create_config cfg sock random_string hash).succeeds := by
  unfold service.create_config
  simp only []
  split
  · right
    simp [outcome.succeeds, reply, answer.state_of, convert_request_state]
  · next hg =>
    left
    refine ⟨?_, rfl, ?_⟩
    · exact config_create_fail_table _ _ _ _ (by simpa using hg)
    · simp [reply, answer.is_event]

theorem load_config_keeps (s : service) (cfg : config_load) (sock : Nat) :
    (s.load_config cfg sock).keeps s ∨ (s.load_config cfg sock).succeeds := by
  have hkey : ∀ key, (s.load_config_key key sock).keeps s ∨
      (s.load_config_key key sock).succeeds := by
    intro key
    have h1 := get_config_id_table s.db_ key
    have h2 := (get_config_name_table (s.db_.get_config_id key).2
      (s.db_.get_config_id key).1).trans h1
    unfold service.load_config_key
    simp only []
    split
    · left
      split <;> exact ⟨h1, rfl, by simp [reply, send_state, answer.is_event]⟩
    · split
      · left
        exact ⟨h2, rfl, by simp [reply, send_state, answer.is_event]⟩
      · split
        · left
          exact ⟨h2, rfl, by simp⟩
        · right
          simp [outcome.succeeds, reply, answer.state_of, convert_request_state]
  unfold service.load_config
  split
  · exact hkey _
  · exact hkey _
  · left
    exact ⟨rfl, rfl, by simp [reply, send_state, answer.is_event]⟩

theorem update_setting_keeps (s : service) (cfg : setting_update) (sock : Nat) :
    (s.update_setting cfg sock).keeps s ∨ (s.update_setting cfg sock).succeeds := by
  unfold service.update_setting
  split
  · left
    exact ⟨rfl, rfl, by simp⟩
  · simp only []
    split
    · left
      exact ⟨rfl, rfl, by simp [reply, send_state, answer.is_event]⟩
    · split
      · left
        exact ⟨get_config_rows _ _, rfl, by simp [reply, send_state, answer.is_event]⟩
      · split
        · next hf =>
          left
          refine ⟨?_, rfl, by simp [reply, send_state, answer.is_event]⟩
          exact (update_config_fail_table _ _ _ hf).trans (get_config_rows _ _)
        · right
          refine ⟨rfl, ?_⟩
          intro w hw st hst
          simp only [List.mem_cons] at hw
          rcases hw with hw | hw
          · rw [hw] at hst
            simp [send_state, answer.state_of, convert_request_state] at hst
            exact hst.symm
          · rw [state_of_event _ (update_events_all_events _ _ _ w hw)] at hst
            cases hst

theorem unload_config_keeps (s : service) (cfg : config_unload) (sock : Nat) :
    (s.unload_config cfg sock).keeps s ∨ (s.unload_config cfg sock).succeeds := by
  unfold service.unload_config
  split
  · left
    exact ⟨rfl, rfl, by simp⟩
  · right
    simp [outcome.succeeds, reply, send_state, answer.state_of, convert_request_state]

theorem include_config_keeps (s : service) (cfg : config_include) (sock : Nat) :
    (s.include_config cfg sock).keeps s := by
  refine ⟨(include_config_table s cfg sock).1, (include_config_table s cfg sock).2, ?_⟩
  unfold service.include_config
  split
  · simp
  · simp only []
    split
    · simp [reply, send_state, answer.is_event]
    · split <;> simp [reply, send_state, answer.is_event]

theorem remove_setting_keeps (s : service) (cfg : setting_remove) (sock : Nat) :
    (s.remove_setting cfg sock).keeps s ∨ (s.remove_setting cfg sock).succeeds := by
  unfold service.remove_setting
  split
  · left
    exact ⟨rfl, rfl, by simp [send_state, answer.is_event]⟩
  · split
    · left
      exact ⟨rfl, rfl, by simp [reply, send_state, answer.is_event]⟩
    · right
      refine ⟨rfl, ?_⟩
      intro w hw st hst
      simp only [List.mem_cons] at hw
      rcases hw with hw | hw
      · rw [hw] at hst
        simp [send_state, answer.state_of, convert_request_state] at hst
        exact hst.symm
      · rw [state_of_event _ (remove_events_all_events _ _ _ w hw)] at hst
        cases hst

theorem get_setting_keeps (s : service) (cfg : setting_get) (sock : Nat) :
    (s.get_setting cfg sock).keeps s := by
  refine ⟨(get_setting_table s cfg sock).1, (get_setting_table s cfg sock).2, ?_⟩
  unfold service.get_setting
  split
  · simp
  · simp only []
    split
    · simp [reply, send_state, answer.is_event]
    · split
      · simp [reply, send_state, answer.is_event]
      · split
        · simp [reply, send_state, answer.is_event]
        · split <;> simp [reply, answer.is_event]

theorem get_settings_names_keeps (s : service) (cfg : config_get_settings_names) (sock : Nat) :
    (s.get_settings_names cfg sock).keeps s := by
  refine ⟨(get_settings_names_table s cfg sock).1, (get_settings_names_table s cfg sock).2, ?_⟩
  unfold service.get_settings_names
  split
  · simp
  · simp only []
    split
    · simp [reply, send_state, answer.is_event]
    · split <;> simp [reply, send_state, answer.is_event]

theorem get_all_settings_keeps (s : service) (cfg : config_get_settings) (sock : Nat) :
    (s.get_all_settings cfg sock).keeps s := by
  refine ⟨(get_all_settings_table s cfg sock).1, (get_all_settings_table s cfg sock).2, ?_⟩
  unfold service.get_all_settings
  split
  · simp
  · simp only []
    split
    · simp [reply, send_state, answer.is_event]
    · split <;> simp [reply, send_state, answer.is_event]

theorem subscribe_setting_keeps (s : service) (cfg : setting_subscribe) (sock : Nat) :
    (s.subscribe_setting cfg sock).keeps s ∨ (s.subscribe_setting cfg sock).succeeds := by
  unfold service.subscribe_setting
  split
  · left
    exact ⟨rfl, rfl, by simp⟩
  · split
    · left
      exact ⟨rfl, rfl, by simp [reply, send_state, answer.is_event]⟩
    · split
      · right
        simp [outcome.succeeds, reply, send_state, answer.state_of, convert_request_state]
      · left
        exact ⟨rfl, rfl, by simp [reply, send_state, answer.is_event]⟩

theorem unsubscribe_setting_keeps (s : service) (cfg : setting_subscribe) (sock : Nat) :
    (s.unsubscribe_setting cfg sock).keeps s ∨ (s.unsubscribe_setting cfg sock).succeeds := by
  unfold service.unsubscribe_setting
  split
  · left
    exact ⟨rfl, rfl, by simp⟩
  · split
    · left
      exact ⟨rfl, rfl, by simp [reply, send_state, answer.is_event]⟩
    · split
      · right
        simp [outcome.succeeds, reply, send_state, answer.state_of, convert_request_state]
      · left
        exact ⟨rfl, rfl, by simp [reply, send_state, answer.is_event]⟩

/-- A handler either leaves the stored rows and the registry as they are and writes no event,
or raises nothing and writes no state other than SUCCESS. -/
theorem handle_keeps (s : service) (r : request) (sock : Nat) (random_string : Nat → String)
    (hash : String → Nat) :
    (s.handle r sock random_string hash).keeps s ∨
    (s.handle r sock random_string hash).succeeds := by
  cases r with
  | config_create cfg => exact create_config_keeps s cfg sock random_string hash
  | config_load cfg => exact load_config_keeps s cfg sock
  | config_unload cfg => exact unload_config_keeps s cfg sock
  | config_include cfg => exact Or.inl (include_config_keeps s cfg sock)
  | setting_update cfg => exact update_setting_keeps s cfg sock
  | setting_remove cfg => exact remove_setting_keeps s cfg sock
  | setting_get cfg => exact Or.inl (get_setting_keeps s cfg sock)
  | config_get_settings cfg => exact Or.inl (get_all_settings_keeps s cfg sock)
  | config_get_settings_names cfg => exact Or.inl (get_settings_names_keeps s cfg sock)
  | alias_set cfg =>
    exact Or.inl ⟨rfl, rfl, by simp [service.handle, service.set_alias, reply, send_state,
      answer.is_event]⟩
  | alias_unset cfg =>
    exact Or.inl ⟨rfl, rfl, by simp [service.handle, service.unset_alias, reply, send_state,
      answer.is_event]⟩
  | subscribe_setting cfg => exact subscribe_setting_keeps s cfg sock
  | unsubscribe_setting cfg => exact unsubscribe_setting_keeps s cfg sock

theorem try_data_keeps (s : service) (data : Option json) (sock : Nat)
    (random_string : Nat → String) (hash : String → Nat) :
    (s.try_data data sock random_string hash).keeps s ∨
    (s.try_data data sock random_string hash).succeeds := by
  cases data with
  | none =>
    left
    exact ⟨rfl, rfl, by simp [service.try_data]⟩
  | some json_data =>
    rw [try_data_handle]
    cases hn : (json_data.at "REQUEST_NAME").bind json.get_string with
    | error e =>
      left
      exact ⟨rfl, rfl, by simp⟩
    | ok command_order =>
      simp only []
      cases hp : parse_request command_order json_data with
      | none =>
        left
        exact ⟨rfl, rfl, by simp⟩
      | some pr =>
        cases pr with
        | error e =>
          left
          exact ⟨rfl, rfl, by simp⟩
        | ok r => exact handle_keeps s r sock random_string hash

/-- C29: when a frame that the listener writes for a chunk has a `REQUEST_STATE` other than
SUCCESS, be it written by a handler or by a catch block of the listener, the rows of the
table (the stored documents with their ids and keys) and the registry (the temp-id table and
the subscription set of every session) are the same after the chunk as before it, and no
subscription event is written. -/
theorem error_reply_atomic (s : service) (data : Option json) (sock : Nat)
    (random_string : Nat → String) (hash : String → Nat)
    (h : ∃ w ∈ (s.on_data data sock random_string hash).out, ∃ st,
      w.2.state_of = some st ∧ st ≠ "SUCCESS") :
    (s.on_data data sock random_string hash).svc.db_.database_ = s.db_.database_ ∧
    (s.on_data data sock random_string hash).svc.config_clients_registry_
      = s.config_clients_registry_ ∧
    ∀ w ∈ (s.on_data data sock random_string hash).out, w.2.is_event = false := by
  have ht := try_data_keeps s data sock random_string hash
  unfold service.on_data at h ⊢
  simp only [] at h ⊢
  split at h
  · rcases ht with hk | hs
    · exact hk
    · obtain ⟨w, hw, st, hst, hne⟩ := h
      exact absurd (hs.2 w hw st hst) hne
  · next hthrown =>
    rcases ht with hk | hs
    · refine ⟨hk.1, hk.2.1, ?_⟩
      intro w hw
      simp only [List.mem_append, List.mem_singleton] at hw
      rcases hw with hw | hw
      · exact hk.2.2 w hw
      · rw [hw]; rfl
    · rw [hs.1] at hthrown
      cases hthrown
  · next e _ hthrown =>
    rcases ht with hk | hs
    · refine ⟨hk.1, hk.2.1, ?_⟩
      intro w hw
      simp only [List.mem_append, List.mem_singleton] at hw
      rcases hw with hw | hw
      · exact hk.2.2 w hw
      · rw [hw]; rfl
    · rw [hs.1] at hthrown
      cases hthrown

/-- Witness for C29: the test case `get unknow setting`: on the service where connection 5
has loaded `ma_config`, the chunk SETTING_GET of a setting that is not stored is answered
UNKNOWN_SETTING, and the table and the registry are the same afterwards. -/
theorem error_reply_atomic_witness :
    (fixture_loaded.on_data (some (frame_get "toto")) 5 fixture_random_string fixture_hash).out
      = [(5, .state "UNKNOWN_SETTING")] ∧
    (fixture_loaded.on_data (some (frame_get "toto")) 5 fixture_random_string
        fixture_hash).svc.db_.database_ = fixture_loaded.db_.database_ ∧
    (fixture_loaded.on_data (some (frame_get "toto")) 5 fixture_random_string
        fixture_hash).svc.config_clients_registry_ = fixture_loaded.config_clients_registry_ :=
  ⟨by decide,
   (error_reply_atomic fixture_loaded (some (frame_get "toto")) 5 fixture_random_string
      fixture_hash
      ⟨(5, .state "UNKNOWN_SETTING"), by decide, "UNKNOWN_SETTING", rfl, by decide⟩).1,
   (error_reply_atomic fixture_loaded (some (frame_get "toto")) 5 fixture_random_string
      fixture_hash
      ⟨(5, .state "UNKNOWN_SETTING"), by decide, "UNKNOWN_SETTING", rfl, by decide⟩).2.1⟩

/-! ## The frames that a handler writes -/

theorem handle_responds (s : service) (r : request) (sock : Nat) (random_string : Nat → String)
    (hash : String → Nat) (c : client)
    (hc : registry_find s.config_clients_registry_ sock = some c) :
    ((s.handle r sock random_string hash).thrown = none ∧
      ∃ a rest, (s.handle r sock random_string hash).out = (sock, a) :: rest ∧
        a.is_event = false ∧ ∀ w ∈ rest, w.2.is_event = true) ∨
    ((s.handle r sock random_string hash).thrown ≠ none ∧
      (s.handle r sock random_string hash).out = []) := by
  cases r with
  | config_create cfg =>
    simp only [service.handle, service.create_config]
    split <;> exact Or.inl ⟨rfl, _, [], rfl, rfl, by simp⟩
  | config_load cfg =>
    have hkey : ∀ key,
        ((s.load_config_key key sock).thrown = none ∧
          ∃ a rest, (s.load_config_key key sock).out = (sock, a) :: rest ∧
            a.is_event = false ∧ ∀ w ∈ rest, w.2.is_event = true) ∨
        ((s.load_config_key key sock).thrown ≠ none ∧ (s.load_config_key key sock).out = []) := by
      intro key
      unfold service.load_config_key
      rw [hc]
      simp only []
      split
      · split <;> exact Or.inl ⟨rfl, _, [], rfl, rfl, by simp⟩
      · split <;> exact Or.inl ⟨rfl, _, [], rfl, rfl, by simp⟩
    simp only [service.handle, service.load_config]
    split
    · exact hkey _
    · exact hkey _
    · exact Or.inl ⟨rfl, _, [], rfl, rfl, by simp⟩
  | config_unload cfg =>
    simp only [service.handle, service.unload_config, hc]
    exact Or.inl ⟨rfl, _, [], rfl, rfl, by simp⟩
  | config_include cfg =>
    simp only [service.handle, service.include_config, hc]
    split
    · exact Or.inl ⟨rfl, _, [], rfl, rfl, by simp⟩
    · split <;> exact Or.inl ⟨rfl, _, [], rfl, rfl, by simp⟩
  | setting_update cfg =>
    simp only [service.handle, service.update_setting, hc]
    split
    · exact Or.inl ⟨rfl, _, [], rfl, rfl, by simp⟩
    · split
      · exact Or.inl ⟨rfl, _, [], rfl, rfl, by simp⟩
      · split
        · exact Or.inl ⟨rfl, _, [], rfl, rfl, by simp⟩
        · exact Or.inl ⟨rfl, _, _, rfl, rfl, update_events_all_events _ _ _⟩
  | setting_remove cfg =>
    simp only [service.handle, service.remove_setting, hc]
    split
    · exact Or.inl ⟨rfl, _, [], rfl, rfl, by simp⟩
    · exact Or.inl ⟨rfl, _, _, rfl, rfl, remove_events_all_events _ _ _⟩
  | setting_get cfg =>
    simp only [service.handle, service.get_setting, hc]
    split
    · exact Or.inl ⟨rfl, _, [], rfl, rfl, by simp⟩
    · split
      · exact Or.inl ⟨rfl, _, [], rfl, rfl, by simp⟩
      · split
        · exact Or.inl ⟨rfl, _, [], rfl, rfl, by simp⟩
        · split
          · exact Or.inr ⟨by simp, rfl⟩
          · exact Or.inl ⟨rfl, _, [], rfl, rfl, by simp⟩
  | config_get_settings cfg =>
    simp only [service.handle, service.get_all_settings, hc]
    split
    · exact Or.inl ⟨rfl, _, [], rfl, rfl, by simp⟩
    · split <;> exact Or.inl ⟨rfl, _, [], rfl, rfl, by simp⟩
  | config_get_settings_names cfg =>
    simp only [service.handle, service.get_settings_names, hc]
    split
    · exact Or.inl ⟨rfl, _, [], rfl, rfl, by simp⟩
    · split <;> exact Or.inl ⟨rfl, _, [], rfl, rfl, by simp⟩
  | alias_set cfg => exact Or.inl ⟨rfl, _, [], rfl, rfl, by simp⟩
  | alias_unset cfg => exact Or.inl ⟨rfl, _, [], rfl, rfl, by simp⟩
  | subscribe_setting cfg =>
    simp only [service.handle, service.subscribe_setting, hc]
    split
    · exact Or.inl ⟨rfl, _, [], rfl, rfl, by simp⟩
    · split <;> exact Or.inl ⟨rfl, _, [], rfl, rfl, by simp⟩
  | unsubscribe_setting cfg =>
    simp only [service.handle, service.unsubscribe_setting, hc]
    split
    · exact Or.inl ⟨rfl, _, [], rfl, rfl, by simp⟩
    · split <;> exact Or.inl ⟨rfl, _, [], rfl, rfl, by simp⟩


theorem load_id_event (a : answer) (h : a.is_event = true) : a.load_id = none := by
  cases a <;> first | rfl | simp [answer.is_event] at h

theorem load_ids_events (sock : Nat) (l : List (Nat × answer))
    (h : ∀ w ∈ l, w.2.is_event = true) : load_ids sock l = [] := by
  unfold load_ids
  rw [List.filterMap_eq_nil_iff]
  intro w hw
  split
  · exact load_id_event _ (h w hw)
  · rfl

theorem load_ids_cons_none (sock : Nat) (w : Nat × answer) (l : List (Nat × answer))
    (h : w.2.load_id = none) (hl : ∀ v ∈ l, v.2.is_event = true) :
    load_ids sock (w :: l) = [] := by
  have := load_ids_events sock l hl
  unfold load_ids at this ⊢
  rw [List.filterMap_cons]
  split
  · exact this
  · next b hb =>
    split at hb
    · rw [h] at hb; cases hb
    · cases hb

theorem remove_temp_id_last (c : client) (id : Nat) :
    (c.remove_temp_id id).last_id_ = c.last_id_ := by
  unfold client.remove_temp_id
  split <;> rfl

theorem remove_temp_id_ids (c : client) (id : Nat) :
    ∀ p ∈ (c.remove_temp_id id).config_ids_, p ∈ c.config_ids_ := by
  intro p hp
  unfold client.remove_temp_id at hp
  split at hp
  · exact (List.mem_filter.1 hp).1
  · exact hp

theorem subscribe_last (c : client) (id : Nat) (n : String) :
    (c.subscribe id n).last_id_ = c.last_id_ ∧
    (c.subscribe id n).config_ids_ = c.config_ids_ := by
  unfold client.subscribe
  split <;> exact ⟨rfl, rfl⟩

/-- The session of the socket of a request after its handler: either its last temp-id is the
same, no temp-id is added and no answer to a CONFIG_LOAD is written, or the next temp-id is
added and written in the answer to a CONFIG_LOAD. -/
theorem handle_session (s : service) (r : request) (sock : Nat) (random_string : Nat → String)
    (hash : String → Nat) (c : client)
    (hc : registry_find s.config_clients_registry_ sock = some c) :
    ∃ c', registry_find (s.handle r sock random_string hash).svc.config_clients_registry_ sock
        = some c' ∧
      ((c'.last_id_ = c.last_id_ ∧ (∀ p ∈ c'.config_ids_, p ∈ c.config_ids_) ∧
          load_ids sock (s.handle r sock random_string hash).out = []) ∨
       (c'.last_id_ = c.last_id_ + 1 ∧
          (∃ id, c'.config_ids_ = c.config_ids_ ++ [(c.last_id_ + 1, id)]) ∧
          load_ids sock (s.handle r sock random_string hash).out = [c.last_id_ + 1])) := by
  have hsame : ∀ o : outcome, registry_find o.svc.config_clients_registry_ sock = some c →
      load_ids sock o.out = [] →
      ∃ c', registry_find o.svc.config_clients_registry_ sock = some c' ∧
        ((c'.last_id_ = c.last_id_ ∧ (∀ p ∈ c'.config_ids_, p ∈ c.config_ids_) ∧
            load_ids sock o.out = []) ∨
         (c'.last_id_ = c.last_id_ + 1 ∧
            (∃ id, c'.config_ids_ = c.config_ids_ ++ [(c.last_id_ + 1, id)]) ∧
            load_ids sock o.out = [c.last_id_ + 1])) :=
    fun o h1 h2 => ⟨c, h1, Or.inl ⟨rfl, fun p hp => hp, h2⟩⟩
  have hone : ∀ a : answer, a.load_id = none → load_ids sock [(sock, a)] = [] :=
    fun a ha => load_ids_cons_none sock (sock, a) [] ha (by simp)
  cases r with
  | config_create cfg =>
    simp only [service.handle, service.create_config]
    split <;> exact hsame _ hc (hone _ rfl)
  | config_load cfg =>
    have hkey : ∀ key,
        ∃ c', registry_find (s.load_config_key key sock).svc.config_clients_registry_ sock
            = some c' ∧
          ((c'.last_id_ = c.last_id_ ∧ (∀ p ∈ c'.config_ids_, p ∈ c.config_ids_) ∧
              load_ids sock (s.load_config_key key sock).out = []) ∨
           (c'.last_id_ = c.last_id_ + 1 ∧
              (∃ id, c'.config_ids_ = c.config_ids_ ++ [(c.last_id_ + 1, id)]) ∧
              load_ids sock (s.load_config_key key sock).out = [c.last_id_ + 1])) := by
      intro key
      unfold service.load_config_key
      rw [hc]
      simp only []
      split
      · split <;> exact hsame _ hc (hone _ rfl)
      · split
        · exact hsame _ hc (hone _ rfl)
        · refine ⟨_, registry_find_assign _ sock c _ hc, Or.inr ⟨rfl, ⟨_, rfl⟩, ?_⟩⟩
          simp [load_ids, reply, answer.load_id, client.insert_db_id]
    simp only [service.handle, service.load_config]
    split
    · exact hkey _
    · exact hkey _
    · exact hsame _ hc (hone _ rfl)
  | config_unload cfg =>
    simp only [service.handle, service.unload_config, hc]
    exact ⟨_, registry_find_assign _ sock c _ hc,
      Or.inl ⟨remove_temp_id_last c _, remove_temp_id_ids c _, hone _ rfl⟩⟩
  | config_include cfg =>
    simp only [service.handle, service.include_config, hc]
    split
    · exact hsame _ hc (hone _ rfl)
    · split <;> exact hsame _ hc (hone _ rfl)
  | setting_update cfg =>
    simp only [service.handle, service.update_setting, hc]
    split
    · exact hsame _ hc (hone _ rfl)
    · split
      · exact hsame _ hc (hone _ rfl)
      · split
        · exact hsame _ hc (hone _ rfl)
        · exact hsame _ hc (load_ids_cons_none sock _ _ rfl (update_events_all_events _ _ _))
  | setting_remove cfg =>
    simp only [service.handle, service.remove_setting, hc]
    split
    · exact hsame _ hc (hone _ rfl)
    · exact hsame _ hc (load_ids_cons_none sock _ _ rfl (remove_events_all_events _ _ _))
  | setting_get cfg =>
    simp only [service.handle, service.get_setting, hc]
    split
    · exact hsame _ hc (hone _ rfl)
    · split
      · exact hsame _ hc (hone _ rfl)
      · split
        · exact hsame _ hc (hone _ rfl)
        · split
          · exact hsame _ hc rfl
          · exact hsame _ hc (hone _ rfl)
  | config_get_settings cfg =>
    simp only [service.handle, service.get_all_settings, hc]
    split
    · exact hsame _ hc (hone _ rfl)
    · split <;> exact hsame _ hc (hone _ rfl)
  | config_get_settings_names cfg =>
    simp only [service.handle, service.get_settings_names, hc]
    split
    · exact hsame _ hc (hone _ rfl)
    · split <;> exact hsame _ hc (hone _ rfl)
  | alias_set cfg => exact hsame _ hc (hone _ rfl)
  | alias_unset cfg => exact hsame _ hc (hone _ rfl)
  | subscribe_setting cfg =>
    simp only [service.handle, service.subscribe_setting, hc]
    split
    · exact hsame _ hc (hone _ rfl)
    · split
      · refine ⟨_, registry_find_assign _ sock c _ hc, Or.inl ⟨(subscribe_last c _ _).1, ?_,
          hone _ rfl⟩⟩
        rw [(subscribe_last c _ _).2]
        exact fun p hp => hp
      · exact hsame _ hc (hone _ rfl)
  | unsubscribe_setting cfg =>
    simp only [service.handle, service.unsubscribe_setting, hc]
    split
    · exact hsame _ hc (hone _ rfl)
    · split
      · exact ⟨_, registry_find_assign _ sock c _ hc, Or.inl ⟨rfl, fun p hp => hp, hone _ rfl⟩⟩
      · exact hsame _ hc (hone _ rfl)


theorem update_events_recipients (registry : List (Nat × client)) (db_id : Nat)
    (items : List (String × json)) :
    ∀ w ∈ update_events registry db_id items,
      w.2.is_event = true ∧
      ∃ e ∈ registry, ∃ n, e.2.is_subscribed db_id n = true ∧ w.1 = e.2.get_socket := by
  intro w hw
  refine ⟨update_events_all_events _ _ _ w hw, ?_⟩
  unfold update_events at hw
  simp only [List.mem_flatMap] at hw
  obtain ⟨e, he, kv, _, hw⟩ := hw
  split at hw
  · next hsub =>
    simp only [List.mem_singleton] at hw
    exact ⟨e, he, kv.1, hsub, by rw [hw]⟩
  · cases hw

theorem remove_events_recipients (registry : List (Nat × client)) (db_id : Nat)
    (name : String) :
    ∀ w ∈ remove_events registry db_id name,
      w.2.is_event = true ∧
      ∃ e ∈ registry, ∃ n, e.2.is_subscribed db_id n = true ∧ w.1 = e.2.get_socket := by
  intro w hw
  refine ⟨remove_events_all_events _ _ _ w hw, ?_⟩
  unfold remove_events at hw
  simp only [List.mem_flatMap] at hw
  obtain ⟨e, he, hw⟩ := hw
  split at hw
  · next hsub =>
    simp only [List.mem_singleton] at hw
    exact ⟨e, he, name, hsub, by rw [hw]⟩
  · cases hw

/-- The frames of a handler: none, or one frame that is not an event, written to the socket
of the request, followed by events, each written to the socket of a session of the registry
that has a subscription. -/
theorem handle_out_shape (s : service) (r : request) (sock : Nat)
    (random_string : Nat → String) (hash : String → Nat) :
    (s.handle r sock random_string hash).out = [] ∨
    ∃ a rest, (s.handle r sock random_string hash).out = (sock, a) :: rest ∧
      a.is_event = false ∧
      ∀ w ∈ rest, w.2.is_event = true ∧
        ∃ e ∈ s.config_clients_registry_, ∃ db n,
          e.2.is_subscribed db n = true ∧ w.1 = e.2.get_socket := by
  cases hreg : registry_find s.config_clients_registry_ sock with
  | none =>
    cases r with
    | config_create cfg =>
      simp only [service.handle, service.create_config]
      split <;> exact Or.inr ⟨_, [], rfl, rfl, by simp⟩
    | config_load cfg =>
      simp only [service.handle, service.load_config, service.load_config_key, hreg]
      split
      · split
        · split <;> exact Or.inr ⟨_, [], rfl, rfl, by simp⟩
        · split
          · exact Or.inr ⟨_, [], rfl, rfl, by simp⟩
          · exact Or.inl rfl
      · split
        · split <;> exact Or.inr ⟨_, [], rfl, rfl, by simp⟩
        · split
          · exact Or.inr ⟨_, [], rfl, rfl, by simp⟩
          · exact Or.inl rfl
      · exact Or.inr ⟨_, [], rfl, rfl, by simp⟩
    | config_unload cfg =>
      simp only [service.handle, service.unload_config, hreg]
      exact Or.inl trivial
    | config_include cfg =>
      simp only [service.handle, service.include_config, hreg]
      exact Or.inl trivial
    | setting_update cfg =>
      simp only [service.handle, service.update_setting, hreg]
      exact Or.inl trivial
    | setting_remove cfg =>
      simp only [service.handle, service.remove_setting, hreg]
      exact Or.inr ⟨_, [], rfl, rfl, by simp⟩
    | setting_get cfg =>
      simp only [service.handle, service.get_setting, hreg]
      exact Or.inl trivial
    | config_get_settings cfg =>
      simp only [service.handle, service.get_all_settings, hreg]
      exact Or.inl trivial
    | config_get_settings_names cfg =>
      simp only [service.handle, service.get_settings_names, hreg]
      exact Or.inl trivial
    | alias_set cfg => exact Or.inr ⟨_, [], rfl, rfl, by simp⟩
    | alias_unset cfg => exact Or.inr ⟨_, [], rfl, rfl, by simp⟩
    | subscribe_setting cfg =>
      simp only [service.handle, service.subscribe_setting, hreg]
      exact Or.inl trivial
    | unsubscribe_setting cfg =>
      simp only [service.handle, service.unsubscribe_setting, hreg]
      exact Or.inl trivial
  | some c =>
    cases r with
    | setting_update cfg =>
      simp only [service.handle, service.update_setting, hreg]
      split
      · exact Or.inr ⟨_, [], rfl, rfl, by simp⟩
      · split
        · exact Or.inr ⟨_, [], rfl, rfl, by simp⟩
        · split
          · exact Or.inr ⟨_, [], rfl, rfl, by simp⟩
          · refine Or.inr ⟨_, _, rfl, rfl, ?_⟩
            intro w hw
            obtain ⟨h1, e, he, n, h2, h3⟩ := update_events_recipients _ _ _ w hw
            exact ⟨h1, e, he, _, n, h2, h3⟩
    | setting_remove cfg =>
      simp only [service.handle, service.remove_setting, hreg]
      split
      · exact Or.inr ⟨_, [], rfl, rfl, by simp⟩
      · refine Or.inr ⟨_, _, rfl, rfl, ?_⟩
        intro w hw
        obtain ⟨h1, e, he, n, h2, h3⟩ := remove_events_recipients _ _ _ w hw
        exact ⟨h1, e, he, _, n, h2, h3⟩
    | config_create cfg =>
      simp only [service.handle, service.create_config]
      split <;> exact Or.inr ⟨_, [], rfl, rfl, by simp⟩
    | config_load cfg =>
      simp only [service.handle, service.load_config, service.load_config_key, hreg]
      split
      · split
        · split <;> exact Or.inr ⟨_, [], rfl, rfl, by simp⟩
        · split <;> exact Or.inr ⟨_, [], rfl, rfl, by simp⟩
      · split
        · split <;> exact Or.inr ⟨_, [], rfl, rfl, by simp⟩
        · split <;> exact Or.inr ⟨_, [], rfl, rfl, by simp⟩
      · exact Or.inr ⟨_, [], rfl, rfl, by simp⟩
    | config_unload cfg =>
      simp only [service.handle, service.unload_config, hreg]
      exact Or.inr ⟨_, [], rfl, rfl, by simp⟩
    | config_include cfg =>
      simp only [service.handle, service.include_config, hreg]
      split
      · exact Or.inr ⟨_, [], rfl, rfl, by simp⟩
      · split <;> exact Or.inr ⟨_, [], rfl, rfl, by simp⟩
    | setting_get cfg =>
      simp only [service.handle, service.get_setting, hreg]
      split
      · exact Or.inr ⟨_, [], rfl, rfl, by simp⟩
      · split
        · exact Or.inr ⟨_, [], rfl, rfl, by simp⟩
        · split
          · exact Or.inr ⟨_, [], rfl, rfl, by simp⟩
          · split
            · exact Or.inl rfl
            · exact Or.inr ⟨_, [], rfl, rfl, by simp⟩
    | config_get_settings cfg =>
      simp only [service.handle, service.get_all_settings, hreg]
      split
      · exact Or.inr ⟨_, [], rfl, rfl, by simp⟩
      · split <;> exact Or.inr ⟨_, [], rfl, rfl, by simp⟩
    | config_get_settings_names cfg =>
      simp only [service.handle, service.get_settings_names, hreg]
      split
      · exact Or.inr ⟨_, [], rfl, rfl, by simp⟩
      · split <;> exact Or.inr ⟨_, [], rfl, rfl, by simp⟩
    | alias_set cfg => exact Or.inr ⟨_, [], rfl, rfl, by simp⟩
    | alias_unset cfg => exact Or.inr ⟨_, [], rfl, rfl, by simp⟩
    | subscribe_setting cfg =>
      simp only [service.handle, service.subscribe_setting, hreg]
      split
      · exact Or.inr ⟨_, [], rfl, rfl, by simp⟩
      · split <;> exact Or.inr ⟨_, [], rfl, rfl, by simp⟩
    | unsubscribe_setting cfg =>
      simp only [service.handle, service.unsubscribe_setting, hreg]
      split
      · exact Or.inr ⟨_, [], rfl, rfl, by simp⟩
      · split <;> exact Or.inr ⟨_, [], rfl, rfl, by simp⟩


theorem handle_registry (s : service) (r : request) (sock : Nat)
    (random_string : Nat → String) (hash : String → Nat) :
    (s.handle r sock random_string hash).svc.config_clients_registry_
        = s.config_clients_registry_ ∨
    ∃ c1, (s.handle r sock random_string hash).svc.config_clients_registry_
        = registry_assign s.config_clients_registry_ sock c1 := by
  cases r with
  | config_create cfg => exact Or.inl (create_config_effect s cfg sock random_string hash).1
  | config_load cfg =>
    simp only [service.handle, service.load_config, service.load_config_key]
    split
    · split
      · split <;> exact Or.inl rfl
      · split
        · exact Or.inl rfl
        · split
          · exact Or.inl rfl
          · exact Or.inr ⟨_, rfl⟩
    · split
      · split <;> exact Or.inl rfl
      · split
        · exact Or.inl rfl
        · split
          · exact Or.inl rfl
          · exact Or.inr ⟨_, rfl⟩
    · exact Or.inl rfl
  | config_unload cfg =>
    simp only [service.handle, service.unload_config]
    split
    · exact Or.inl rfl
    · exact Or.inr ⟨_, rfl⟩
  | config_include cfg => exact Or.inl (include_config_table s cfg sock).2
  | setting_update cfg => exact Or.inl (update_setting_effect s cfg sock).1
  | setting_remove cfg =>
    exact Or.inl (congrArg service.config_clients_registry_ (remove_setting_svc s cfg sock))
  | setting_get cfg => exact Or.inl (get_setting_table s cfg sock).2
  | config_get_settings cfg => exact Or.inl (get_all_settings_table s cfg sock).2
  | config_get_settings_names cfg => exact Or.inl (get_settings_names_table s cfg sock).2
  | alias_set cfg => exact Or.inl rfl
  | alias_unset cfg => exact Or.inl rfl
  | subscribe_setting cfg =>
    simp only [service.handle, service.subscribe_setting]
    split
    · exact Or.inl rfl
    · split
      · exact Or.inl rfl
      · split
        · exact Or.inr ⟨_, rfl⟩
        · exact Or.inl rfl
  | unsubscribe_setting cfg =>
    simp only [service.handle, service.unsubscribe_setting]
    split
    · exact Or.inl rfl
    · split
      · exact Or.inl rfl
      · split
        · exact Or.inr ⟨_, rfl⟩
        · exact Or.inl rfl

theorem registry_find_assign_other (registry : List (Nat × client)) (fileno fd : Nat)
    (c : client) (h : fd ≠ fileno) :
    registry_find (registry_assign registry fileno c) fd = registry_find registry fd := by
  induction registry with
  | nil => rfl
  | cons e rest ih =>
    obtain ⟨k, c0⟩ := e
    simp only [registry_assign, List.map_cons] at ih ⊢
    by_cases hk : k = fileno
    · rw [if_pos hk]
      simp only [registry_find]
      have hne : ¬ k = fd := fun e => h (e.symm.trans hk)
      rw [if_neg hne, if_neg hne]
      exact ih
    · rw [if_neg hk]
      simp only [registry_find]
      by_cases hkf : k = fd
      · rw [if_pos hkf, if_pos hkf]
      · rw [if_neg hkf, if_neg hkf]
        exact ih

theorem registry_assign_keys (registry : List (Nat × client)) (fileno : Nat) (c : client) :
    (registry_assign registry fileno c).map Prod.fst = registry.map Prod.fst := by
  unfold registry_assign
  rw [List.map_map]
  apply List.map_congr_left
  intro e _
  simp only [Function.comp]
  split <;> rfl

theorem registry_find_eq_none_iff (registry : List (Nat × client)) (fileno : Nat) :
    registry_find registry fileno = none ↔ fileno ∉ registry.map Prod.fst := by
  induction registry with
  | nil => simp [registry_find]
  | cons e rest ih =>
    obtain ⟨k, c0⟩ := e
    simp only [registry_find, List.map_cons, List.mem_cons, not_or]
    by_cases hk : k = fileno
    · simp [hk]
    · rw [if_neg hk, ih]
      exact ⟨fun h => ⟨fun e => hk e.symm, h⟩, fun h => h.2⟩

/-- What the `try` block of the listener is: the handler of a request, or an exception
raised before a handler runs, with the service as it was and no frame. -/
theorem try_data_cases (s : service) (data : Option json) (sock : Nat)
    (random_string : Nat → String) (hash : String → Nat) :
    (∃ r, s.try_data data sock random_string hash = s.handle r sock random_string hash) ∨
    ∃ e, s.try_data data sock random_string hash = { svc := s, out := [], thrown := some e } := by
  cases data with
  | none => exact Or.inr ⟨_, rfl⟩
  | some json_data =>
    rw [try_data_handle]
    cases hn : (json_data.at "REQUEST_NAME").bind json.get_string with
    | error e => exact Or.inr ⟨_, rfl⟩
    | ok command_order =>
      simp only []
      cases hp : parse_request command_order json_data with
      | none => exact Or.inr ⟨_, rfl⟩
      | some pr =>
        cases pr with
        | error e => exact Or.inr ⟨_, rfl⟩
        | ok r => exact Or.inl ⟨r, rfl⟩

/-- What the listener adds to its `try` block: nothing when no exception left it, and
otherwise one frame, UNKNOWN_REQUEST or INTERNAL_ERROR, written to the socket of the chunk. -/
theorem on_data_of_try (s : service) (data : Option json) (sock : Nat)
    (random_string : Nat → String) (hash : String → Nat) :
    (s.on_data data sock random_string hash).svc
      = (s.try_data data sock random_string hash).svc ∧
    (((s.try_data data sock random_string hash).thrown = none ∧
        (s.on_data data sock random_string hash).out
          = (s.try_data data sock random_string hash).out) ∨
      ((s.try_data data sock random_string hash).thrown ≠ none ∧
        ∃ st, (s.on_data data sock random_string hash).out
          = (s.try_data data sock random_string hash).out ++ [(sock, .state st)])) := by
  refine ⟨on_data_svc s data sock random_string hash, ?_⟩
  unfold service.on_data
  simp only []
  split
  · next h => exact Or.inl ⟨h, rfl⟩
  · next h => exact Or.inr ⟨by rw [h]; simp, _, rfl⟩
  · next e _ h => exact Or.inr ⟨by rw [h]; simp, _, rfl⟩

/-! ## The frames and the sessions after an event -/

theorem load_ids_append (sock : Nat) (l1 l2 : List (Nat × answer)) :
    load_ids sock (l1 ++ l2) = load_ids sock l1 ++ load_ids sock l2 := by
  unfold load_ids
  exact List.filterMap_append _ _ _

theorem load_ids_eq_nil (sock : Nat) (l : List (Nat × answer))
    (h : ∀ w ∈ l, w.1 ≠ sock ∨ w.2.load_id = none) : load_ids sock l = [] := by
  unfold load_ids
  rw [List.filterMap_eq_nil_iff]
  intro w hw
  split
  · next heq =>
    rcases h w hw with h1 | h1
    · exact absurd heq h1
    · exact h1
  · rfl

theorem load_ids_state (sock fd : Nat) (st : String) :
    load_ids sock [(fd, answer.state st)] = [] :=
  load_ids_eq_nil sock _ (fun w hw => by
    simp only [List.mem_singleton] at hw
    rw [hw]
    exact Or.inr rfl)

theorem on_data_frames (s : service) (data : Option json) (sock : Nat)
    (random_string : Nat → String) (hash : String → Nat) :
    ∀ w ∈ (s.on_data data sock random_string hash).out,
      (w.2.is_event = false ∧ w.1 = sock) ∨
      (w.2.is_event = true ∧
        ∃ e ∈ s.config_clients_registry_, ∃ db n,
          e.2.is_subscribed db n = true ∧ w.1 = e.2.get_socket) := by
  have htry : ∀ w ∈ (s.try_data data sock random_string hash).out,
      (w.2.is_event = false ∧ w.1 = sock) ∨
      (w.2.is_event = true ∧
        ∃ e ∈ s.config_clients_registry_, ∃ db n,
          e.2.is_subscribed db n = true ∧ w.1 = e.2.get_socket) := by
    intro w hw
    rcases try_data_cases s data sock random_string hash with ⟨r, hr⟩ | ⟨e, he⟩
    · rw [hr] at hw
      rcases handle_out_shape s r sock random_string hash with h | ⟨a, rest, h, ha, hrest⟩
      · rw [h] at hw; cases hw
      · rw [h] at hw
        simp only [List.mem_cons] at hw
        rcases hw with hw | hw
        · rw [hw]; exact Or.inl ⟨ha, rfl⟩
        · exact Or.inr (hrest w hw)
    · rw [he] at hw; cases hw
  intro w hw
  rcases (on_data_of_try s data sock random_string hash).2 with ⟨_, h⟩ | ⟨_, st, h⟩
  · rw [h] at hw
    exact htry w hw
  · rw [h] at hw
    simp only [List.mem_append, List.mem_singleton] at hw
    rcases hw with hw | hw
    · exact htry w hw
    · rw [hw]; exact Or.inl ⟨rfl, rfl⟩

/-- On a registered connection the listener writes, for a chunk, one frame that is not an
event to the socket of the chunk, first, and events after it. -/
theorem on_data_responds (s : service) (data : Option json) (sock : Nat)
    (random_string : Nat → String) (hash : String → Nat) (c : client)
    (hc : registry_find s.config_clients_registry_ sock = some c) :
    ∃ a rest, (s.on_data data sock random_string hash).out = (sock, a) :: rest ∧
      a.is_event = false ∧ ∀ w ∈ rest, w.2.is_event = true := by
  rcases try_data_cases s data sock random_string hash with ⟨r, hr⟩ | ⟨e, he⟩
  · rcases handle_responds s r sock random_string hash c hc with
      ⟨hnone, a, rest, hout, ha, hrest⟩ | ⟨hsome, hout⟩
    · rcases (on_data_of_try s data sock random_string hash).2 with ⟨_, h⟩ | ⟨hne, _⟩
      · exact ⟨a, rest, by rw [h, hr, hout], ha, hrest⟩
      · rw [hr] at hne
        exact absurd hnone hne
    · rcases (on_data_of_try s data sock random_string hash).2 with ⟨hn, _⟩ | ⟨_, st, h⟩
      · rw [hr] at hn
        exact absurd hn hsome
      · exact ⟨.state st, [], by rw [h, hr, hout]; rfl, rfl, by simp⟩
  · rcases (on_data_of_try s data sock random_string hash).2 with ⟨hn, _⟩ | ⟨_, st, h⟩
    · rw [he] at hn
      cases hn
    · exact ⟨.state st, [], by rw [h, he]; rfl, rfl, by simp⟩

theorem on_data_session (s : service) (data : Option json) (sock : Nat)
    (random_string : Nat → String) (hash : String → Nat) (c : client)
    (hc : registry_find s.config_clients_registry_ sock = some c) :
    ∃ c', registry_find (s.on_data data sock random_string hash).svc.config_clients_registry_
        sock = some c' ∧
      ((c'.last_id_ = c.last_id_ ∧ (∀ p ∈ c'.config_ids_, p ∈ c.config_ids_) ∧
          load_ids sock (s.on_data data sock random_string hash).out = []) ∨
       (c'.last_id_ = c.last_id_ + 1 ∧
          (∃ id, c'.config_ids_ = c.config_ids_ ++ [(c.last_id_ + 1, id)]) ∧
          load_ids sock (s.on_data data sock random_string hash).out = [c.last_id_ + 1])) := by
  obtain ⟨hsvc, hout⟩ := on_data_of_try s data sock random_string hash
  have hload : load_ids sock (s.on_data data sock random_string hash).out
      = load_ids sock (s.try_data data sock random_string hash).out := by
    rcases hout with ⟨_, h⟩ | ⟨_, st, h⟩
    · rw [h]
    · rw [h, load_ids_append, load_ids_state, List.append_nil]
  rw [hsvc, hload]
  rcases try_data_cases s data sock random_string hash with ⟨r, hr⟩ | ⟨e, he⟩
  · rw [hr]
    exact handle_session s r sock random_string hash c hc
  · rw [he]
    exact ⟨c, hc, Or.inl ⟨rfl, fun p hp => hp, rfl⟩⟩

theorem on_data_registry (s : service) (data : Option json) (sock : Nat)
    (random_string : Nat → String) (hash : String → Nat) :
    (s.on_data data sock random_string hash).svc.config_clients_registry_
        = s.config_clients_registry_ ∨
    ∃ c1, (s.on_data data sock random_string hash).svc.config_clients_registry_
        = registry_assign s.config_clients_registry_ sock c1 := by
  rw [on_data_svc]
  rcases try_data_cases s data sock random_string hash with ⟨r, hr⟩ | ⟨e, he⟩
  · rw [hr]
    exact handle_registry s r sock random_string hash
  · rw [he]
    exact Or.inl rfl

theorem on_data_other (s : service) (data : Option json) (sock fd : Nat)
    (random_string : Nat → String) (hash : String → Nat) (h : fd ≠ sock) :
    registry_find (s.on_data data sock random_string hash).svc.config_clients_registry_ fd
      = registry_find s.config_clients_registry_ fd ∧
    load_ids fd (s.on_data data sock random_string hash).out = [] := by
  constructor
  · rcases on_data_registry s data sock random_string hash with hreg | ⟨c1, hreg⟩
    · rw [hreg]
    · rw [hreg]
      exact registry_find_assign_other _ _ _ _ h
  · apply load_ids_eq_nil
    intro w hw
    rcases on_data_frames s data sock random_string hash w hw with ⟨_, h1⟩ | ⟨h1, _⟩
    · left
      rw [h1]
      exact fun e => h e.symm
    · right
      exact load_id_event _ h1

theorem registry_find_append (registry l : List (Nat × client)) (fileno : Nat) (c : client)
    (h : registry_find registry fileno = some c) :
    registry_find (registry ++ l) fileno = some c := by
  induction registry with
  | nil => cases h
  | cons e rest ih =>
    obtain ⟨k, c0⟩ := e
    simp only [List.cons_append, registry_find] at h ⊢
    split
    · next hk => rw [if_pos hk] at h; exact h
    · next hk => rw [if_neg hk] at h; exact ih h

theorem registry_find_filter_other (registry : List (Nat × client)) (fileno fd : Nat)
    (h : fd ≠ fileno) :
    registry_find (registry.filter (fun e => !decide (e.1 = fileno))) fd
      = registry_find registry fd := by
  induction registry with
  | nil => rfl
  | cons e rest ih =>
    obtain ⟨k, c0⟩ := e
    by_cases hk : k = fileno
    · have hkf : ¬ k = fd := fun e => h (e.symm.trans hk)
      simp only [List.filter_cons, hk, decide_True, Bool.not_true, Bool.false_eq_true, if_false]
      rw [ih]
      have hkf' : ¬ fileno = fd := fun e => h e.symm
      simp only [registry_find]
      rw [if_neg hkf']
    · simp only [List.filter_cons, hk, decide_False, Bool.not_false, if_true, registry_find]
      split
      · rfl
      · exact ih

/-- The session of a connection after an event that is not the end of the connection. -/
theorem step_session (s : service) (ev : event) (sock : Nat) (c : client)
    (hc : registry_find s.config_clients_registry_ sock = some c)
    (hend : ev.ends sock = false) :
    ∃ c', registry_find (s.step ev).svc.config_clients_registry_ sock = some c' ∧
      ((c'.last_id_ = c.last_id_ ∧ (∀ p ∈ c'.config_ids_, p ∈ c.config_ids_) ∧
          load_ids sock (s.step ev).out = []) ∨
       (c'.last_id_ = c.last_id_ + 1 ∧
          (∃ id, c'.config_ids_ = c.config_ids_ ++ [(c.last_id_ + 1, id)]) ∧
          load_ids sock (s.step ev).out = [c.last_id_ + 1])) := by
  cases ev with
  | accept fileno =>
    refine ⟨c, ?_, Or.inl ⟨rfl, fun p hp => hp, rfl⟩⟩
    simp only [service.step, service.accept]
    split
    · exact hc
    · exact registry_find_append _ _ _ _ hc
  | end_event fileno =>
    refine ⟨c, ?_, Or.inl ⟨rfl, fun p hp => hp, rfl⟩⟩
    simp only [event.ends, decide_eq_false_iff_not] at hend
    simp only [service.step, service.end_event]
    rw [registry_find_filter_other _ _ _ (fun e => hend e.symm)]
    exact hc
  | data data fd random_string hash =>
    simp only [service.step]
    by_cases hfd : fd = sock
    · rw [hfd]
      exact on_data_session s data sock random_string hash c hc
    · obtain ⟨h1, h2⟩ := on_data_other s data fd sock random_string hash (fun e => hfd e.symm)
      exact ⟨c, by rw [h1]; exact hc, Or.inl ⟨rfl, fun p hp => hp, h2⟩⟩


/-! ## The temp-ids of a session -/

theorem state_of_to_json (a : answer) (st : String) (h : a.state_of = some st) :
    a.to_json.at "REQUEST_STATE" = .ok (.string st) := by
  cases a with
  | subscribe_event id n ty => cases h
  | state s =>
    simp only [answer.state_of, Option.some.injEq] at h
    rw [← h]
    simp [answer.to_json, json.at, object_find]
  | config_create_answer k ro s =>
    simp only [answer.state_of, Option.some.injEq] at h
    rw [← h]
    simp [answer.to_json, json.at, object_find]
  | config_load_answer name id s =>
    simp only [answer.state_of, Option.some.injEq] at h
    rw [← h]
    simp [answer.to_json, json.at, object_find]
  | setting_get_answer v s =>
    simp only [answer.state_of, Option.some.injEq] at h
    rw [← h]
    simp [answer.to_json, json.at, object_find]
  | config_get_settings_names_answer names s =>
    simp only [answer.state_of, Option.some.injEq] at h
    rw [← h]
    simp [answer.to_json, json.at, object_find]
  | config_get_settings_answer settings s =>
    simp only [answer.state_of, Option.some.injEq] at h
    rw [← h]
    simp [answer.to_json, json.at, object_find]

theorem event_to_json (a : answer) (h : a.is_event = true) :
    a.to_json.at "REQUEST_STATE" = .error .json_out_of_range := by
  cases a with
  | subscribe_event id n ty => cases ty <;> simp [answer.to_json, json.at, object_find]
  | state s => simp [answer.is_event] at h
  | config_create_answer k ro s => simp [answer.is_event] at h
  | config_load_answer name id s => simp [answer.is_event] at h
  | setting_get_answer v s => simp [answer.is_event] at h
  | config_get_settings_names_answer names s => simp [answer.is_event] at h
  | config_get_settings_answer settings s => simp [answer.is_event] at h

theorem state_of_not_event (a : answer) (h : a.is_event = false) :
    ∃ st, a.state_of = some st := by
  cases a with
  | subscribe_event id n ty => simp [answer.is_event] at h
  | state s => exact ⟨_, rfl⟩
  | config_create_answer k ro s => exact ⟨_, rfl⟩
  | config_load_answer name id s => exact ⟨_, rfl⟩
  | setting_get_answer v s => exact ⟨_, rfl⟩
  | config_get_settings_names_answer names s => exact ⟨_, rfl⟩
  | config_get_settings_answer settings s => exact ⟨_, rfl⟩

theorem run_eq_trace (evs : List event) :
    ∀ s : service, (s.run evs).2 = (s.trace evs).flatMap Prod.snd ∧
      (s.trace evs).map Prod.fst = evs := by
  induction evs with
  | nil => intro s; exact ⟨rfl, rfl⟩
  | cons ev rest ih =>
    intro s
    obtain ⟨h1, h2⟩ := ih (s.step ev).svc
    constructor
    · simp only [service.run, service.trace, List.flatMap_cons]
      rw [h1]
    · simp only [service.trace, List.map_cons]
      rw [h2]

/-- C24: on a registered connection, through any events that do not end it, the frames
of the run are those written event by event, in order; while the listener runs for a chunk of
the connection, the first frame written is written to the connection and has the member
`REQUEST_STATE`, and the frames after it are subscription events, which have no such
member; and while another event is handled, every frame written to the connection is a
subscription event. -/
theorem one_response_per_chunk (s : service) (sock : Nat) (c : client) (evs : List event)
    (hc : registry_find s.config_clients_registry_ sock = some c)
    (hend : ∀ ev ∈ evs, ev.ends sock = false) :
    (s.run evs).2 = (s.trace evs).flatMap Prod.snd ∧
    (s.trace evs).map Prod.fst = evs ∧
    ∀ p ∈ s.trace evs,
      (p.1.is_data_on sock = true →
        ∃ a rest st, p.2 = (sock, a) :: rest ∧
          a.to_json.at "REQUEST_STATE" = .ok (.string st) ∧
          ∀ w ∈ rest, w.2.is_event = true ∧
            w.2.to_json.at "REQUEST_STATE" = .error .json_out_of_range) ∧
      (p.1.is_data_on sock = false →
        ∀ w ∈ p.2, w.1 = sock →
          w.2.is_event = true ∧
            w.2.to_json.at "REQUEST_STATE" = .error .json_out_of_range) := by
  refine ⟨(run_eq_trace evs s).1, (run_eq_trace evs s).2, ?_⟩
  induction evs generalizing s c with
  | nil => intro p hp; cases hp
  | cons ev rest ih =>
    intro p hp
    simp only [service.trace, List.mem_cons] at hp
    rcases hp with hp | hp
    · rw [hp]
      simp only []
      cases ev with
      | accept fileno =>
        refine ⟨fun h => by simp [event.is_data_on] at h, fun _ w hw => ?_⟩
        simp [service.step] at hw
      | end_event fileno =>
        refine ⟨fun h => by simp [event.is_data_on] at h, fun _ w hw => ?_⟩
        simp [service.step] at hw
      | data data fd random_string hash =>
        constructor
        · intro h
          simp only [event.is_data_on, decide_eq_true_eq] at h
          rw [h]
          simp only [service.step]
          obtain ⟨a, rest', hout, ha, hrest⟩ :=
            on_data_responds s data sock random_string hash c hc
          obtain ⟨st, hst⟩ := state_of_not_event a ha
          exact ⟨a, rest', st, hout, state_of_to_json a st hst,
            fun w hw => ⟨hrest w hw, event_to_json _ (hrest w hw)⟩⟩
        · intro h w hw hw1
          simp only [event.is_data_on, decide_eq_false_iff_not] at h
          simp only [service.step] at hw
          rcases on_data_frames s data fd random_string hash w hw with ⟨_, h1⟩ | ⟨h1, _⟩
          · exact absurd (h1.symm.trans hw1) h
          · exact ⟨h1, event_to_json _ h1⟩
    · obtain ⟨c1, hc1, _⟩ := step_session s ev sock c hc (hend ev (List.mem_cons_self _ _))
      exact ih (s.step ev).svc c1 hc1 (fun e he => hend e (List.mem_cons_of_mem _ he)) p hp

/-- Witness for C24: connection 5 of the new service sends three chunks, CONFIG_CREATE,
CONFIG_LOAD and a SETTING_GET of a setting that is not stored; three frames are written, one
while each chunk is handled. -/
theorem one_response_per_chunk_witness :
    ((service.init.accept 5).run
        [chunk frame_create, chunk (frame_load "07"), chunk (frame_get "toto")]).2
      = [(5, .config_create_answer "07" "17" "SUCCESS"),
         (5, .config_load_answer "ma_config" 1 "SUCCESS"), (5, .state "UNKNOWN_SETTING")] ∧
    ((service.init.accept 5).trace
        [chunk frame_create, chunk (frame_load "07"), chunk (frame_get "toto")]).map Prod.snd
      = [[(5, .config_create_answer "07" "17" "SUCCESS")],
         [(5, .config_load_answer "ma_config" 1 "SUCCESS")], [(5, .state "UNKNOWN_SETTING")]] ∧
    ((service.init.accept 5).run
        [chunk frame_create, chunk (frame_load "07"), chunk (frame_get "toto")]).2
      = ((service.init.accept 5).trace
          [chunk frame_create, chunk (frame_load "07"), chunk (frame_get "toto")]).flatMap
        Prod.snd :=
  ⟨by decide, by decide,
   (one_response_per_chunk (service.init.accept 5) 5 (client.init 5)
      [chunk frame_create, chunk (frame_load "07"), chunk (frame_get "toto")]
      (by decide) (by decide)).1⟩

/-! ## The end of a connection -/

theorem step_wf (s : service) (ev : event) (hwf : s.wf) : (s.step ev).svc.wf := by
  cases ev with
  | accept fileno => exact accept_wf s fileno hwf
  | end_event fileno => exact end_event_wf s fileno hwf
  | data data sock random_string hash => exact on_data_wf s data sock random_string hash hwf

theorem step_unregistered (s : service) (ev : event) (fileno : Nat) (hwf : s.wf)
    (hnone : registry_find s.config_clients_registry_ fileno = none)
    (hacc : ev.accepts fileno = false) :
    registry_find (s.step ev).svc.config_clients_registry_ fileno = none ∧
    ∀ w ∈ (s.step ev).out, w.1 = fileno → w.2.is_event = false := by
  have hkeys := (registry_find_eq_none_iff _ _).1 hnone
  cases ev with
  | accept fd =>
    simp only [event.accepts, decide_eq_false_iff_not] at hacc
    refine ⟨?_, fun w hw => by simp [service.step] at hw⟩
    simp only [service.step, service.accept]
    split
    · exact hnone
    · rw [registry_find_eq_none_iff]
      simp only [List.map_append, List.map_cons, List.map_nil, List.mem_append,
        List.mem_singleton, not_or]
      exact ⟨hkeys, fun e => hacc e.symm⟩
  | end_event fd =>
    refine ⟨?_, fun w hw => by simp [service.step] at hw⟩
    simp only [service.step, service.end_event]
    rw [registry_find_eq_none_iff]
    intro hmem
    apply hkeys
    simp only [List.mem_map] at hmem ⊢
    obtain ⟨e, he, hef⟩ := hmem
    exact ⟨e, (List.mem_filter.1 he).1, hef⟩
  | data data sock random_string hash =>
    simp only [service.step]
    constructor
    · rw [registry_find_eq_none_iff]
      rcases on_data_registry s data sock random_string hash with h | ⟨c1, h⟩
      · rw [h]; exact hkeys
      · rw [h, registry_assign_keys]; exact hkeys
    · intro w hw hw1
      rcases on_data_frames s data sock random_string hash w hw with ⟨h1, _⟩ | ⟨_, e, he, _, _, _, h2⟩
      · exact h1
      · exfalso
        apply hkeys
        have hsock := hwf.2.1 e he
        exact List.mem_map.2 ⟨e, he, by rw [← hsock, ← h2, hw1]⟩

theorem run_unregistered (fileno : Nat) (evs : List event) :
    ∀ s : service, s.wf → registry_find s.config_clients_registry_ fileno = none →
      (∀ ev ∈ evs, ev.accepts fileno = false) →
      registry_find (s.run evs).1.config_clients_registry_ fileno = none ∧
      ∀ w ∈ (s.run evs).2, w.1 = fileno → w.2.is_event = false := by
  induction evs with
  | nil =>
    intro s _ hnone _
    exact ⟨hnone, fun w hw => by cases hw⟩
  | cons ev rest ih =>
    intro s hwf hnone hacc
    obtain ⟨h1, h2⟩ := step_unregistered s ev fileno hwf hnone (hacc ev (List.mem_cons_self _ _))
    obtain ⟨h3, h4⟩ := ih (s.step ev).svc (step_wf s ev hwf) h1
      (fun e he => hacc e (List.mem_cons_of_mem _ he))
    refine ⟨h3, ?_⟩
    intro w hw hw1
    simp only [service.run, List.mem_append] at hw
    rcases hw with hw | hw
    · exact h2 w hw hw1
    · exact h4 w hw hw1

theorem registry_find_filter_self (registry : List (Nat × client)) (fileno : Nat) :
    registry_find (registry.filter (fun e => !decide (e.1 = fileno))) fileno = none := by
  rw [registry_find_eq_none_iff]
  intro hmem
  simp only [List.mem_map] at hmem
  obtain ⟨e, he, hef⟩ := hmem
  have := (List.mem_filter.1 he).2
  simp [hef] at this

/-- C23: in a reachable state, the end-event listener of a connection erases its entry from
the registry, the session with its temp-ids and subscriptions, and leaves the sessions of the
other connections and the store as they are; and through any events that follow, as long as
no connection with the same descriptor is accepted, the descriptor stays out of the registry
and no subscription event is written to it. -/
theorem end_event_tears_down (s : service) (fileno : Nat) (evs : List event)
    (hr : reachable s) (hacc : ∀ ev ∈ evs, ev.accepts fileno = false) :
    registry_find (s.end_event fileno).config_clients_registry_ fileno = none ∧
    (∀ fd, fd ≠ fileno →
      registry_find (s.end_event fileno).config_clients_registry_ fd
        = registry_find s.config_clients_registry_ fd) ∧
    (s.end_event fileno).db_ = s.db_ ∧
    registry_find ((s.end_event fileno).run evs).1.config_clients_registry_ fileno = none ∧
    ∀ w ∈ ((s.end_event fileno).run evs).2, w.1 = fileno → w.2.is_event = false := by
  have hnone : registry_find (s.end_event fileno).config_clients_registry_ fileno = none :=
    registry_find_filter_self _ _
  have hwf : (s.end_event fileno).wf := end_event_wf s fileno (reachable_wf s hr)
  obtain ⟨h1, h2⟩ := run_unregistered fileno evs (s.end_event fileno) hwf hnone hacc
  refine ⟨hnone, ?_, rfl, h1, h2⟩
  intro fd hfd
  exact registry_find_filter_other _ _ _ hfd

set_option maxRecDepth 8000

/-- Witness for C23: connection 5 is subscribed to `titi` of `ma_config` and connection 6
has loaded the configuration; after the end of connection 5, the SETTING_UPDATE of `titi` by
connection 6 writes the SUCCESS reply only, whereas before the end it also writes the event
to connection 5. -/
theorem end_event_tears_down_witness :
    fixture_two_sessions_end = fixture_two_clients ∧
    (fixture_two_sessions_end.step (chunk_on 6 (frame_update [("titi", .string "2")]))).out
      = [(6, .state "SUCCESS"), (5, .subscribe_event 1 "titi" .update_setting)] ∧
    ((fixture_two_sessions_end.end_event 5).run
        [chunk_on 6 (frame_update [("titi", .string "2")])]).2 = [(6, .state "SUCCESS")] ∧
    (∀ w ∈ ((fixture_two_sessions_end.end_event 5).run
        [chunk_on 6 (frame_update [("titi", .string "2")])]).2,
      w.1 = 5 → w.2.is_event = false) ∧
    registry_find (fixture_two_sessions_end.end_event 5).config_clients_registry_ 6
      = some fixture_client_b :=
  ⟨by decide, by decide, by decide,
   (end_event_tears_down fixture_two_sessions_end 5
      [chunk_on 6 (frame_update [("titi", .string "2")])]
      (reachable_run _ _ reachable_init) (by decide)).2.2.2.2,
   by decide⟩

/-! ## The session after CONFIG_UNLOAD -/

theorem has_loaded_false_iff (c : client) (t : Nat) :
    c.has_loaded t = false ↔ ∀ p ∈ c.config_ids_, p.1 ≠ t := by
  unfold client.has_loaded
  rw [List.any_eq_false]
  simp

theorem remove_temp_id_not_loaded (c : client) (t : Nat) :
    (c.remove_temp_id t).has_loaded t = false := by
  unfold client.remove_temp_id
  split
  · rw [has_loaded_false_iff]
    intro p hp
    simpa using (List.mem_filter.1 hp).2
  · next h => simpa using h

theorem find_filter_other (l : List (Nat × Nat)) (t t' : Nat) (h : t' ≠ t) :
    (l.filter (fun p => !decide (p.1 = t))).find? (fun p => decide (p.1 = t'))
      = l.find? (fun p => decide (p.1 = t')) := by
  induction l with
  | nil => rfl
  | cons p rest ih =>
    by_cases hp : p.1 = t
    · have hp' : ¬ p.1 = t' := fun e => h (e.symm.trans hp)
      rw [List.filter_cons_of_neg (by simp [hp]), List.find?_cons_of_neg _ (by simp [hp']), ih]
    · rw [List.filter_cons_of_pos (by simp [hp])]
      by_cases hp' : p.1 = t'
      · rw [List.find?_cons_of_pos _ (by simp [hp']), List.find?_cons_of_pos _ (by simp [hp'])]
      · rw [List.find?_cons_of_neg _ (by simp [hp']), List.find?_cons_of_neg _ (by simp [hp']),
          ih]

theorem remove_temp_id_other (c : client) (t t' : Nat) (h : t' ≠ t) :
    (c.remove_temp_id t).has_loaded t' = c.has_loaded t' ∧
    (c.remove_temp_id t).get_db_id_from t' = c.get_db_id_from t' := by
  unfold client.remove_temp_id
  split
  · have hfind := find_filter_other c.config_ids_ t t' h
    constructor
    · unfold client.has_loaded
      simp only []
      rw [Bool.eq_iff_iff, List.any_eq_true, List.any_eq_true]
      constructor
      · rintro ⟨p, hp, hpt⟩
        exact ⟨p, (List.mem_filter.1 hp).1, hpt⟩
      · rintro ⟨p, hp, hpt⟩
        refine ⟨p, List.mem_filter.2 ⟨hp, ?_⟩, hpt⟩
        have : p.1 = t' := by simpa using hpt
        simp [this, h]
    · unfold client.get_db_id_from
      simp only []
      rw [hfind]
  · exact ⟨rfl, rfl⟩

theorem remove_temp_id_subscriptions (c : client) (t : Nat) (hl : c.has_loaded t = true) :
    (∀ n, (c.remove_temp_id t).is_subscribed (c.get_db_id_from t) n = false) ∧
    (∀ db n, db ≠ c.get_db_id_from t →
      (c.remove_temp_id t).is_subscribed db n = c.is_subscribed db n) := by
  unfold client.remove_temp_id
  rw [if_pos hl]
  unfold client.is_subscribed
  simp only []
  constructor
  · intro n
    rw [List.any_eq_false]
    intro q hq
    have := (List.mem_filter.1 hq).2
    simp only [Bool.not_eq_true', decide_eq_false_iff_not] at this
    simp only [decide_eq_true_eq]
    intro e
    rw [e] at this
    exact this rfl
  · intro db n hdb
    rw [Bool.eq_iff_iff, List.any_eq_true, List.any_eq_true]
    constructor
    · rintro ⟨q, hq, hqe⟩
      exact ⟨q, (List.mem_filter.1 hq).1, hqe⟩
    · rintro ⟨q, hq, hqe⟩
      refine ⟨q, List.mem_filter.2 ⟨hq, ?_⟩, hqe⟩
      have : q = (db, n) := by simpa using hqe
      simp [this, hdb]

theorem run_not_loaded (sock t : Nat) (evs : List event) :
    ∀ (s : service) (c : client), registry_find s.config_clients_registry_ sock = some c →
      c.has_loaded t = false → t ≤ c.last_id_ → (∀ ev ∈ evs, ev.ends sock = false) →
      ∃ c', registry_find (s.run evs).1.config_clients_registry_ sock = some c' ∧
        c'.has_loaded t = false := by
  induction evs with
  | nil =>
    intro s c hc hn _ _
    exact ⟨c, hc, hn⟩
  | cons ev rest ih =>
    intro s c hc hn hle hend
    obtain ⟨c1, hc1, hcase⟩ := step_session s ev sock c hc (hend ev (List.mem_cons_self _ _))
    have hn1 : c1.has_loaded t = false ∧ t ≤ c1.last_id_ := by
      rw [has_loaded_false_iff] at hn ⊢
      rcases hcase with ⟨h1, h2, _⟩ | ⟨h1, ⟨id, h2⟩, _⟩
      · exact ⟨fun p hp => hn p (h2 p hp), by omega⟩
      · refine ⟨?_, by omega⟩
        intro p hp
        rw [h2] at hp
        simp only [List.mem_append, List.mem_singleton] at hp
        rcases hp with hp | hp
        · exact hn p hp
        · rw [hp]
          simp only []
          omega
    exact ih (s.step ev).svc c1 hc1 hn1.1 hn1.2 (fun e he => hend e (List.mem_cons_of_mem _ he))

theorem registry_entry_of_find (s : service) (hwf : s.wf) (sock : Nat) (c : client)
    (hc : registry_find s.config_clients_registry_ sock = some c) (e : Nat × client)
    (he : e ∈ s.config_clients_registry_) (hsock : e.2.get_socket = sock) : e.2 = c := by
  have h1 : e.1 = sock := by rw [← hwf.2.1 e he]; exact hsock
  have := eq_of_fst_eq _ hwf.1 e (sock, c) he (registry_find_mem _ _ _ hc) h1
  rw [this]


/-- C21: in a reachable state, after CONFIG_UNLOAD of a temp-id t that the session of the
connection has loaded, with C the config_id of t: the session is the one that
`remove_temp_id` gives, and the store and the sessions of the other connections are as they
were; through any events that do not end the connection, t stays not loaded, and
SETTING_UPDATE, SETTING_GET, CONFIG_GET_SETTINGS, CONFIG_GET_SETTINGS_NAMES, CONFIG_INCLUDE
(t given as CONFIG_ID or as SRC) and SUBSCRIBE_SETTING on t reply UNKNOWN_ID; the session has
no subscription on C, and a SETTING_UPDATE or SETTING_REMOVE on C by any connection writes no
event to the connection; the other temp-ids of the session are loaded or not as before and
map to the same config_id, and the subscriptions on the other configurations are the same. -/
theorem unload_drops_session (s : service) (sock : Nat) (c : client) (t : Nat)
    (hr : reachable s)
    (hc : registry_find s.config_clients_registry_ sock = some c)
    (hl : c.has_loaded t = true) :
    registry_find (s.unload_config { id := t } sock).svc.config_clients_registry_ sock
      = some (c.remove_temp_id t) ∧
    (s.unload_config { id := t } sock).svc.db_ = s.db_ ∧
    (∀ fd, fd ≠ sock →
      registry_find (s.unload_config { id := t } sock).svc.config_clients_registry_ fd
        = registry_find s.config_clients_registry_ fd) ∧
    (∀ evs : List event, (∀ ev ∈ evs, ev.ends sock = false) →
      ∃ c', registry_find
          ((s.unload_config { id := t } sock).svc.run evs).1.config_clients_registry_ sock
            = some c' ∧
        c'.has_loaded t = false ∧
        (∀ upd, (((s.unload_config { id := t } sock).svc.run evs).1.update_setting
          { id := t, settings_to_update := upd } sock).out = [(sock, .state "UNKNOWN_ID")]) ∧
        (∀ n, (((s.unload_config { id := t } sock).svc.run evs).1.get_setting
          { id := t, setting_name := n } sock).out = [(sock, .state "UNKNOWN_ID")]) ∧
        (((s.unload_config { id := t } sock).svc.run evs).1.get_all_settings
          { id := t } sock).out = [(sock, .state "UNKNOWN_ID")] ∧
        (((s.unload_config { id := t } sock).svc.run evs).1.get_settings_names
          { id := t } sock).out = [(sock, .state "UNKNOWN_ID")] ∧
        (∀ src, (((s.unload_config { id := t } sock).svc.run evs).1.include_config
          { id := t, src_id := src } sock).out = [(sock, .state "UNKNOWN_ID")]) ∧
        (∀ dst, (((s.unload_config { id := t } sock).svc.run evs).1.include_config
          { id := dst, src_id := t } sock).out = [(sock, .state "UNKNOWN_ID")]) ∧
        (∀ n a, (((s.unload_config { id := t } sock).svc.run evs).1.subscribe_setting
          { id := t, setting_name := n, alias_name := a } sock).out
            = [(sock, .state "UNKNOWN_ID")])) ∧
    (∀ n, (c.remove_temp_id t).is_subscribed (c.get_db_id_from t) n = false) ∧
    (∀ (fd : Nat) (c2 : client) (cfg : setting_update),
      registry_find (s.unload_config { id := t } sock).svc.config_clients_registry_ fd
        = some c2 →
      c2.get_db_id_from cfg.id = c.get_db_id_from t →
      ∀ w ∈ ((s.unload_config { id := t } sock).svc.update_setting cfg fd).out,
        w.2.is_event = true → w.1 ≠ sock) ∧
    (∀ (fd : Nat) (c2 : client) (cfg : setting_remove),
      registry_find (s.unload_config { id := t } sock).svc.config_clients_registry_ fd
        = some c2 →
      c2.get_db_id_from cfg.id = c.get_db_id_from t →
      ∀ w ∈ ((s.unload_config { id := t } sock).svc.remove_setting cfg fd).out,
        w.2.is_event = true → w.1 ≠ sock) ∧
    (∀ t', t' ≠ t →
      (c.remove_temp_id t).has_loaded t' = c.has_loaded t' ∧
      (c.remove_temp_id t).get_db_id_from t' = c.get_db_id_from t') ∧
    (∀ db n, db ≠ c.get_db_id_from t →
      (c.remove_temp_id t).is_subscribed db n = c.is_subscribed db n) := by
  have hsvc : (s.unload_config { id := t } sock).svc
      = { s with
          config_clients_registry_ :=
            registry_assign s.config_clients_registry_ sock (c.remove_temp_id t) } := by
    simp [service.unload_config, hc, reply]
  have hfind : registry_find (s.unload_config { id := t } sock).svc.config_clients_registry_
      sock = some (c.remove_temp_id t) := by
    rw [hsvc]
    exact registry_find_assign _ sock c _ hc
  have hwf : (s.unload_config { id := t } sock).svc.wf :=
    unload_config_wf s _ sock (reachable_wf s hr)
  have hcwf : c.wf := (reachable_wf s hr).2.2 (sock, c) (registry_find_mem _ _ _ hc)
  have hle : t ≤ (c.remove_temp_id t).last_id_ := by
    rw [remove_temp_id_last]
    unfold client.has_loaded at hl
    rw [List.any_eq_true] at hl
    obtain ⟨p, hp, hpt⟩ := hl
    have := (hcwf.2.1 p hp).2
    have hpt' : p.1 = t := by simpa using hpt
    omega
  obtain ⟨hsub, hsub'⟩ := remove_temp_id_subscriptions c t hl
  have hno : ∀ (e : Nat × client),
      e ∈ (s.unload_config { id := t } sock).svc.config_clients_registry_ →
      ∀ n, e.2.is_subscribed (c.get_db_id_from t) n = true → e.2.get_socket ≠ sock := by
    intro e he n hn hsock
    have := registry_entry_of_find _ hwf sock _ hfind e he hsock
    rw [this, hsub n] at hn
    cases hn
  refine ⟨hfind, by rw [hsvc], ?_, ?_, hsub, ?_, ?_, fun t' ht' => remove_temp_id_other c t t' ht',
    hsub'⟩
  · intro fd hfd
    rw [hsvc]
    exact registry_find_assign_other _ _ _ _ hfd
  · intro evs hend
    obtain ⟨c', hc', hn⟩ := run_not_loaded sock t evs _ _ hfind (remove_temp_id_not_loaded c t)
      hle hend
    refine ⟨c', hc', hn, ?_, ?_, ?_, ?_, ?_, ?_, ?_⟩
    · intro upd
      simp [service.update_setting, hc', hn, reply, send_state, convert_request_state]
    · intro n
      simp [service.get_setting, hc', hn, reply, send_state, convert_request_state]
    · simp [service.get_all_settings, hc', hn, reply, send_state, convert_request_state]
    · simp [service.get_settings_names, hc', hn, reply, send_state, convert_request_state]
    · intro src
      simp [service.include_config, hc', hn, reply, send_state, convert_request_state]
    · intro dst
      simp [service.include_config, hc', hn, reply, send_state, convert_request_state]
    · intro n a
      simp [service.subscribe_setting, hc', hn, reply, send_state, convert_request_state]
  · intro fd c2 cfg hc2 hdb w hw hev hw1
    rcases update_setting_out _ cfg fd with h | ⟨st, h⟩ | ⟨c3, hc3, h⟩
    · rw [h] at hw; cases hw
    · rw [h] at hw
      simp only [List.mem_singleton] at hw
      rw [hw] at hev
      simp [send_state, answer.is_event] at hev
    · rw [hc2] at hc3
      cases hc3
      rw [h] at hw
      simp only [List.mem_cons] at hw
      rcases hw with hw | hw
      · rw [hw] at hev
        simp [send_state, answer.is_event] at hev
      · obtain ⟨_, e, he, n, hn, hsock⟩ := update_events_recipients _ _ _ w hw
        rw [hdb] at hn
        exact hno e he n hn (hsock.symm.trans hw1)
  · intro fd c2 cfg hc2 hdb w hw hev hw1
    rcases remove_setting_out _ cfg fd with h | ⟨c3, hc3, _, h⟩
    · rw [h] at hw
      simp only [List.mem_singleton] at hw
      rw [hw] at hev
      simp [send_state, answer.is_event] at hev
    · rw [hc2] at hc3
      cases hc3
      rw [h] at hw
      simp only [List.mem_cons] at hw
      rcases hw with hw | hw
      · rw [hw] at hev
        simp [send_state, answer.is_event] at hev
      · obtain ⟨_, e, he, n, hn, hsock⟩ := remove_events_recipients _ _ _ w hw
        rw [hdb] at hn
        exact hno e he n hn (hsock.symm.trans hw1)


/-- Witness for C21: connection 5, which has loaded `ma_config` as temp-id 1 and is
subscribed to `titi`, unloads temp-id 1: a SETTING_GET on temp-id 1 then replies UNKNOWN_ID,
and the SETTING_UPDATE of `titi` by connection 6 writes its SUCCESS reply and no event. -/
theorem unload_drops_session_witness :
    registry_find fixture_two_sessions_end.config_clients_registry_ 5 = some fixture_client_a ∧
    fixture_client_a.has_loaded 1 = true ∧
    registry_find
        (fixture_two_sessions_end.unload_config { id := 1 } 5).svc.config_clients_registry_ 5
      = some { socket_ := 5, last_id_ := 1, config_ids_ := [], subscriptions_ := [] } ∧
    ((fixture_two_sessions_end.unload_config { id := 1 } 5).svc.get_setting
        { id := 1, setting_name := "titi" } 5).out = [(5, .state "UNKNOWN_ID")] ∧
    ((fixture_two_sessions_end.unload_config { id := 1 } 5).svc.step
        (chunk_on 6 (frame_update [("titi", .string "2")]))).out = [(6, .state "SUCCESS")] ∧
    registry_find
        (fixture_two_sessions_end.unload_config { id := 1 } 5).svc.config_clients_registry_ 5
      = some (fixture_client_a.remove_temp_id 1) :=
  ⟨by decide, by decide, by decide, by decide, by decide,
   (unload_drops_session fixture_two_sessions_end 5 fixture_client_a 1
      (reachable_run _ _ reachable_init) (by decide) (by decide)).1⟩

end raven
